import Mathlib

/-!
Verification of the acidgrid generative composition engine.

This file gives a shallow embedding, in Lean 4, of the core of the
`acidgrid` repository: the song-structure planner (`song_structure.py`)
and the five track generators (`rhythm.py`, `bassline.py`, `sub_bass.py`,
`synth_accompaniment.py`, `synth_lead.py`), together with theorems about
the embedded definitions.

Modelling conventions:
* Python floats are modelled as rationals (`ℚ`); Python ints as `ℤ`/`ℕ`.
* The shared pseudo-random source (Python's global `random` module) is
  modelled as an explicit stream of rationals together with a cursor
  (`RS` below).  Each primitive draw (`random.random`, `random.uniform`,
  `random.randint`, `random.choice`, `random.choices`, `random.sample`)
  consumes values from the stream; a value is normalised into `[0,1)`.
  Every stochastic function of the source code is embedded as an explicit
  state-passing function `… → RS → result × RS`.
* `int(x)` is Python truncation toward zero (`pyInt`), `x // y` on
  non-negative ints is `Nat` division, and `%` on ints with a positive
  modulus is Euclidean mod.
* Generator output events carry a tag (`EvKind.on` / `EvKind.off`)
  recording which emission site of the source produced them: the sub-bass
  generator explicitly appends a note-off after each note-on (its code
  comment: "Note off after duration"), while every emission site of the
  other four generators produces a plain hit (a note-on; the excluded
  MIDI sink synthesises note-offs for those).
-/

namespace AG

/-- Truncation toward zero, Python's `int(x)` on a float. -/
def pyInt (q : ℚ) : ℤ := if 0 ≤ q then ⌊q⌋ else -⌊-q⌋

/-- State of the shared pseudo-random source: a stream of rationals and a
cursor.  Mirrors Python's seeded global `random` generator: the stream is
fixed by the seed, and each draw advances the cursor. -/
structure RS where
  f : ℕ → ℚ
  ix : ℕ
deriving Inhabited

/-- Normalise a stream value into `[0,1)`, the range of `random.random()`. -/
def u01 (q : ℚ) : ℚ := if 0 ≤ q ∧ q < 1 then q else 0

/-- `random.random()`: one draw from the stream, a rational in `[0,1)`. -/
def randU (s : RS) : ℚ × RS := (u01 (s.f s.ix), ⟨s.f, s.ix + 1⟩)

/-- `random.uniform(a, b)`. -/
def pyUniform (a b : ℚ) (s : RS) : ℚ × RS :=
  let p := randU s
  (a + (b - a) * p.1, p.2)

/-- `random.randint(a, b)`: uniform integer in `[a, b]`. -/
def pyRandint (a b : ℤ) (s : RS) : ℤ × RS :=
  let p := randU s
  (a + ⌊p.1 * ((b : ℚ) - (a : ℚ) + 1)⌋, p.2)

/-- `random.choice(l)` (with a default for the empty list, on which Python
raises; the sources never call it on an empty list). -/
def pyChoice {α : Type} (l : List α) (d : α) (s : RS) : α × RS :=
  let p := randU s
  (l.getD (⌊p.1 * (l.length : ℚ)⌋).toNat d, p.2)

/-- Walk a cumulative-weight list, used by `pyChoices`. -/
def pickWeighted {α : Type} : List (α × ℚ) → α → ℚ → α
  | [], d, _ => d
  | (a, w) :: rest, d, x => if x < w then a else pickWeighted rest d (x - w)

/-- `random.choices(l, weights)[0]`: one weighted draw. -/
def pyChoices {α : Type} (l : List α) (ws : List ℚ) (d : α) (s : RS) : α × RS :=
  let p := randU s
  let total := ws.foldl (· + ·) 0
  (pickWeighted (l.zip ws) d (p.1 * total), p.2)

/-- `random.sample(l, k)`: `k` distinct positions, drawn one by one. -/
def pySample {α : Type} (d : α) : List α → ℕ → RS → List α × RS
  | _, 0, s => ([], s)
  | l, k + 1, s =>
    let p := randU s
    let i := (⌊p.1 * (l.length : ℚ)⌋).toNat
    let x := l.getD i d
    let q := pySample d (l.eraseIdx i) k p.2
    (x :: q.1, q.2)

/-- Is `n` a (list-level) prefix of `h`? -/
def prefChars : List Char → List Char → Bool
  | [], _ => true
  | _ :: _, [] => false
  | a :: as, b :: bs => a = b && prefChars as bs

/-- Does `h` contain `n` as a contiguous sublist?  (Python's `n in h`.) -/
def subChars (n : List Char) : List Char → Bool
  | [] => n.isEmpty
  | b :: t => prefChars n (b :: t) || subChars n t

/-- Python's `hay.startswith(needle)`. -/
def strStarts (hay needle : String) : Bool := prefChars needle.data hay.data

/-- Python's `needle in hay` on strings. -/
def strHas (hay needle : String) : Bool := subChars needle.data hay.data

/-- Python's `s.rstrip("0123456789")`. -/
def rstripDigits (s : String) : String :=
  ⟨(s.data.reverse.dropWhile Char.isDigit).reverse⟩

/-- Lookup in an association list with a default (Python `dict.get(k, d)`). -/
def lookupD {α : Type} (l : List (String × α)) (k : String) (d : α) : α :=
  ((l.find? fun p => p.1 = k).map Prod.snd).getD d

/-- Membership test on an association list (Python `k in dict`). -/
def hasKey {α : Type} (l : List (String × α)) (k : String) : Bool :=
  (l.find? fun p => p.1 = k).isSome

/-- Clamp to the MIDI velocity range, `max(1, min(127, v))`. -/
def clamp127 (v : ℤ) : ℤ := max 1 (min 127 v)

/-- Kind tag of an output event: which emission site produced it. -/
inductive EvKind where
  | on : EvKind
  | off : EvKind
deriving DecidableEq, Repr

/-- One output event: `(time_seconds, midi_note, velocity)` plus its kind. -/
structure Ev where
  t : ℚ
  note : ℤ
  vel : ℤ
  kind : EvKind
deriving DecidableEq, Repr

/-! ## Style catalog (`music_styles.py`) -/

/-- `MusicStyle` dataclass from `music_styles.py`. -/
structure MusicStyle where
  name : String
  tempo_lo : ℤ
  tempo_hi : ℤ
  default_tempo : ℤ
  rhythm_patterns : List String
  bassline_riffs : List String
  structure_type : String
  intensity_curve : String
  synth_density : ℚ
  default_swing : ℚ
deriving DecidableEq, Repr

def styleHouse : MusicStyle :=
  ⟨"house", 120, 128, 124, ["driving", "minimal"],
   ["detroit_funk", "chicago_jack", "hypnotic_loop"], "classic", "smooth", 4/5, 3/10⟩

def styleTechno : MusicStyle :=
  ⟨"techno", 128, 135, 128, ["driving", "complex", "minimal"],
   ["acid_303", "berlin_minimal", "warehouse_stomp", "rolling_thunder"],
   "progressive", "building", 7/10, 1/10⟩

def styleHardTekno : MusicStyle :=
  ⟨"hard-tekno", 150, 170, 160, ["driving", "rolling", "complex"],
   ["acid_303", "sub_pressure", "uk_rave", "techno_gallop"], "aggressive", "intense", 3/5, 0⟩

def styleBreakbeat : MusicStyle :=
  ⟨"breakbeat", 130, 150, 138, ["breakbeat", "complex"],
   ["uk_rave", "rolling_thunder", "detroit_funk"], "breakbeat", "dynamic", 7/10, 1/5⟩

def styleIdm : MusicStyle :=
  ⟨"idm", 140, 180, 160, ["complex", "breakbeat", "minimal"],
   ["hypnotic_loop", "sub_pressure", "techno_gallop"], "experimental", "erratic", 9/10, 2/5⟩

def styleJungle : MusicStyle :=
  ⟨"jungle", 160, 180, 170, ["breakbeat", "complex", "rolling"],
   ["sub_pressure", "rolling_thunder", "uk_rave"], "jungle", "frenetic", 3/5, 7/20⟩

def styleHipHop : MusicStyle :=
  ⟨"hip-hop", 85, 95, 90, ["minimal", "breakbeat"],
   ["detroit_funk", "warehouse_stomp", "sub_pressure"], "hip-hop", "laid_back", 1/2, 1/2⟩

def styleTrap : MusicStyle :=
  ⟨"trap", 140, 160, 150, ["minimal", "rolling"],
   ["sub_pressure", "warehouse_stomp", "hypnotic_loop"], "trap", "trap_wave", 7/10, 1/10⟩

def styleAmbient : MusicStyle :=
  ⟨"ambient", 60, 90, 75, ["minimal"],
   ["berlin_minimal", "sub_pressure", "hypnotic_loop"], "ambient", "atmospheric", 9/10, 0⟩

def styleDnb : MusicStyle :=
  ⟨"drum&bass", 170, 180, 174, ["breakbeat", "complex", "rolling"],
   ["sub_pressure", "rolling_thunder", "techno_gallop", "acid_303"], "dnb", "energetic", 7/10, 1/5⟩

/-- `MUSIC_STYLES` dictionary. -/
def MUSIC_STYLES : List (String × MusicStyle) :=
  [("house", styleHouse), ("techno", styleTechno), ("hard-tekno", styleHardTekno),
   ("breakbeat", styleBreakbeat), ("idm", styleIdm), ("jungle", styleJungle),
   ("hip-hop", styleHipHop), ("trap", styleTrap), ("ambient", styleAmbient),
   ("drum&bass", styleDnb)]

/-! ## Song structure (`song_structure.py`) -/

/-- The `Section` dataclass: name, start measure (inclusive), end measure
(exclusive), intensity, key, scale label, description. -/
structure MSection where
  name : String
  startM : ℕ
  endM : ℕ
  intensity : ℚ
  key : String
  scaleName : String
  descr : String
deriving DecidableEq, Repr

/-- `SongStructure.KEYS`: key name, scale notes, relative major. -/
def KEYS : List (String × (List ℤ × String)) :=
  [("A_minor", ([57, 59, 60, 62, 64, 65, 67, 69], "C_major")),
   ("D_minor", ([62, 64, 65, 67, 69, 70, 72, 74], "F_major")),
   ("E_minor", ([64, 66, 67, 69, 71, 72, 74, 76], "G_major")),
   ("F_minor", ([65, 67, 68, 70, 72, 73, 75, 77], "Ab_major")),
   ("G_minor", ([67, 69, 70, 72, 74, 75, 77, 79], "Bb_major"))]

/-- `SongStructure.PROGRESSIONS`: mood name to 4-chord progression. -/
def PROGRESSIONS : List (String × List String) :=
  [("dark", ["i", "iv", "i", "v"]),
   ("uplifting", ["i", "VI", "III", "VII"]),
   ("driving", ["i", "i", "i", "i"]),
   ("emotional", ["i", "v", "VI", "iv"]),
   ("tension", ["i", "bII", "i", "v"])]

/-- `SongStructure._create_default_structure`. -/
def create_default_structure (total : ℕ) : List MSection :=
  if total ≤ 32 then
    [⟨"intro", 0, 4, 3/10, "A_minor", "minor", "Minimal intro"⟩,
     ⟨"main", 4, 24, 4/5, "A_minor", "minor", "Main groove"⟩,
     ⟨"outro", 24, total, 2/5, "A_minor", "minor", "Fade out"⟩]
  else if total ≤ 64 then
    [⟨"intro", 0, 8, 1/5, "A_minor", "minor", "Atmospheric intro"⟩,
     ⟨"buildup", 8, 16, 1/2, "A_minor", "minor", "Energy building"⟩,
     ⟨"drop", 16, 32, 9/10, "A_minor", "minor", "Main drop"⟩,
     ⟨"breakdown", 32, 40, 2/5, "D_minor", "minor", "Melodic breakdown"⟩,
     ⟨"buildup2", 40, 48, 3/5, "A_minor", "minor", "Second build"⟩,
     ⟨"drop2", 48, 56, 1, "A_minor", "minor", "Peak energy"⟩,
     ⟨"outro", 56, total, 3/10, "A_minor", "minor", "Cool down"⟩]
  else
    let sl := total / 8
    [⟨"intro", 0, sl, 1/5, "A_minor", "minor", "Atmospheric opening"⟩,
     ⟨"verse1", sl, sl * 2, 1/2, "A_minor", "minor", "First verse"⟩,
     ⟨"buildup1", sl * 2, sl * 3, 7/10, "A_minor", "minor", "Rising tension"⟩,
     ⟨"drop1", sl * 3, sl * 4, 19/20, "A_minor", "minor", "First drop"⟩,
     ⟨"breakdown", sl * 4, sl * 5, 3/10, "D_minor", "minor", "Ambient breakdown"⟩,
     ⟨"buildup2", sl * 5, sl * 6, 4/5, "A_minor", "minor", "Final build"⟩,
     ⟨"drop2", sl * 6, sl * 7, 1, "A_minor", "minor", "Climax"⟩,
     ⟨"outro", sl * 7, total, 1/5, "A_minor", "minor", "Fade out"⟩]

/-- `SongStructure._create_ambient_structure`. -/
def create_ambient_structure (total : ℕ) : List MSection :=
  let sl := max 16 (total / 4)
  [⟨"intro", 0, sl, 1/5, "A_minor", "minor", "Atmospheric opening"⟩,
   ⟨"evolution", sl, sl * 2, 2/5, "D_minor", "minor", "Textural evolution"⟩,
   ⟨"plateau", sl * 2, sl * 3, 1/2, "E_minor", "minor", "Sustained plateau"⟩,
   ⟨"outro", sl * 3, total, 3/10, "A_minor", "minor", "Gentle fade"⟩]

/-- `SongStructure._create_hiphop_structure`. -/
def create_hiphop_structure (total : ℕ) : List MSection :=
  if total ≤ 32 then
    [⟨"intro", 0, 4, 3/10, "A_minor", "minor", "Beat intro"⟩,
     ⟨"verse1", 4, 12, 3/5, "A_minor", "minor", "First verse"⟩,
     ⟨"hook", 12, 20, 4/5, "A_minor", "minor", "Hook"⟩,
     ⟨"verse2", 20, 28, 7/10, "A_minor", "minor", "Second verse"⟩,
     ⟨"outro", 28, total, 2/5, "A_minor", "minor", "Fade out"⟩]
  else
    let sl := total / 8
    [⟨"intro", 0, sl, 3/10, "A_minor", "minor", "Beat intro"⟩,
     ⟨"verse1", sl, sl * 2, 3/5, "A_minor", "minor", "First verse"⟩,
     ⟨"hook1", sl * 2, sl * 3, 4/5, "A_minor", "minor", "Hook"⟩,
     ⟨"verse2", sl * 3, sl * 4, 7/10, "D_minor", "minor", "Second verse"⟩,
     ⟨"bridge", sl * 4, sl * 5, 1/2, "E_minor", "minor", "Bridge"⟩,
     ⟨"verse3", sl * 5, sl * 6, 7/10, "A_minor", "minor", "Third verse"⟩,
     ⟨"hook2", sl * 6, sl * 7, 9/10, "A_minor", "minor", "Final hook"⟩,
     ⟨"outro", sl * 7, total, 3/10, "A_minor", "minor", "Outro"⟩]

/-- `SongStructure._create_trap_structure`. -/
def create_trap_structure (total : ℕ) : List MSection :=
  let sl := max 8 (total / 6)
  [⟨"intro", 0, sl, 3/10, "A_minor", "minor", "Minimal intro"⟩,
   ⟨"buildup1", sl, sl * 2, 3/5, "A_minor", "minor", "First buildup"⟩,
   ⟨"drop1", sl * 2, sl * 3, 19/20, "A_minor", "minor", "Hard drop"⟩,
   ⟨"break", sl * 3, sl * 4, 2/5, "D_minor", "minor", "Break section"⟩,
   ⟨"buildup2", sl * 4, sl * 5, 4/5, "A_minor", "minor", "Final buildup"⟩,
   ⟨"drop2", sl * 5, total, 1, "A_minor", "minor", "Peak drop"⟩]

/-- `SongStructure._create_breakbeat_structure`. -/
def create_breakbeat_structure (total : ℕ) : List MSection :=
  let sl := max 8 (total / 6)
  [⟨"intro", 0, sl, 2/5, "A_minor", "minor", "Drum intro"⟩,
   ⟨"main1", sl, sl * 2, 17/20, "A_minor", "minor", "Main section"⟩,
   ⟨"breakdown", sl * 2, sl * 3, 3/10, "D_minor", "minor", "Atmospheric break"⟩,
   ⟨"buildup", sl * 3, sl * 4, 7/10, "A_minor", "minor", "Tension build"⟩,
   ⟨"main2", sl * 4, sl * 5, 19/20, "A_minor", "minor", "Peak energy"⟩,
   ⟨"outro", sl * 5, total, 1/2, "A_minor", "minor", "Outro"⟩]

/-- `SongStructure._create_aggressive_structure`. -/
def create_aggressive_structure (total : ℕ) : List MSection :=
  let sl := max 8 (total / 5)
  [⟨"intro", 0, sl, 7/10, "A_minor", "minor", "Aggressive intro"⟩,
   ⟨"main1", sl, sl * 2, 19/20, "A_minor", "minor", "Peak intensity"⟩,
   ⟨"breakdown", sl * 2, sl * 3, 3/5, "D_minor", "minor", "Brief respite"⟩,
   ⟨"main2", sl * 3, sl * 4, 1, "A_minor", "minor", "Maximum energy"⟩,
   ⟨"outro", sl * 4, total, 4/5, "A_minor", "minor", "Intense outro"⟩]

/-- `SongStructure._create_structure`: template dispatch on
`style.structure_type`. -/
def create_structure (total : ℕ) (style : Option MusicStyle) : List MSection :=
  match style with
  | none => create_default_structure total
  | some st =>
    if st.structure_type = "ambient" then create_ambient_structure total
    else if st.structure_type = "hip-hop" then create_hiphop_structure total
    else if st.structure_type = "trap" then create_trap_structure total
    else if st.structure_type = "breakbeat" ∨ st.structure_type = "jungle" ∨
            st.structure_type = "dnb" then create_breakbeat_structure total
    else if st.structure_type = "aggressive" then create_aggressive_structure total
    else create_default_structure total

/-- The `SongStructure` object after `__init__`. -/
structure SongS where
  total_measures : ℕ
  style : Option MusicStyle
  sections : List MSection
  current_key : String
  mood : String
deriving DecidableEq

/-- `SongStructure._choose_mood_for_style`. -/
def choose_mood_for_style (style : Option MusicStyle) (s : RS) : String × RS :=
  match style with
  | none => pyChoice (PROGRESSIONS.map Prod.fst) "dark" s
  | some st =>
    let style_moods : List (String × List String) :=
      [("house", ["uplifting", "emotional", "dark"]),
       ("techno", ["dark", "driving", "tension"]),
       ("hard-tekno", ["driving", "tension", "dark"]),
       ("breakbeat", ["uplifting", "driving"]),
       ("idm", ["tension", "dark", "emotional"]),
       ("jungle", ["dark", "driving", "tension"]),
       ("hip-hop", ["emotional", "dark"]),
       ("trap", ["dark", "tension"]),
       ("ambient", ["emotional", "uplifting"]),
       ("drum&bass", ["dark", "driving", "tension"])]
    let moods := lookupD style_moods st.name (PROGRESSIONS.map Prod.fst)
    pyChoice moods "dark" s

/-- `SongStructure.__init__(total_measures, style)`: builds the section
list, then draws the starting key and the mood from the shared source. -/
def mkSongStructure (total : ℕ) (style : Option MusicStyle) (s : RS) : SongS × RS :=
  let sections := create_structure total style
  let p := pyChoice (KEYS.map Prod.fst) "A_minor" s
  let q := choose_mood_for_style style p.2
  (⟨total, style, sections, p.1, q.1⟩, q.2)

/-- Fallback section (never used on the structures the code builds; the
Python code would raise `IndexError` on an empty section list). -/
def dummySection : MSection := ⟨"", 0, 0, 0, "A_minor", "minor", ""⟩

/-- The linear scan inside `SongStructure.get_section`: first section
whose half-open measure range contains `m`. -/
def find_section : List MSection → ℤ → Option MSection
  | [], _ => none
  | sec :: rest, m =>
    if (sec.startM : ℤ) ≤ m ∧ m < (sec.endM : ℤ) then some sec else find_section rest m

/-- `SongStructure.get_section(measure)`: containing section, defaulting
to the last section. -/
def get_section (st : SongS) (m : ℤ) : MSection :=
  (find_section st.sections m).getD (st.sections.getLastD dummySection)

/-- The search for the section following `sec` inside
`SongStructure.get_intensity`: the element after the first occurrence of
`sec`, provided that occurrence is not in last position. -/
def find_next : List MSection → MSection → Option MSection
  | [], _ => none
  | [_], _ => none
  | a :: b :: rest, sec => if a = sec then some b else find_next (b :: rest) sec

/-- `(measure - section.start_measure) / max(1, section.end_measure -
section.start_measure)`, shared by `get_intensity` and
`get_velocity_curve`. -/
def position_in_section (sec : MSection) (m : ℤ) : ℚ :=
  ((m : ℚ) - (sec.startM : ℚ)) / ((max 1 ((sec.endM : ℤ) - (sec.startM : ℤ)) : ℤ) : ℚ)

/-- `SongStructure.get_intensity(measure)`. -/
def get_intensity (st : SongS) (m : ℤ) : ℚ :=
  let sec := get_section st m
  let p := position_in_section sec m
  match find_next st.sections sec with
  | some nxt =>
    if p > 3/4 then sec.intensity + (nxt.intensity - sec.intensity) * ((p - 3/4) * 4)
    else sec.intensity
  | none => sec.intensity

/-- `SongStructure.get_velocity_curve(measure, base_velocity)`. -/
def get_velocity_curve (st : SongS) (m : ℤ) (base : ℤ) (s : RS) : ℤ × RS :=
  let intensity := get_intensity st m
  let sec := get_section st m
  let p :=
    if strStarts sec.name "buildup" then
      ((7 : ℚ)/10 + 3/10 * position_in_section sec m, s)
    else if strStarts sec.name "drop" then
      let q := pyUniform (-1/10) (1/10) s
      (1 + q.1, q.2)
    else if sec.name = "breakdown" then
      let q := pyUniform (-1/10) (1/10) s
      (6/10 + q.1, q.2)
    else (intensity, s)
  let j := pyUniform (-1/20) (1/20) p.2
  (clamp127 (pyInt ((base : ℚ) * (p.1 + j.1))), j.2)

/-- `SongStructure.should_play_instrument(measure, instrument)`.  The
Python `rules` dict literal is evaluated eagerly, consuming fifteen draws
in source order, before the section-type lookup. -/
def should_play_instrument (st : SongS) (m : ℤ) (instrument : String) (s : RS) : Bool × RS :=
  let sec := get_section st m
  let d0 := randU s
  let d1 := randU d0.2
  let d2 := randU d1.2
  let d3 := randU d2.2
  let d4 := randU d3.2
  let d5 := randU d4.2
  let d6 := randU d5.2
  let d7 := randU d6.2
  let d8 := randU d7.2
  let d9 := randU d8.2
  let d10 := randU d9.2
  let d11 := randU d10.2
  let d12 := randU d11.2
  let d13 := randU d12.2
  let d14 := randU d13.2
  let rules : List (String × List (String × Bool)) :=
    [("intro",
      [("drums", decide (d0.1 < 3/10)), ("bass", decide (d1.1 < 1/5)),
       ("sub_bass", false), ("synth_accomp", decide (d2.1 < 2/5)),
       ("synth_lead", decide (d3.1 < 1/10))]),
     ("buildup",
      [("drums", true), ("bass", true), ("sub_bass", decide (d4.1 < 7/10)),
       ("synth_accomp", true), ("synth_lead", decide (d5.1 < 1/2))]),
     ("drop",
      [("drums", true), ("bass", true), ("sub_bass", true),
       ("synth_accomp", true), ("synth_lead", decide (d6.1 < 4/5))]),
     ("breakdown",
      [("drums", decide (d7.1 < 2/5)), ("bass", decide (d8.1 < 3/5)),
       ("sub_bass", decide (d9.1 < 3/10)), ("synth_accomp", true),
       ("synth_lead", decide (d10.1 < 7/10))]),
     ("outro",
      [("drums", decide (d11.1 < 1/2)), ("bass", decide (d12.1 < 2/5)),
       ("sub_bass", false), ("synth_accomp", decide (d13.1 < 3/5)),
       ("synth_lead", decide (d14.1 < 3/10))])]
  let sectionType := rstripDigits sec.name
  let sectionType' :=
    if hasKey rules sectionType then sectionType
    else if strHas sectionType "build" then "buildup" else "drop"
  let tbl := lookupD rules sectionType' (lookupD rules "drop" [])
  (lookupD tbl instrument true, d14.2)

/-- The dictionary returned by `SongStructure.get_harmonic_context`. -/
structure HarmCtx where
  key : String
  scale : List ℤ
  chord : String
  sectionName : String
  intensity : ℚ
deriving DecidableEq, Repr

/-- `SongStructure.get_harmonic_context(measure)`. -/
def get_harmonic_context (st : SongS) (m : ℤ) : HarmCtx :=
  let sec := get_section st m
  let progression := lookupD PROGRESSIONS st.mood []
  let measuresInSection := m - (sec.startM : ℤ)
  let chordIndex := (measuresInSection.ediv 4).emod (progression.length : ℤ)
  let chord := progression.getD chordIndex.toNat "i"
  ⟨sec.key, (lookupD KEYS sec.key ([], "")).1, chord, sec.name, get_intensity st m⟩

/-! ## Root-note derivation of the bass generators -/

/-- `BasslineGenerator._get_root_note(context)`. -/
def bassline_get_root_note (ctx : HarmCtx) : ℤ :=
  let key_roots : List (String × ℤ) :=
    [("A_minor", 33), ("D_minor", 38), ("E_minor", 40), ("F_minor", 41), ("G_minor", 43)]
  let chord_offsets : List (String × ℤ) :=
    [("i", 0), ("ii", 2), ("III", 3), ("iv", 5), ("v", 7), ("VI", 8), ("VII", 10), ("bII", 1)]
  lookupD key_roots ctx.key 33 + lookupD chord_offsets ctx.chord 0

/-- `SubBassGenerator._get_root_note(context)`. -/
def sub_bass_get_root_note (ctx : HarmCtx) : ℤ :=
  let key_roots : List (String × ℤ) :=
    [("A_minor", 21), ("D_minor", 26), ("E_minor", 28), ("F_minor", 29), ("G_minor", 31)]
  let chord_offsets : List (String × ℤ) :=
    [("i", 0), ("ii", 2), ("III", 3), ("iv", 5), ("V", 7), ("VI", 8), ("VII", 10), ("bVII", 10)]
  lookupD key_roots ctx.key 21 + lookupD chord_offsets ctx.chord 0

/-! ## Well-formedness of section lists -/

/-- `chainFrom b l total`: the sections of `l` start at `b`, are
contiguous (each end is the next start) and non-inverted, and the final
end is `total`. -/
def chainFrom (b : ℕ) : List MSection → ℕ → Bool
  | [], total => b == total
  | sec :: rest, total =>
    (sec.startM == b) && decide (sec.startM ≤ sec.endM) && chainFrom sec.endM rest total

/-- Well-formed section list for a track of `total` measures. -/
def structureOk (l : List MSection) (total : ℕ) : Bool :=
  !l.isEmpty && chainFrom 0 l total

/-- The coverage property claimed by the spec: a measure is inside some
section exactly when it is inside `[0, total)`. -/
def coversExactly (l : List MSection) (total : ℕ) : Prop :=
  ∀ m : ℕ, (∃ sec ∈ l, sec.startM ≤ m ∧ m < sec.endM) ↔ m < total

/-- The full bundle claimed for `SongStructure` section lists: coverage
of `[0, total)`, pairwise disjointness in ascending order, non-inverted
sections, and final end equal to `total`. -/
def sectionsClaim (l : List MSection) (total : ℕ) : Prop :=
  l ≠ [] ∧ coversExactly l total ∧
  List.Pairwise (fun a b => a.endM ≤ b.startM) l ∧
  (∀ sec ∈ l, sec.startM ≤ sec.endM) ∧
  (l.getLastD dummySection).endM = total

theorem chainFrom_le {l : List MSection} {b total : ℕ} (h : chainFrom b l total = true) :
    b ≤ total := by
  induction l generalizing b with
  | nil => simp [chainFrom] at h; omega
  | cons sec rest ih =>
    simp only [chainFrom, Bool.and_eq_true, beq_iff_eq, decide_eq_true_eq] at h
    obtain ⟨⟨h1, h2⟩, h3⟩ := h
    have := ih h3
    omega

theorem chainFrom_start_le {l : List MSection} {b total : ℕ}
    (h : chainFrom b l total = true) : ∀ sec ∈ l, b ≤ sec.startM := by
  induction l generalizing b with
  | nil => simp
  | cons s rest ih =>
    simp only [chainFrom, Bool.and_eq_true, beq_iff_eq, decide_eq_true_eq] at h
    obtain ⟨⟨h1, h2⟩, h3⟩ := h
    intro c hc
    rcases List.mem_cons.mp hc with rfl | hc
    · omega
    · have := ih h3 c hc
      omega

theorem chainFrom_covers {l : List MSection} {b total : ℕ}
    (h : chainFrom b l total = true) :
    ∀ m : ℕ, (∃ sec ∈ l, sec.startM ≤ m ∧ m < sec.endM) ↔ (b ≤ m ∧ m < total) := by
  induction l generalizing b with
  | nil =>
    simp only [chainFrom, beq_iff_eq] at h
    intro m
    subst h
    simp
  | cons s rest ih =>
    simp only [chainFrom, Bool.and_eq_true, beq_iff_eq, decide_eq_true_eq] at h
    obtain ⟨⟨h1, h2⟩, h3⟩ := h
    intro m
    have hrest := ih h3 m
    have hle := chainFrom_le h3
    constructor
    · rintro ⟨sec, hsec, hm1, hm2⟩
      rcases List.mem_cons.mp hsec with rfl | hsec
      · omega
      · have := hrest.mp ⟨sec, hsec, hm1, hm2⟩
        omega
    · rintro ⟨hbm, hmt⟩
      by_cases hcase : m < s.endM
      · exact ⟨s, List.mem_cons_self s rest, by omega, hcase⟩
      · obtain ⟨sec, hsec, hp⟩ := hrest.mpr (by omega)
        exact ⟨sec, List.mem_cons_of_mem s hsec, hp⟩

theorem chainFrom_pairwise {l : List MSection} {b total : ℕ}
    (h : chainFrom b l total = true) :
    List.Pairwise (fun a c => a.endM ≤ c.startM) l := by
  induction l generalizing b with
  | nil => simp
  | cons s rest ih =>
    simp only [chainFrom, Bool.and_eq_true, beq_iff_eq, decide_eq_true_eq] at h
    obtain ⟨⟨h1, h2⟩, h3⟩ := h
    exact List.Pairwise.cons (fun c hc => chainFrom_start_le h3 c hc) (ih h3)

theorem chainFrom_wf {l : List MSection} {b total : ℕ}
    (h : chainFrom b l total = true) : ∀ sec ∈ l, sec.startM ≤ sec.endM := by
  induction l generalizing b with
  | nil => simp
  | cons s rest ih =>
    simp only [chainFrom, Bool.and_eq_true, beq_iff_eq, decide_eq_true_eq] at h
    obtain ⟨⟨h1, h2⟩, h3⟩ := h
    intro c hc
    rcases List.mem_cons.mp hc with rfl | hc
    · omega
    · exact ih h3 c hc

theorem chainFrom_lastEnd {l : List MSection} {b total : ℕ}
    (h : chainFrom b l total = true) (hne : l ≠ []) :
    (l.getLastD dummySection).endM = total := by
  induction l generalizing b with
  | nil => exact absurd rfl hne
  | cons s rest ih =>
    simp only [chainFrom, Bool.and_eq_true, beq_iff_eq, decide_eq_true_eq] at h
    obtain ⟨⟨h1, h2⟩, h3⟩ := h
    cases rest with
    | nil =>
      simp only [chainFrom, beq_iff_eq] at h3
      simpa using h3
    | cons t rest' =>
      have := ih h3 (by simp)
      simpa [List.getLastD_cons] using this

/-- A well-formed section list has every property the spec claims. -/
theorem structureOk_sectionsClaim {l : List MSection} {total : ℕ}
    (h : structureOk l total = true) : sectionsClaim l total := by
  simp only [structureOk, Bool.and_eq_true, Bool.not_eq_true'] at h
  obtain ⟨hne, hch⟩ := h
  have hne' : l ≠ [] := by cases l <;> simp_all
  refine ⟨hne', ?_, chainFrom_pairwise hch, chainFrom_wf hch, chainFrom_lastEnd hch hne'⟩
  intro m
  have := chainFrom_covers hch m
  simpa using this

theorem structureOk_default {total : ℕ} (h : 56 ≤ total) :
    structureOk (create_default_structure total) total = true := by
  rw [create_default_structure, if_neg (by omega)]
  by_cases h64 : total ≤ 64
  · rw [if_pos h64]
    simp only [structureOk, chainFrom, List.isEmpty, Bool.and_eq_true, beq_iff_eq,
      decide_eq_true_eq, Bool.not_eq_true', true_and, and_true]
    omega
  · rw [if_neg h64]
    simp only [structureOk, chainFrom, List.isEmpty, Bool.and_eq_true, beq_iff_eq,
      decide_eq_true_eq, Bool.not_eq_true', true_and, and_true]
    omega

theorem structureOk_ambient {total : ℕ} (h : 48 ≤ total) :
    structureOk (create_ambient_structure total) total = true := by
  rw [create_ambient_structure]
  simp only [structureOk, chainFrom, List.isEmpty, Bool.and_eq_true, beq_iff_eq,
    decide_eq_true_eq, Bool.not_eq_true', true_and, and_true]
  omega

theorem structureOk_hiphop {total : ℕ} (h : 33 ≤ total) :
    structureOk (create_hiphop_structure total) total = true := by
  rw [create_hiphop_structure, if_neg (by omega)]
  simp only [structureOk, chainFrom, List.isEmpty, Bool.and_eq_true, beq_iff_eq,
    decide_eq_true_eq, Bool.not_eq_true', true_and, and_true]
  omega

theorem structureOk_trap {total : ℕ} (h : 40 ≤ total) :
    structureOk (create_trap_structure total) total = true := by
  rw [create_trap_structure]
  simp only [structureOk, chainFrom, List.isEmpty, Bool.and_eq_true, beq_iff_eq,
    decide_eq_true_eq, Bool.not_eq_true', true_and, and_true]
  omega

theorem structureOk_breakbeat {total : ℕ} (h : 40 ≤ total) :
    structureOk (create_breakbeat_structure total) total = true := by
  rw [create_breakbeat_structure]
  simp only [structureOk, chainFrom, List.isEmpty, Bool.and_eq_true, beq_iff_eq,
    decide_eq_true_eq, Bool.not_eq_true', true_and, and_true]
  omega

theorem structureOk_aggressive {total : ℕ} (h : 32 ≤ total) :
    structureOk (create_aggressive_structure total) total = true := by
  rw [create_aggressive_structure]
  simp only [structureOk, chainFrom, List.isEmpty, Bool.and_eq_true, beq_iff_eq,
    decide_eq_true_eq, Bool.not_eq_true', true_and, and_true]
  omega

theorem structureOk_catalog {total : ℕ} (h : 56 ≤ total) {st : MusicStyle}
    (hst : st ∈ MUSIC_STYLES.map Prod.snd) :
    structureOk (create_structure total (some st)) total = true := by
  fin_cases hst
  · exact structureOk_default h
  · exact structureOk_default h
  · exact structureOk_aggressive (by omega)
  · exact structureOk_breakbeat (by omega)
  · exact structureOk_default h
  · exact structureOk_breakbeat (by omega)
  · exact structureOk_hiphop (by omega)
  · exact structureOk_trap (by omega)
  · exact structureOk_ambient (by omega)
  · exact structureOk_breakbeat (by omega)

/-! ## Behaviour of `get_section` on well-formed structures -/

theorem find_section_eq_of_contains {l : List MSection} {b total : ℕ}
    (hch : chainFrom b l total = true) {sec : MSection} (hmem : sec ∈ l) {m : ℤ}
    (h1 : (sec.startM : ℤ) ≤ m) (h2 : m < (sec.endM : ℤ)) :
    find_section l m = some sec := by
  induction l generalizing b with
  | nil => simp at hmem
  | cons s rest ih =>
    simp only [chainFrom, Bool.and_eq_true, beq_iff_eq, decide_eq_true_eq] at hch
    obtain ⟨⟨hs1, hs2⟩, hs3⟩ := hch
    rcases List.mem_cons.mp hmem with rfl | hmem
    · simp only [find_section]
      rw [if_pos ⟨h1, h2⟩]
    · have hge : s.endM ≤ sec.startM := chainFrom_start_le hs3 sec hmem
      simp only [find_section]
      rw [if_neg (by omega)]
      exact ih hs3 hmem

theorem find_section_none_low {l : List MSection} {b total : ℕ}
    (hch : chainFrom b l total = true) {m : ℤ} (hm : m < (b : ℤ)) :
    find_section l m = none := by
  induction l generalizing b with
  | nil => rfl
  | cons s rest ih =>
    simp only [chainFrom, Bool.and_eq_true, beq_iff_eq, decide_eq_true_eq] at hch
    obtain ⟨⟨hs1, hs2⟩, hs3⟩ := hch
    simp only [find_section]
    rw [if_neg (by omega)]
    exact ih hs3 (by omega)

theorem find_section_none_high {l : List MSection} {b total : ℕ}
    (hch : chainFrom b l total = true) {m : ℤ} (hm : (total : ℤ) ≤ m) :
    find_section l m = none := by
  induction l generalizing b with
  | nil => rfl
  | cons s rest ih =>
    simp only [chainFrom, Bool.and_eq_true, beq_iff_eq, decide_eq_true_eq] at hch
    obtain ⟨⟨hs1, hs2⟩, hs3⟩ := hch
    have := chainFrom_le hs3
    simp only [find_section]
    rw [if_neg (by omega)]
    exact ih hs3

/-- On a well-formed structure, an in-range measure is resolved to the
(unique) containing section. -/
theorem get_section_contains {st : SongS} (hok : structureOk st.sections st.total_measures = true)
    {sec : MSection} (hmem : sec ∈ st.sections) {m : ℤ}
    (h1 : (sec.startM : ℤ) ≤ m) (h2 : m < (sec.endM : ℤ)) :
    get_section st m = sec := by
  simp only [structureOk, Bool.and_eq_true, Bool.not_eq_true'] at hok
  rw [get_section, find_section_eq_of_contains hok.2 hmem h1 h2]
  rfl

/-- On a well-formed structure, an out-of-range measure (negative or at
least `total`) is resolved to the final section. -/
theorem get_section_out_of_range {st : SongS}
    (hok : structureOk st.sections st.total_measures = true) {m : ℤ}
    (hm : m < 0 ∨ (st.total_measures : ℤ) ≤ m) :
    get_section st m = st.sections.getLastD dummySection := by
  simp only [structureOk, Bool.and_eq_true, Bool.not_eq_true'] at hok
  rcases hm with hm | hm
  · rw [get_section, find_section_none_low hok.2 (by omega)]
    rfl
  · rw [get_section, find_section_none_high hok.2 hm]
    rfl

/-! ## Behaviour of the next-section search of `get_intensity` -/

theorem find_next_of_adjacent {a b : MSection} :
    ∀ (u : List MSection) (v : List MSection), (u ++ a :: b :: v).Nodup →
      find_next (u ++ a :: b :: v) a = some b := by
  intro u
  induction u with
  | nil =>
    intro v _
    simp [find_next]
  | cons x u' ih =>
    intro v hnd
    have hnd' : (x :: (u' ++ a :: b :: v)).Nodup := by simpa using hnd
    have hxa : x ≠ a := by
      have hx : a ∈ u' ++ a :: b :: v := by simp
      have hni := (List.nodup_cons.mp hnd').1
      intro he
      exact hni (he ▸ hx)
    cases hu : u' ++ a :: b :: v with
    | nil => simp at hu
    | cons y t =>
      have hstep : find_next (x :: y :: t) a =
          if x = a then some y else find_next (y :: t) a := rfl
      rw [List.cons_append, hu, hstep, if_neg hxa, ← hu]
      exact ih v (List.Nodup.of_cons hnd')

theorem find_next_of_last {a : MSection} :
    ∀ (u : List MSection), (u ++ [a]).Nodup → find_next (u ++ [a]) a = none := by
  intro u
  induction u with
  | nil =>
    intro _
    rfl
  | cons x u' ih =>
    intro hnd
    have hnd' : (x :: (u' ++ [a])).Nodup := by simpa using hnd
    have hxa : x ≠ a := by
      have hx : a ∈ u' ++ [a] := by simp
      have hni := (List.nodup_cons.mp hnd').1
      intro he
      exact hni (he ▸ hx)
    cases hu : u' ++ [a] with
    | nil => simp at hu
    | cons y t =>
      have hstep : find_next (x :: y :: t) a =
          if x = a then some y else find_next (y :: t) a := rfl
      rw [List.cons_append, hu, hstep, if_neg hxa, ← hu]
      exact ih (List.Nodup.of_cons hnd')

theorem chainFrom_adjacent {a b : MSection} {v : List MSection} :
    ∀ (u : List MSection) {b0 total : ℕ},
      chainFrom b0 (u ++ a :: b :: v) total = true → a.endM = b.startM := by
  intro u
  induction u with
  | nil =>
    intro b0 total h
    simp only [List.nil_append, chainFrom, Bool.and_eq_true, beq_iff_eq,
      decide_eq_true_eq] at h
    omega
  | cons x u' ih =>
    intro b0 total h
    simp only [List.cons_append, chainFrom, Bool.and_eq_true, beq_iff_eq,
      decide_eq_true_eq] at h
    exact ih h.2

/-- On a well-formed structure, every in-range measure lies inside the
section `get_section` returns. -/
theorem get_section_self_contains {st : SongS}
    (hok : structureOk st.sections st.total_measures = true) {m : ℤ}
    (h0 : 0 ≤ m) (hm : m < (st.total_measures : ℤ)) :
    get_section st m ∈ st.sections ∧
      ((get_section st m).startM : ℤ) ≤ m ∧ m < ((get_section st m).endM : ℤ) := by
  have hok' := hok
  simp only [structureOk, Bool.and_eq_true, Bool.not_eq_true'] at hok'
  obtain ⟨sec, hsec, hc1, hc2⟩ := (chainFrom_covers hok'.2 m.toNat).mpr (by omega)
  have hc1' : (sec.startM : ℤ) ≤ m := by omega
  have hc2' : m < (sec.endM : ℤ) := by omega
  rw [get_section_contains hok hsec hc1' hc2']
  exact ⟨hsec, hc1', hc2'⟩

theorem get_intensity_of_le {st : SongS} {m : ℤ}
    (hp : position_in_section (get_section st m) m ≤ 3/4) :
    get_intensity st m = (get_section st m).intensity := by
  rw [get_intensity]
  cases hfn : find_next st.sections (get_section st m) with
  | none => rfl
  | some nxt => simp [not_lt.mpr hp]

theorem get_intensity_blend {st : SongS}
    (hok : structureOk st.sections st.total_measures = true)
    (hnd : st.sections.Nodup) {u v : List MSection} {a b : MSection}
    (hl : st.sections = u ++ a :: b :: v) {m : ℤ}
    (h1 : (a.startM : ℤ) ≤ m) (h2 : m < (a.endM : ℤ))
    (hp : 3/4 < position_in_section a m) :
    get_intensity st m =
      a.intensity + (b.intensity - a.intensity) * ((position_in_section a m - 3/4) * 4) := by
  have hmem : a ∈ st.sections := by rw [hl]; simp
  have hsec : get_section st m = a := get_section_contains hok hmem h1 h2
  have hfn : find_next st.sections a = some b := by
    rw [hl]
    exact find_next_of_adjacent u v (hl ▸ hnd)
  rw [get_intensity, hsec, hfn]
  simp [hp]

theorem get_intensity_of_lastSection {st : SongS}
    (hok : structureOk st.sections st.total_measures = true)
    (hnd : st.sections.Nodup) {u : List MSection} {a : MSection}
    (hl : st.sections = u ++ [a]) {m : ℤ}
    (h1 : (a.startM : ℤ) ≤ m) (h2 : m < (a.endM : ℤ)) :
    get_intensity st m = a.intensity := by
  have hmem : a ∈ st.sections := by rw [hl]; simp
  have hsec : get_section st m = a := get_section_contains hok hmem h1 h2
  have hfn : find_next st.sections a = none := by
    rw [hl]
    exact find_next_of_last u (hl ▸ hnd)
  rw [get_intensity, hsec, hfn]

/-- The structure that `SongStructure(32, None)` builds, with the
all-zeros random stream (key `A_minor`, mood `dark`). -/
def demoStructure : SongS := (mkSongStructure 32 none ⟨fun _ => 0, 0⟩).1

/-! ## Claim C1 -/

/-- C1 (amended): for every `total_measures ≥ 56` and every style in the
catalog, the section list built by `SongStructure(total_measures, style)`
covers exactly `[0, total_measures)`, is pairwise disjoint in ascending
order with non-inverted sections, and its last section ends at
`total_measures`.  (As stated in the claim — for *every positive*
`total_measures` — the property fails; see the counterexample.) -/
theorem claim_C1_section_coverage (total : ℕ) (h : 56 ≤ total)
    (nm : String) (sty : MusicStyle) (hmem : (nm, sty) ∈ MUSIC_STYLES) (s : RS) :
    sectionsClaim ((mkSongStructure total (some sty) s).1.sections) total := by
  have hsty : sty ∈ MUSIC_STYLES.map Prod.snd := by
    exact List.mem_map_of_mem Prod.snd hmem
  have : (mkSongStructure total (some sty) s).1.sections = create_structure total (some sty) := rfl
  rw [this]
  exact structureOk_sectionsClaim (structureOk_catalog h hsty)

theorem claim_C1_section_coverage_witness :
    sectionsClaim ((mkSongStructure 64 (some styleTechno) ⟨fun _ => 0, 0⟩).1.sections) 64 :=
  claim_C1_section_coverage 64 (by norm_num) "techno" styleTechno (by simp [MUSIC_STYLES])
    ⟨fun _ => 0, 0⟩

/-- C1 (counterexample): with `total_measures = 8` and the catalog style
`house`, the built sections are `intro [0,4)`, `main [4,24)`,
`outro [24,8)`: measure `10` is covered although `10 ≥ 8`, so the claimed
coverage of exactly `[0, total_measures)` fails. -/
theorem claim_C1_counterexample :
    ¬ sectionsClaim ((mkSongStructure 8 (some styleHouse) ⟨fun _ => 0, 0⟩).1.sections) 8 := by
  intro hcl
  have h10 := (hcl.2.1 10).mp (by decide)
  omega

/-! ## Claim C5 -/

/-- C5 (amended): on any well-formed structure, `get_section` tolerates
out-of-range measures without raising, but it clamps *both* sides to the
final section: a negative measure also resolves to the last section, not
the first one as claimed. -/
theorem claim_C5_out_of_range_clamp (st : SongS)
    (hok : structureOk st.sections st.total_measures = true) (m : ℤ)
    (hm : m < 0 ∨ (st.total_measures : ℤ) ≤ m) :
    get_section st m = st.sections.getLastD dummySection :=
  get_section_out_of_range hok hm

theorem claim_C5_out_of_range_clamp_witness :
    get_section demoStructure (-5) = demoStructure.sections.getLastD dummySection :=
  claim_C5_out_of_range_clamp demoStructure (by decide) (-5) (Or.inl (by decide))

/-- C5 (counterexample): on the structure of `SongStructure(32, None)`,
`get_section(-1)` is the final section (`outro`), not the first section
(`intro`) as the claim states for negative measures. -/
theorem claim_C5_counterexample :
    get_section demoStructure (-1) ≠ demoStructure.sections.headD dummySection ∧
    (get_section demoStructure (-1)).name = "outro" := by
  constructor
  · decide
  · decide

/-! ## Claim C6 -/

/-- C6 (refuting evaluation): the harmonic context at measure 16 of the
32-measure default structure with mood `dark` has key `A_minor` and chord
`v` (reachable output of `get_harmonic_context`).  On it the bassline
root is `33 + 7 = 40` (its offset table maps `"v"` to 7) while the
sub-bass root is `21 + 0 = 21` (its table only has the key `"V"`, so
`"v"` falls back to offset 0): the difference 19 is not a whole number of
octaves, contradicting the claim that both generators apply the same
chord-derived semitone offset to roots 12 semitones apart. -/
theorem claim_C6_root_mismatch :
    (get_harmonic_context demoStructure 16).key = "A_minor" ∧
    (get_harmonic_context demoStructure 16).chord = "v" ∧
    bassline_get_root_note (get_harmonic_context demoStructure 16) = 40 ∧
    sub_bass_get_root_note (get_harmonic_context demoStructure 16) = 21 ∧
    ¬ (12 ∣ (bassline_get_root_note (get_harmonic_context demoStructure 16) -
             sub_bass_get_root_note (get_harmonic_context demoStructure 16))) := by
  have hctx : get_harmonic_context demoStructure 16 =
      ⟨"A_minor", [57, 59, 60, 62, 64, 65, 67, 69], "v", "main", 4/5⟩ := by
    norm_num [demoStructure, mkSongStructure, get_harmonic_context, get_section, find_section,
      create_structure, create_default_structure, choose_mood_for_style, pyChoice, randU, u01,
      KEYS, PROGRESSIONS, lookupD, get_intensity, find_next, position_in_section,
      List.getD_cons_succ, List.getD_cons_zero, Int.toNat_ofNat]
    decide
  rw [hctx]
  refine ⟨rfl, rfl, by decide, by decide, by decide⟩

/-! ## Claim C7 -/

/-- C7: on a well-formed structure, for every in-range measure `m` the
chord of `get_harmonic_context(m)` is
`progression[((m - section_start) // 4) % len(progression)]` of the
containing section; consequently the chord is constant while
`(m - section_start) // 4` is constant within one section, and the
progression restarts (chord = first entry) at each section start. -/
theorem claim_C7_chord_cadence (st : SongS)
    (hok : structureOk st.sections st.total_measures = true)
    (m : ℤ) (h0 : 0 ≤ m) (hm : m < (st.total_measures : ℤ)) :
    (get_harmonic_context st m).chord =
      (lookupD PROGRESSIONS st.mood []).getD
        ((((m - ((get_section st m).startM : ℤ)).ediv 4).emod
          (((lookupD PROGRESSIONS st.mood []).length : ℤ))).toNat) "i" ∧
    (∀ m' : ℤ, get_section st m' = get_section st m →
      (m' - ((get_section st m).startM : ℤ)).ediv 4 =
        (m - ((get_section st m).startM : ℤ)).ediv 4 →
      (get_harmonic_context st m').chord = (get_harmonic_context st m).chord) ∧
    (get_harmonic_context st ((get_section st m).startM : ℤ)).chord =
      (lookupD PROGRESSIONS st.mood []).headD "i" := by
  obtain ⟨hmem, hc1, hc2⟩ := get_section_self_contains hok h0 hm
  refine ⟨rfl, ?_, ?_⟩
  · intro m' hsec hdiv
    have e1 : (get_harmonic_context st m').chord =
        (lookupD PROGRESSIONS st.mood []).getD
          ((((m' - ((get_section st m').startM : ℤ)).ediv 4).emod
            (((lookupD PROGRESSIONS st.mood []).length : ℤ))).toNat) "i" := rfl
    rw [e1, hsec, hdiv]
    rfl
  · have hlt : ((get_section st m).startM : ℤ) < ((get_section st m).endM : ℤ) :=
      lt_of_le_of_lt hc1 hc2
    have hsec0 : get_section st ((get_section st m).startM : ℤ) = get_section st m :=
      get_section_contains hok hmem le_rfl hlt
    have e1 : (get_harmonic_context st ((get_section st m).startM : ℤ)).chord =
        (lookupD PROGRESSIONS st.mood []).getD
          (((((((get_section st m).startM : ℤ)) -
            ((get_section st ((get_section st m).startM : ℤ)).startM : ℤ)).ediv 4).emod
            (((lookupD PROGRESSIONS st.mood []).length : ℤ))).toNat) "i" := rfl
    rw [e1, hsec0]
    simp only [sub_self, Int.zero_ediv, Int.zero_emod, Int.toNat_zero]
    cases lookupD PROGRESSIONS st.mood [] with
    | nil => rfl
    | cons c cs => rfl

theorem claim_C7_chord_cadence_witness :
    (get_harmonic_context demoStructure 10).chord =
      (lookupD PROGRESSIONS demoStructure.mood []).getD
        ((((10 - ((get_section demoStructure 10).startM : ℤ)).ediv 4).emod
          (((lookupD PROGRESSIONS demoStructure.mood []).length : ℤ))).toNat) "i" ∧
    (∀ m' : ℤ, get_section demoStructure m' = get_section demoStructure 10 →
      (m' - ((get_section demoStructure 10).startM : ℤ)).ediv 4 =
        (10 - ((get_section demoStructure 10).startM : ℤ)).ediv 4 →
      (get_harmonic_context demoStructure m').chord =
        (get_harmonic_context demoStructure 10).chord) ∧
    (get_harmonic_context demoStructure ((get_section demoStructure 10).startM : ℤ)).chord =
      (lookupD PROGRESSIONS demoStructure.mood []).headD "i" :=
  claim_C7_chord_cadence demoStructure (by decide) 10 (by decide) (by decide)

/-! ## Claim C8 -/

theorem position_le_one {a : MSection} {m : ℤ}
    (h1 : (a.startM : ℤ) ≤ m) (h2 : m < (a.endM : ℤ)) :
    position_in_section a m ≤ 1 := by
  rw [position_in_section]
  have hden1 : (1 : ℤ) ≤ max 1 ((a.endM : ℤ) - (a.startM : ℤ)) := le_max_left _ _
  have hdenq : (1 : ℚ) ≤ ((max 1 ((a.endM : ℤ) - (a.startM : ℤ)) : ℤ) : ℚ) := by
    exact_mod_cast hden1
  rw [div_le_one (by linarith)]
  have hz : m - (a.startM : ℤ) ≤ max 1 ((a.endM : ℤ) - (a.startM : ℤ)) := by omega
  calc (m : ℚ) - (a.startM : ℚ) = ((m - (a.startM : ℤ) : ℤ) : ℚ) := by push_cast; ring
    _ ≤ _ := by exact_mod_cast hz

/-- C8: `get_intensity` returns the containing section's intensity when
the fractional position is at most 3/4; past 3/4 it cross-fades linearly
toward the next section's intensity (blend factor `(p - 3/4) * 4`), the
last section always returning its own intensity; consequently the jump of
`get_intensity` across any section boundary is at most the difference of
the two sections' intensities. -/
theorem claim_C8_intensity_blend (st : SongS)
    (hok : structureOk st.sections st.total_measures = true)
    (hnd : st.sections.Nodup)
    (hpos : ∀ sec ∈ st.sections, sec.startM < sec.endM) :
    (∀ m : ℤ, position_in_section (get_section st m) m ≤ 3/4 →
        get_intensity st m = (get_section st m).intensity) ∧
    (∀ u a b v, st.sections = u ++ a :: b :: v →
      ∀ m : ℤ, (a.startM : ℤ) ≤ m → m < (a.endM : ℤ) → 3/4 < position_in_section a m →
        get_intensity st m =
          a.intensity + (b.intensity - a.intensity) * ((position_in_section a m - 3/4) * 4)) ∧
    (∀ u a, st.sections = u ++ [a] → ∀ m : ℤ, (a.startM : ℤ) ≤ m → m < (a.endM : ℤ) →
        get_intensity st m = a.intensity) ∧
    (∀ u a b v, st.sections = u ++ a :: b :: v →
        |get_intensity st ((b.startM : ℤ)) - get_intensity st ((b.startM : ℤ) - 1)| ≤
          |b.intensity - a.intensity|) := by
  have hok' := hok
  simp only [structureOk, Bool.and_eq_true, Bool.not_eq_true'] at hok'
  refine ⟨fun m hp => get_intensity_of_le hp,
    fun u a b v hl m h1 h2 hp => get_intensity_blend hok hnd hl h1 h2 hp,
    fun u a hl m h1 h2 => get_intensity_of_lastSection hok hnd hl h1 h2, ?_⟩
  intro u a b v hl
  have hadj : a.endM = b.startM := chainFrom_adjacent u (hl ▸ hok'.2)
  have ha : a ∈ st.sections := by rw [hl]; simp
  have hb : b ∈ st.sections := by rw [hl]; simp
  have hapos := hpos a ha
  have hbpos := hpos b hb
  have h1 : get_intensity st ((b.startM : ℤ)) = b.intensity := by
    have hsec : get_section st ((b.startM : ℤ)) = b :=
      get_section_contains hok hb le_rfl (by exact_mod_cast hbpos)
    apply Eq.trans (get_intensity_of_le ?_)
    · rw [hsec]
    · rw [hsec]
      have : position_in_section b ((b.startM : ℤ)) = 0 := by
        simp [position_in_section]
      rw [this]
      norm_num
  have hm1a : (a.startM : ℤ) ≤ (b.startM : ℤ) - 1 := by omega
  have hm1b : (b.startM : ℤ) - 1 < (a.endM : ℤ) := by omega
  by_cases hp : position_in_section a ((b.startM : ℤ) - 1) ≤ 3/4
  · have h2 : get_intensity st ((b.startM : ℤ) - 1) = a.intensity := by
      have hsec : get_section st ((b.startM : ℤ) - 1) = a :=
        get_section_contains hok ha hm1a hm1b
      apply Eq.trans (get_intensity_of_le ?_)
      · rw [hsec]
      · rw [hsec]
        exact hp
    rw [h1, h2]
  · push_neg at hp
    have h2 := get_intensity_blend hok hnd hl hm1a hm1b hp
    rw [h1, h2]
    have hple : position_in_section a ((b.startM : ℤ) - 1) ≤ 1 := position_le_one hm1a hm1b
    have ht0 : 0 ≤ (position_in_section a ((b.startM : ℤ) - 1) - 3/4) * 4 := by linarith
    have ht1 : (position_in_section a ((b.startM : ℤ) - 1) - 3/4) * 4 ≤ 1 := by linarith
    have hre : b.intensity - (a.intensity + (b.intensity - a.intensity) *
        ((position_in_section a ((b.startM : ℤ) - 1) - 3/4) * 4)) =
        (b.intensity - a.intensity) *
          (1 - (position_in_section a ((b.startM : ℤ) - 1) - 3/4) * 4) := by ring
    rw [hre, abs_mul]
    apply mul_le_of_le_one_right (abs_nonneg _)
    rw [abs_le]
    constructor <;> linarith

theorem claim_C8_intensity_blend_witness :
    |get_intensity demoStructure ((24 : ℕ) : ℤ) - get_intensity demoStructure (((24 : ℕ) : ℤ) - 1)| ≤
      |(2 : ℚ)/5 - 4/5| :=
  (claim_C8_intensity_blend demoStructure (by decide) (by decide)
      (by decide)).2.2.2
    [⟨"intro", 0, 4, 3/10, "A_minor", "minor", "Minimal intro"⟩]
    ⟨"main", 4, 24, 4/5, "A_minor", "minor", "Main groove"⟩
    ⟨"outro", 24, 32, 2/5, "A_minor", "minor", "Fade out"⟩ [] rfl

/-! ## Claim C10 -/

/-- C10: for a section whose digit-stripped name is none of
intro/buildup/drop/breakdown/outro and does not contain `"build"`
(e.g. `break`, `main`, `verse`, `hook`, `evolution`, `plateau`),
`should_play_instrument` falls through to the `drop` rules: drums, bass,
sub-bass and synth accompaniment always play, and the synth lead plays
exactly when the `drop` table's random draw (the seventh draw of the
call) is below 0.8. -/
theorem claim_C10_fallback_drop (st : SongS) (m : ℤ) (s : RS)
    (hn : rstripDigits (get_section st m).name ∉
      (["intro", "buildup", "drop", "breakdown", "outro"] : List String))
    (hb : strHas (rstripDigits (get_section st m).name) "build" = false) :
    (should_play_instrument st m "drums" s).1 = true ∧
    (should_play_instrument st m "bass" s).1 = true ∧
    (should_play_instrument st m "sub_bass" s).1 = true ∧
    (should_play_instrument st m "synth_accomp" s).1 = true ∧
    (should_play_instrument st m "synth_lead" s).1 =
      decide (u01 (s.f (s.ix + 6)) < 4/5) := by
  simp only [List.mem_cons, List.not_mem_nil, or_false, not_or] at hn
  obtain ⟨n1, n2, n3, n4, n5⟩ := hn
  simp only [should_play_instrument, randU, hasKey, lookupD, List.find?, hb,
    decide_eq_false (Ne.symm n1), decide_eq_false (Ne.symm n2),
    decide_eq_false (Ne.symm n3), decide_eq_false (Ne.symm n4),
    decide_eq_false (Ne.symm n5)]
  simp

theorem claim_C10_fallback_drop_witness :
    (should_play_instrument (mkSongStructure 48 (some styleTrap) ⟨fun _ => 0, 0⟩).1 24 "drums"
        ⟨fun _ => 1/2, 0⟩).1 = true ∧
    (should_play_instrument (mkSongStructure 48 (some styleTrap) ⟨fun _ => 0, 0⟩).1 24 "bass"
        ⟨fun _ => 1/2, 0⟩).1 = true ∧
    (should_play_instrument (mkSongStructure 48 (some styleTrap) ⟨fun _ => 0, 0⟩).1 24 "sub_bass"
        ⟨fun _ => 1/2, 0⟩).1 = true ∧
    (should_play_instrument (mkSongStructure 48 (some styleTrap) ⟨fun _ => 0, 0⟩).1 24
        "synth_accomp" ⟨fun _ => 1/2, 0⟩).1 = true ∧
    (should_play_instrument (mkSongStructure 48 (some styleTrap) ⟨fun _ => 0, 0⟩).1 24
        "synth_lead" ⟨fun _ => 1/2, 0⟩).1 =
      decide (u01 ((fun _ => (1 : ℚ)/2) (0 + 6)) < 4/5) :=
  claim_C10_fallback_drop (mkSongStructure 48 (some styleTrap) ⟨fun _ => 0, 0⟩).1 24
    ⟨fun _ => 1/2, 0⟩ (by decide) (by decide)

/-! ## Sub-bass generator (`sub_bass.py`) -/

/-- One sub-bass pattern entry: `(beat_offset, duration_beats, note,
velocity)`. -/
abbrev SubEntry : Type := ℚ × ℚ × ℤ × ℤ

/-- `SubBassGenerator._should_play_sub_bass(measure)`. -/
def should_play_sub_bass (measure : ℕ) (s : RS) : Bool × RS :=
  if measure % 8 == 7 then
    let p := randU s
    (decide (p.1 < 3/10), p.2)
  else if measure % 16 == 15 then (false, s)
  else if measure % 32 == 31 then (false, s)
  else if measure < 8 then
    let p := randU s
    (decide (p.1 < 1/5), p.2)
  else if measure < 16 then
    let p := randU s
    (decide (p.1 < 1/2), p.2)
  else if measure < 32 then
    let p := randU s
    (decide (p.1 < 7/10), p.2)
  else
    let p := randU s
    (decide (p.1 < 9/10), p.2)

/-- `SubBassGenerator._create_simple_pattern(root, fifth)`. -/
def create_simple_pattern (beats : ℕ) (root fifth : ℤ) (s : RS) : List SubEntry × RS :=
  if beats = 3 then
    pyChoice
      [[(0, 3, root, 65)],
       [(0, 3/2, root, 70), (3/2, 3/2, root, 60)],
       [(0, 2, root, 70), (2, 1, fifth, 65)]] [] s
  else if beats = 5 then
    pyChoice
      [[(0, 5, root, 65)],
       [(0, 3, root, 70), (3, 2, root, 60)],
       [(0, 2, root, 70), (2, 3, fifth, 65)]] [] s
  else if beats = 7 then
    pyChoice
      [[(0, 7, root, 65)],
       [(0, 2, root, 70), (2, 2, root, 65), (4, 3, fifth, 60)],
       [(0, 3, root, 70), (3, 2, root, 65), (5, 2, fifth, 60)]] [] s
  else
    pyChoice
      [[((0 : ℚ), (beats : ℚ), root, (65 : ℤ))],
       [(0, (beats : ℚ)/2, root, 70), ((beats : ℚ)/2, (beats : ℚ)/2, root, 60)],
       [(0, (beats : ℚ) * (7/8), root, 65),
        ((beats : ℚ) * (15/16), (beats : ℚ) * (1/16), root, 50)],
       [(0, (beats : ℚ)/2, root, 70), ((beats : ℚ)/2, (beats : ℚ)/2, fifth, 65)]] [] s

/-- `SubBassGenerator._create_pumping_pattern(root)`. -/
def create_pumping_pattern (beats : ℕ) (root : ℤ) (s : RS) : List SubEntry × RS :=
  let simple_pump : List SubEntry :=
    (List.range beats).map fun (i : ℕ) => ((i : ℚ), 3/4, root, 75)
  let varied_pump : List SubEntry :=
    (List.range beats).flatMap fun (i : ℕ) =>
      if i < beats - 1 then
        [((i : ℚ), 1/2, root, 85 - (i : ℤ) * 5), ((i : ℚ) + 3/4, 1/4, root, 45)]
      else
        [((i : ℚ), 1/2, root, 85 - (i : ℤ) * 5)]
  let velocity_pump : List SubEntry :=
    (List.range beats).map fun (i : ℕ) => ((i : ℚ), 1, root, 75 - (i : ℤ) * 5)
  pyChoice [simple_pump, varied_pump, velocity_pump] [] s

/-- `SubBassGenerator._create_movement_pattern(root, fifth)`. -/
def create_movement_pattern (beats : ℕ) (root fifth : ℤ) (s : RS) : List SubEntry × RS :=
  let half : ℚ := (beats : ℚ) / 2
  pyChoice
    [[(0, half, root, 70), (half, half, fifth, 65)],
     (List.range beats).map fun (i : ℕ) =>
       ((i : ℚ), 1, if i % 2 = 0 then root else fifth, 70 - (i : ℤ) * 2)] [] s

/-- `SubBassGenerator._create_sparse_pattern(root)`. -/
def create_sparse_pattern (root : ℤ) (s : RS) : List SubEntry × RS :=
  pyChoice
    [[(0, 1, root, 60)],
     [(0, 1/2, root, 65), (3, 1, root, 55)],
     [(0, 8, root, 50)]] [] s

/-- `SubBassGenerator._generate_sub_bass_pattern(measure, root, fifth)`. -/
def generate_sub_bass_pattern (beats measure : ℕ) (root fifth : ℤ) (s : RS) :
    List SubEntry × RS :=
  if measure < 32 then create_simple_pattern beats root fifth s
  else if measure < 128 then
    let p := randU s
    if p.1 < 7/10 then create_pumping_pattern beats root p.2
    else create_movement_pattern beats root fifth p.2
  else create_sparse_pattern root s

/-- Release velocity of a sub-bass note-off:
`int(60 + (final_velocity / 127.0) * 20)`. -/
def sub_release (v : ℤ) : ℤ := pyInt (60 + ((v : ℚ) / 127) * 20)

/-- The inner loop of `SubBassGenerator.generate` over one measure's
pattern entries: note-on at `current_time + beat_offset * beat_duration`
(velocity through the structure's curve when present), note-off at
`note_time + duration_beats * beat_duration` with the release
velocity. -/
def sub_bass_entry_events (stO : Option SongS) (measure : ℕ) (bd cur : ℚ) :
    List SubEntry → RS → List Ev × RS
  | [], s => ([], s)
  | (boff, dur, note, vel) :: rest, s =>
    let noteTime := cur + boff * bd
    let p : ℤ × RS :=
      match stO with
      | some st => get_velocity_curve st (measure : ℤ) vel s
      | none => (vel, s)
    let offTime := noteTime + dur * bd
    let q := sub_bass_entry_events stO measure bd cur rest p.2
    (⟨noteTime, note, p.1, EvKind.on⟩ :: ⟨offTime, note, sub_release p.1, EvKind.off⟩ :: q.1,
     q.2)

/-- The default harmonic context used when no song structure is given
(`{"key": "A_minor", "chord": "i", "intensity": 0.7}`). -/
def default_sub_ctx : HarmCtx := ⟨"A_minor", [], "i", "", 7/10⟩

/-- Per-measure body plus countdown loop of `SubBassGenerator.generate`. -/
def sub_bass_loop (stO : Option SongS) (beats : ℕ) (bd : ℚ) :
    ℕ → ℕ → ℚ → RS → List Ev × RS
  | 0, _, _, s => ([], s)
  | k + 1, measure, cur, s =>
    let md := (beats : ℚ) * bd
    let gate : Bool × RS :=
      match stO with
      | some st => should_play_instrument st (measure : ℤ) "sub_bass" s
      | none => (true, s)
    if gate.1 = false then
      sub_bass_loop stO beats bd k (measure + 1) (cur + md) gate.2
    else
      let ctx : HarmCtx :=
        match stO with
        | some st => get_harmonic_context st (measure : ℤ)
        | none => default_sub_ctx
      let root := sub_bass_get_root_note ctx
      let fifth := root + 7
      let play := should_play_sub_bass measure gate.2
      if play.1 then
        let pat := generate_sub_bass_pattern beats measure root fifth play.2
        let evs := sub_bass_entry_events stO measure bd cur pat.1 pat.2
        let rest := sub_bass_loop stO beats bd k (measure + 1) (cur + md) evs.2
        (evs.1 ++ rest.1, rest.2)
      else
        sub_bass_loop stO beats bd k (measure + 1) (cur + md) play.2

/-- `SubBassGenerator.generate(measures, tempo)` with the generator's
time signature contributing `beats` beats per measure. -/
def sub_bass_generate (stO : Option SongS) (beats measures : ℕ) (tempo : ℤ) (s : RS) :
    List Ev × RS :=
  sub_bass_loop stO beats ((60 : ℚ) / (tempo : ℚ)) measures 0 0 s

/-! ## Basic bounds for the random primitives and velocity curve -/

theorem randU_bounds (s : RS) : 0 ≤ (randU s).1 ∧ (randU s).1 < 1 := by
  simp only [randU, u01]
  split
  · next h => exact h
  · exact ⟨le_refl 0, zero_lt_one⟩

theorem clamp127_bounds (v : ℤ) : 1 ≤ clamp127 v ∧ clamp127 v ≤ 127 := by
  simp only [clamp127]
  omega

theorem get_velocity_curve_bounds (st : SongS) (m : ℤ) (base : ℤ) (s : RS) :
    1 ≤ (get_velocity_curve st m base s).1 ∧ (get_velocity_curve st m base s).1 ≤ 127 :=
  clamp127_bounds _

theorem pyChoice_mem {α : Type} (l : List α) (d : α) (s : RS) :
    (pyChoice l d s).1 ∈ l ∨ (pyChoice l d s).1 = d := by
  simp only [pyChoice]
  rcases Nat.lt_or_ge ((⌊(randU s).1 * (l.length : ℚ)⌋).toNat) l.length with h | h
  · left
    rw [List.getD_eq_getElem l d h]
    exact List.getElem_mem h
  · right
    exact List.getD_eq_default l d h

theorem sub_release_bounds {v : ℤ} (h1 : 1 ≤ v) (h2 : v ≤ 127) :
    60 ≤ sub_release v ∧ sub_release v ≤ 80 := by
  have hv1 : (1 : ℚ) ≤ (v : ℚ) := by exact_mod_cast h1
  have hv2 : (v : ℚ) ≤ 127 := by exact_mod_cast h2
  have harg1 : (60 : ℚ) ≤ 60 + ((v : ℚ) / 127) * 20 := by
    have : 0 ≤ ((v : ℚ) / 127) * 20 := by positivity
    linarith
  have harg2 : 60 + ((v : ℚ) / 127) * 20 ≤ 80 := by
    have : ((v : ℚ) / 127) * 20 ≤ 20 := by
      rw [div_mul_eq_mul_div, div_le_iff (by norm_num : (0:ℚ) < 127)]
      linarith
    linarith
  have hpos : (0 : ℚ) ≤ 60 + ((v : ℚ) / 127) * 20 :=
    le_trans (by norm_num : (0 : ℚ) ≤ 60) harg1
  simp only [sub_release, pyInt, if_pos hpos]
  constructor
  · exact Int.le_floor.mpr (by exact_mod_cast harg1)
  · calc ⌊60 + ((v : ℚ) / 127) * 20⌋ ≤ ⌊(80 : ℚ)⌋ := Int.floor_le_floor harg2
      _ = 80 := by norm_num

/-! ## Note-on/note-off pairing of the sub-bass generator -/

theorem sub_bass_entry_events_pairing (stO : Option SongS) (measure : ℕ) {bd : ℚ}
    (cur : ℚ) (hbd : 0 < bd) :
    ∀ (entries : List SubEntry) (s : RS), (∀ en ∈ entries, 0 < en.2.1) →
      ∀ e ∈ (sub_bass_entry_events stO measure bd cur entries s).1, e.kind = EvKind.on →
        ∃ e' ∈ (sub_bass_entry_events stO measure bd cur entries s).1,
          e'.kind = EvKind.off ∧ e'.note = e.note ∧ e.t < e'.t ∧
          e'.vel = sub_release e.vel := by
  intro entries
  induction entries with
  | nil =>
    intro s _ e he
    simp [sub_bass_entry_events] at he
  | cons en rest ih =>
    obtain ⟨boff, dur, note, vel⟩ := en
    intro s hdur e he hkind
    have hdur0 : 0 < dur := by
      have := hdur (boff, dur, note, vel) (List.mem_cons_self _ _)
      simpa using this
    simp only [sub_bass_entry_events, List.mem_cons] at he ⊢
    rcases he with he | he | he
    · subst he
      refine ⟨_, Or.inr (Or.inl rfl), rfl, rfl, ?_, rfl⟩
      have : 0 < dur * bd := mul_pos hdur0 hbd
      simp only
      linarith
    · rw [he] at hkind
      simp at hkind
    · obtain ⟨e', he', hprop⟩ :=
        ih _ (fun x hx => hdur x (List.mem_cons_of_mem _ hx)) e he hkind
      exact ⟨e', Or.inr (Or.inr he'), hprop⟩

theorem durs_of_mem_choice {l : List (List SubEntry)} {s : RS}
    (h : ∀ pat ∈ l, ∀ en ∈ pat, 0 < en.2.1) :
    ∀ en ∈ (pyChoice l [] s).1, 0 < en.2.1 := by
  intro en hen
  rcases pyChoice_mem l [] s with hm | hd
  · exact h _ hm en hen
  · rw [hd] at hen
    simp at hen

theorem create_simple_pattern_durs {beats : ℕ} (hbeats : 1 ≤ beats) (root fifth : ℤ)
    (s : RS) : ∀ en ∈ (create_simple_pattern beats root fifth s).1, 0 < en.2.1 := by
  have hb : (1 : ℚ) ≤ (beats : ℚ) := by exact_mod_cast hbeats
  rw [create_simple_pattern]
  split_ifs <;>
    refine durs_of_mem_choice ?_ <;>
      intro pat hpat <;>
        simp only [List.mem_cons, List.not_mem_nil, or_false] at hpat
  · rcases hpat with rfl | rfl | rfl <;> intro en hen <;>
      simp only [List.mem_cons, List.not_mem_nil, or_false] at hen
    · subst hen; norm_num
    · rcases hen with rfl | rfl <;> norm_num
    · rcases hen with rfl | rfl <;> norm_num
  · rcases hpat with rfl | rfl | rfl <;> intro en hen <;>
      simp only [List.mem_cons, List.not_mem_nil, or_false] at hen
    · subst hen; norm_num
    · rcases hen with rfl | rfl <;> norm_num
    · rcases hen with rfl | rfl <;> norm_num
  · rcases hpat with rfl | rfl | rfl <;> intro en hen <;>
      simp only [List.mem_cons, List.not_mem_nil, or_false] at hen
    · subst hen; norm_num
    · rcases hen with rfl | rfl | rfl <;> norm_num
    · rcases hen with rfl | rfl | rfl <;> norm_num
  · rcases hpat with rfl | rfl | rfl | rfl <;> intro en hen <;>
      simp only [List.mem_cons, List.not_mem_nil, or_false] at hen
    · subst hen
      simp only
      linarith
    · rcases hen with rfl | rfl <;> simp only <;> linarith
    · rcases hen with rfl | rfl <;> simp only <;> linarith
    · rcases hen with rfl | rfl <;> simp only <;> linarith

theorem create_pumping_pattern_durs {beats : ℕ} (root : ℤ) (s : RS) :
    ∀ en ∈ (create_pumping_pattern beats root s).1, 0 < en.2.1 := by
  rw [create_pumping_pattern]
  refine durs_of_mem_choice ?_
  intro pat hpat
  simp only [List.mem_cons, List.not_mem_nil, or_false] at hpat
  rcases hpat with rfl | rfl | rfl <;> intro en hen
  · obtain ⟨i, hi, rfl⟩ := List.mem_map.mp hen
    norm_num
  · obtain ⟨i, hi, hmem⟩ := List.mem_flatMap.mp hen
    split_ifs at hmem <;>
      simp only [List.mem_cons, List.not_mem_nil, or_false] at hmem
    · rcases hmem with rfl | rfl <;> norm_num
    · subst hmem; norm_num
  · obtain ⟨i, hi, rfl⟩ := List.mem_map.mp hen
    norm_num

theorem create_movement_pattern_durs {beats : ℕ} (hbeats : 1 ≤ beats) (root fifth : ℤ)
    (s : RS) : ∀ en ∈ (create_movement_pattern beats root fifth s).1, 0 < en.2.1 := by
  have hb : (1 : ℚ) ≤ (beats : ℚ) := by exact_mod_cast hbeats
  rw [create_movement_pattern]
  refine durs_of_mem_choice ?_
  intro pat hpat
  simp only [List.mem_cons, List.not_mem_nil, or_false] at hpat
  rcases hpat with rfl | rfl <;> intro en hen
  · simp only [List.mem_cons, List.not_mem_nil, or_false] at hen
    rcases hen with rfl | rfl <;> simp only <;> linarith
  · obtain ⟨i, hi, rfl⟩ := List.mem_map.mp hen
    norm_num

theorem create_sparse_pattern_durs (root : ℤ) (s : RS) :
    ∀ en ∈ (create_sparse_pattern root s).1, 0 < en.2.1 := by
  rw [create_sparse_pattern]
  refine durs_of_mem_choice ?_
  intro pat hpat
  simp only [List.mem_cons, List.not_mem_nil, or_false] at hpat
  rcases hpat with rfl | rfl | rfl <;> intro en hen <;>
    simp only [List.mem_cons, List.not_mem_nil, or_false] at hen
  · subst hen; norm_num
  · rcases hen with rfl | rfl <;> norm_num
  · subst hen; norm_num

theorem generate_sub_bass_pattern_durs {beats : ℕ} (hbeats : 1 ≤ beats)
    (measure : ℕ) (root fifth : ℤ) (s : RS) :
    ∀ en ∈ (generate_sub_bass_pattern beats measure root fifth s).1, 0 < en.2.1 := by
  rw [generate_sub_bass_pattern]
  split_ifs
  · exact create_simple_pattern_durs hbeats root fifth s
  · simp only
    split_ifs
    · exact create_pumping_pattern_durs root _
    · exact create_movement_pattern_durs hbeats root fifth _
  · exact create_sparse_pattern_durs root s

theorem sub_bass_loop_pairing (stO : Option SongS) {beats : ℕ} {bd : ℚ}
    (hbeats : 1 ≤ beats) (hbd : 0 < bd) :
    ∀ (k measure : ℕ) (cur : ℚ) (s : RS),
      ∀ e ∈ (sub_bass_loop stO beats bd k measure cur s).1, e.kind = EvKind.on →
        ∃ e' ∈ (sub_bass_loop stO beats bd k measure cur s).1,
          e'.kind = EvKind.off ∧ e'.note = e.note ∧ e.t < e'.t ∧
          e'.vel = sub_release e.vel := by
  intro k
  induction k with
  | zero =>
    intro measure cur s e he
    simp [sub_bass_loop] at he
  | succ k ih =>
    intro measure cur s e he hkind
    simp only [sub_bass_loop] at he ⊢
    split_ifs at he ⊢ with h1 h2
    · exact ih _ _ _ e he hkind
    · rcases List.mem_append.mp he with hl | hr
      · obtain ⟨e', he', hprop⟩ :=
          sub_bass_entry_events_pairing stO measure cur hbd _ _
            (generate_sub_bass_pattern_durs hbeats measure _ _ _) e hl hkind
        exact ⟨e', List.mem_append.mpr (Or.inl he'), hprop⟩
      · obtain ⟨e', he', hprop⟩ := ih _ _ _ e hr hkind
        exact ⟨e', List.mem_append.mpr (Or.inr he'), hprop⟩
    · exact ih _ _ _ e he hkind

/-! ## Claim C9 -/

/-- C9: in the sub-bass generator's output, every note-on event whose
velocity lies in `[1,127]` is followed by a note-off event at the same
pitch, strictly later in time (`start + duration·beat_duration`), whose
release velocity is `int(60 + (v/127)·20)` and lies in `[60,80]`. -/
theorem claim_C9_sub_bass_note_off (stO : Option SongS) (beats measures : ℕ) (tempo : ℤ)
    (s : RS) (hbeats : 1 ≤ beats) (htempo : 1 ≤ tempo) :
    ∀ e ∈ (sub_bass_generate stO beats measures tempo s).1, e.kind = EvKind.on →
      1 ≤ e.vel → e.vel ≤ 127 →
      ∃ e' ∈ (sub_bass_generate stO beats measures tempo s).1,
        e'.kind = EvKind.off ∧ e'.note = e.note ∧ e.t < e'.t ∧
        e'.vel = pyInt (60 + ((e.vel : ℚ) / 127) * 20) ∧ 60 ≤ e'.vel ∧ e'.vel ≤ 80 := by
  intro e he hkind hv1 hv2
  have hbd : (0 : ℚ) < 60 / (tempo : ℚ) := by
    apply div_pos (by norm_num)
    exact_mod_cast htempo
  obtain ⟨e', he', hk, hn, ht, hv⟩ :=
    sub_bass_loop_pairing stO hbeats hbd measures 0 0 s e he hkind
  obtain ⟨hr1, hr2⟩ := sub_release_bounds hv1 hv2
  exact ⟨e', he', hk, hn, ht, hv, by rw [hv]; exact hr1, by rw [hv]; exact hr2⟩

theorem claim_C9_sub_bass_note_off_witness :
    (⟨0, 21, 65, EvKind.on⟩ : Ev) ∈ (sub_bass_generate none 4 1 60 ⟨fun _ => 0, 0⟩).1 ∧
    ∃ e' ∈ (sub_bass_generate none 4 1 60 ⟨fun _ => 0, 0⟩).1, e'.kind = EvKind.off ∧
      e'.note = 21 ∧ (0 : ℚ) < e'.t ∧ 60 ≤ e'.vel ∧ e'.vel ≤ 80 := by
  have hL : (sub_bass_generate none 4 1 60 ⟨fun _ => 0, 0⟩).1 =
      [⟨0, 21, 65, EvKind.on⟩, ⟨4, 21, 70, EvKind.off⟩] := by
    norm_num [sub_bass_generate, sub_bass_loop, should_play_sub_bass, generate_sub_bass_pattern,
      create_simple_pattern, pyChoice, randU, u01, sub_bass_entry_events, sub_release, pyInt,
      sub_bass_get_root_note, default_sub_ctx, lookupD]
  have hmem : (⟨0, 21, 65, EvKind.on⟩ : Ev) ∈ (sub_bass_generate none 4 1 60 ⟨fun _ => 0, 0⟩).1 := by
    rw [hL]
    simp
  obtain ⟨e', he', hk, hn, ht, _, hr1, hr2⟩ :=
    claim_C9_sub_bass_note_off none 4 1 60 ⟨fun _ => 0, 0⟩ (by norm_num) (by norm_num)
      ⟨0, 21, 65, EvKind.on⟩ hmem rfl (by norm_num) (by norm_num)
  exact ⟨hmem, e', he', hk, hn, ht, hr1, hr2⟩

/-! ## Rhythm generator (`rhythm.py`) -/

/-- A drum pattern: ordered dictionary from voice name to 16-step hit
flags, plus the optional `_hihat_roll` marker `(type, start)`. -/
structure DPat where
  voices : List (String × List ℤ)
  roll : Option (String × ℕ)
deriving DecidableEq, Repr

/-- Ordered-dictionary update: replace in place or append. -/
def updVoice (p : List (String × List ℤ)) (k : String) (v : List ℤ) :
    List (String × List ℤ) :=
  if hasKey p k then p.map (fun q => if q.1 = k then (k, v) else q) else p ++ [(k, v)]

/-- Voice lookup (`pattern[name]`; the sources only read keys that are
present). -/
def getVoice (p : DPat) (k : String) : List ℤ := lookupD p.voices k []

def vset (p : DPat) (k : String) (v : List ℤ) : DPat := ⟨updVoice p.voices k v, p.roll⟩

/-- `pattern[name][i] = x`. -/
def vsetStep (p : DPat) (k : String) (i : ℕ) (x : ℤ) : DPat :=
  vset p k ((getVoice p k).set i x)

/-- The five base patterns of `RhythmGenerator._create_patterns`. -/
def rhythm_patterns : List (String × List (String × List ℤ)) :=
  [("minimal",
    [("bd", [1, 0, 0, 0, 0, 0, 0, 0, 1, 0, 0, 0, 0, 0, 0, 0]),
     ("sd", [0, 0, 0, 0, 0, 0, 0, 0, 0, 0, 0, 0, 1, 0, 0, 0]),
     ("clap", [0, 0, 0, 0, 0, 0, 0, 0, 0, 0, 0, 0, 0, 0, 0, 0]),
     ("hh", [0, 0, 1, 0, 0, 0, 1, 0, 0, 0, 1, 0, 0, 0, 0, 0]),
     ("oh", [0, 0, 0, 0, 0, 0, 0, 0, 0, 0, 0, 0, 0, 0, 1, 0]),
     ("shaker", [0, 0, 0, 1, 0, 0, 0, 1, 0, 0, 0, 1, 0, 0, 0, 1]),
     ("rim", [0, 0, 0, 0, 0, 1, 0, 0, 0, 0, 0, 0, 0, 0, 0, 0])]),
   ("driving",
    [("bd", [1, 0, 0, 0, 1, 0, 0, 0, 1, 0, 0, 0, 1, 0, 0, 0]),
     ("sd", [0, 0, 0, 0, 1, 0, 0, 0, 0, 0, 0, 0, 1, 0, 0, 0]),
     ("clap", [0, 0, 0, 0, 0, 0, 0, 1, 0, 0, 0, 0, 0, 0, 0, 1]),
     ("hh", [0, 1, 0, 1, 0, 1, 0, 1, 0, 1, 0, 1, 0, 1, 0, 1]),
     ("oh", [0, 0, 0, 0, 0, 0, 1, 0, 0, 0, 0, 0, 0, 0, 1, 0]),
     ("shaker", [1, 0, 1, 0, 1, 0, 1, 0, 1, 0, 1, 0, 1, 0, 1, 0]),
     ("tambourine", [0, 0, 0, 1, 0, 0, 0, 0, 0, 0, 0, 1, 0, 0, 0, 0]),
     ("ride", [0, 0, 1, 0, 0, 0, 1, 0, 0, 0, 1, 0, 0, 0, 0, 0])]),
   ("complex",
    [("bd", [1, 0, 0, 1, 0, 0, 1, 0, 1, 0, 0, 0, 1, 0, 1, 0]),
     ("sd", [0, 0, 1, 0, 0, 0, 0, 0, 0, 0, 1, 0, 0, 0, 0, 0]),
     ("clap", [0, 0, 0, 0, 1, 0, 0, 0, 0, 0, 0, 0, 1, 0, 0, 0]),
     ("hh", [1, 1, 0, 1, 0, 1, 1, 0, 1, 1, 0, 1, 0, 1, 1, 0]),
     ("oh", [0, 0, 0, 0, 0, 0, 0, 1, 0, 0, 0, 0, 0, 0, 0, 1]),
     ("shaker", [1, 0, 1, 1, 0, 1, 0, 1, 1, 0, 1, 1, 0, 1, 0, 1]),
     ("cowbell", [0, 0, 0, 0, 0, 1, 0, 0, 0, 0, 0, 0, 0, 1, 0, 0]),
     ("rim", [0, 0, 0, 1, 0, 0, 0, 0, 0, 0, 0, 1, 0, 0, 0, 0]),
     ("pedal_hh", [0, 1, 0, 0, 1, 0, 0, 1, 0, 1, 0, 0, 1, 0, 0, 0])]),
   ("breakbeat",
    [("bd", [1, 0, 0, 0, 0, 0, 1, 0, 0, 1, 0, 0, 1, 0, 0, 0]),
     ("sd", [0, 0, 0, 0, 1, 0, 0, 0, 0, 0, 1, 0, 0, 0, 1, 0]),
     ("clap", [0, 0, 0, 0, 0, 0, 0, 0, 1, 0, 0, 0, 0, 0, 0, 0]),
     ("hh", [1, 0, 1, 1, 0, 1, 0, 1, 1, 0, 1, 0, 1, 1, 0, 1]),
     ("oh", [0, 0, 0, 0, 0, 0, 1, 0, 0, 0, 0, 0, 0, 1, 0, 0]),
     ("shaker", [0, 1, 0, 1, 0, 1, 0, 1, 0, 1, 0, 1, 0, 1, 0, 1]),
     ("tambourine", [0, 0, 1, 0, 0, 0, 1, 0, 0, 0, 1, 0, 0, 0, 0, 0]),
     ("ride", [1, 0, 0, 1, 0, 0, 0, 1, 1, 0, 0, 0, 1, 0, 0, 0]),
     ("crash", [1, 0, 0, 0, 0, 0, 0, 0, 0, 0, 0, 0, 0, 0, 0, 0])]),
   ("rolling",
    [("bd", [1, 0, 1, 0, 1, 0, 1, 0, 1, 0, 1, 0, 1, 0, 1, 0]),
     ("sd", [0, 1, 0, 1, 0, 1, 0, 1, 0, 1, 0, 1, 0, 1, 0, 1]),
     ("clap", [0, 0, 1, 0, 0, 0, 1, 0, 0, 0, 1, 0, 0, 0, 1, 0]),
     ("hh", [1, 1, 1, 1, 1, 1, 1, 1, 1, 1, 1, 1, 1, 1, 1, 1]),
     ("oh", [0, 0, 0, 0, 0, 0, 0, 0, 0, 0, 0, 0, 0, 0, 0, 0]),
     ("shaker", [1, 1, 1, 1, 1, 1, 1, 1, 1, 1, 1, 1, 1, 1, 1, 1]),
     ("tambourine", [0, 0, 0, 1, 0, 0, 0, 1, 0, 0, 0, 1, 0, 0, 0, 1]),
     ("cowbell", [0, 1, 0, 0, 0, 1, 0, 0, 0, 1, 0, 0, 0, 1, 0, 0]),
     ("ride_bell", [1, 0, 0, 0, 1, 0, 0, 0, 1, 0, 0, 0, 1, 0, 0, 0])])]

/-- `drum_map`: pattern key to GM MIDI note, in source order. -/
def drum_map : List (String × ℤ) :=
  [("bd", 36), ("sd", 38), ("clap", 39), ("hh", 42), ("oh", 46), ("pedal_hh", 44),
   ("low_tom", 41), ("mid_tom", 47), ("high_tom", 50), ("crash", 49), ("ride", 51),
   ("ride_bell", 53), ("shaker", 82), ("tambourine", 54), ("cowbell", 56), ("rim", 37),
   ("conga_low", 64), ("conga_high", 63), ("bongo_hi", 60), ("bongo_low", 61),
   ("agogo_hi", 67), ("agogo_low", 68), ("wood_block", 76), ("claves", 75),
   ("triangle", 81), ("chimes", 81)]

/-- `base_velocities`. -/
def base_velocities : List (String × ℤ) :=
  [("bd", 120), ("sd", 105), ("clap", 95), ("hh", 75), ("oh", 85), ("pedal_hh", 70),
   ("low_tom", 100), ("mid_tom", 95), ("high_tom", 90), ("crash", 110), ("ride", 80),
   ("ride_bell", 85), ("shaker", 65), ("tambourine", 75), ("cowbell", 85), ("rim", 80),
   ("conga_low", 85), ("conga_high", 80), ("bongo_hi", 75), ("bongo_low", 80),
   ("agogo_hi", 75), ("agogo_low", 70), ("wood_block", 80), ("claves", 85),
   ("triangle", 60), ("chimes", 70)]

/-- The per-voice velocity-curve lambdas of `_generate_drum_hits`; the
`hh` and `shaker` lambdas draw a `random.uniform(-0.1, 0.1)` jitter when
invoked. -/
def velocity_curve_mod (drum : String) (i : ℚ) (step : ℕ) (s : RS) : ℚ × RS :=
  if drum = "bd" then (1 + (if step % 4 = 0 then 1/5 else -(1/10)), s)
  else if drum = "sd" then (i * (4/5) + 2/5, s)
  else if drum = "clap" then (i * (7/10) + 1/2, s)
  else if drum = "hh" then
    let p := pyUniform (-(1/10)) (1/10) s
    (1/2 + i * (3/10) + p.1, p.2)
  else if drum = "oh" then (3/5 + i * (1/5), s)
  else if drum = "pedal_hh" then (2/5 + i * (3/10), s)
  else if drum = "low_tom" then (4/5 + i * (1/5), s)
  else if drum = "mid_tom" then (3/4 + i * (1/5), s)
  else if drum = "high_tom" then (7/10 + i * (1/5), s)
  else if drum = "crash" then (9/10 + i * (1/10), s)
  else if drum = "ride" then (3/5 + i * (1/5), s)
  else if drum = "ride_bell" then (7/10 + i * (1/5), s)
  else if drum = "shaker" then
    let p := pyUniform (-(1/10)) (1/10) s
    (1/2 + i * (1/5) + p.1, p.2)
  else if drum = "tambourine" then (3/5 + i * (1/5), s)
  else if drum = "cowbell" then (7/10 + i * (1/5), s)
  else if drum = "rim" then (3/5 + i * (1/5), s)
  else if drum = "conga_low" then (7/10 + i * (1/5), s)
  else if drum = "conga_high" then (13/20 + i * (1/5), s)
  else if drum = "bongo_hi" then (3/5 + i * (1/5), s)
  else if drum = "bongo_low" then (13/20 + i * (1/5), s)
  else if drum = "agogo_hi" then (3/5 + i * (1/5), s)
  else if drum = "agogo_low" then (11/20 + i * (1/5), s)
  else if drum = "wood_block" then (13/20 + i * (1/5), s)
  else if drum = "claves" then (7/10 + i * (1/5), s)
  else if drum = "triangle" then (1/2 + i * (1/10), s)
  else (11/20 + i * (1/10), s)

/-- `RhythmGenerator._should_add_ghost_note(drum_name)`. -/
def should_add_ghost_note (styleO : Option MusicStyle) (s : RS) : Bool × RS :=
  match styleO with
  | none => (false, s)
  | some st =>
    let ghost_note_probs : List (String × ℚ) :=
      [("hip-hop", 3/5), ("jungle", 1/2), ("drum&bass", 2/5), ("breakbeat", 1/2),
       ("house", 1/5), ("techno", 1/10), ("hard-tekno", 0), ("idm", 3/10),
       ("trap", 1/5), ("ambient", 0)]
    let prob := lookupD ghost_note_probs st.name (1/5)
    let p := randU s
    (decide (p.1 < prob), p.2)

/-- `RhythmGenerator._get_humanization_amount()`. -/
def get_humanization_amount (styleO : Option MusicStyle) : ℤ :=
  match styleO with
  | none => 5
  | some st =>
    lookupD
      [("hip-hop", 12), ("jungle", 10), ("drum&bass", 8), ("breakbeat", 10), ("idm", 15),
       ("house", 7), ("techno", 5), ("hard-tekno", 3), ("trap", 6), ("ambient", 8)]
      st.name 5

/-- One voice's contribution inside `_generate_drum_hits` (everything
under `if drum_name in pattern and ... and pattern[drum_name][step]`). -/
def drum_hit_event (stO : Option SongS) (styleO : Option MusicStyle) (pat : DPat)
    (step : ℕ) (step_time : ℚ) (intensity : ℚ) (measure : ℕ)
    (drum : String) (midi : ℤ) (s : RS) : List Ev × RS :=
  let base_vel := lookupD base_velocities drum 0
  let c := velocity_curve_mod drum intensity step s
  let fv0 : ℚ := (base_vel : ℚ) * c.1 * intensity
  let fv1 : ℚ :=
    match pat.roll with
    | some info =>
      if drum = "hh" then
        if info.2 ≤ step then
          fv0 * (1/2 + ((step - info.2 : ℕ) : ℚ) / ((16 - info.2 : ℕ) : ℚ) * (7/10))
        else fv0
      else if step % 4 = 0 then fv0 * (5/4)
      else if step % 4 = 2 then fv0 * (28/25)
      else fv0
    | none =>
      if step % 4 = 0 then fv0 * (5/4)
      else if step % 4 = 2 then fv0 * (28/25)
      else fv0
  let g : Bool × RS :=
    if (drum = "sd" ∨ drum = "hh" ∨ drum = "rim") ∧ step % 2 = 1 then
      should_add_ghost_note styleO c.2
    else (false, c.2)
  let fv2 : ℚ := if g.1 then fv1 * (7/20) else fv1
  let h : ℤ × RS :=
    match stO with
    | some st => get_velocity_curve st (measure : ℤ) (pyInt fv2) g.2
    | none => (pyInt fv2, g.2)
  let hum := get_humanization_amount styleO
  let r := pyRandint (-hum) hum h.2
  ([⟨step_time, midi, clamp127 (h.1 + r.1), EvKind.on⟩], r.2)

/-- `RhythmGenerator._generate_drum_hits`: fold over `drum_map`. -/
def generate_drum_hits (stO : Option SongS) (styleO : Option MusicStyle) (pat : DPat)
    (step : ℕ) (step_time : ℚ) (intensity : ℚ) (measure : ℕ) :
    List (String × ℤ) → RS → List Ev × RS
  | [], s => ([], s)
  | (drum, midi) :: rest, s =>
    if hasKey pat.voices drum ∧ step < (getVoice pat drum).length ∧
        (getVoice pat drum).getD step 0 ≠ 0 then
      let e := drum_hit_event stO styleO pat step step_time intensity measure drum midi s
      let q := generate_drum_hits stO styleO pat step step_time intensity measure rest e.2
      (e.1 ++ q.1, q.2)
    else
      generate_drum_hits stO styleO pat step step_time intensity measure rest s

def zeros16 : List ℤ := List.replicate 16 0

/-- `RhythmGenerator._is_section_transition(measure)`. -/
def is_section_transition (stO : Option SongS) (measure : ℕ) : Bool :=
  match stO with
  | none => false
  | some st =>
    if measure = 0 then false
    else if get_section st (measure : ℤ) ≠ get_section st ((measure : ℤ) - 1) then true
    else if measure + 1 < st.total_measures ∧
        get_section st (measure : ℤ) ≠ get_section st ((measure : ℤ) + 1) then true
    else false

/-- `RhythmGenerator._choose_fill_type(measure, intensity, major)`. -/
def choose_fill_type (intensity : ℚ) (major : Bool) (styleO : Option MusicStyle)
    (s : RS) : String × RS :=
  let style_name := match styleO with | some st => st.name | none => "techno"
  let fill_styles : List (String × List String) :=
    [("house", ["tom_roll", "snare_build", "light_percussion"]),
     ("techno", ["tom_roll", "snare_build", "crash_accent"]),
     ("hard-tekno", ["aggressive_roll", "double_snare", "crash_accent"]),
     ("breakbeat", ["snare_roll", "tom_cascade", "light_percussion"]),
     ("idm", ["glitch_fill", "tom_scatter", "sparse_accent"]),
     ("jungle", ["snare_roll", "tom_cascade", "aggressive_roll"]),
     ("hip-hop", ["snare_triplet", "light_percussion", "sparse_accent"]),
     ("trap", ["snare_roll", "crash_accent", "sparse_accent"]),
     ("ambient", ["sparse_accent", "light_percussion", "cymbal_swell"]),
     ("drum&bass", ["snare_roll", "aggressive_roll", "tom_cascade"])]
  let available := lookupD fill_styles style_name ["tom_roll", "snare_build", "crash_accent"]
  let available :=
    if major ∧ intensity > 7/10 then
      let intense := ["aggressive_roll", "snare_roll", "tom_cascade", "double_snare"]
      let filtered := available.filter (fun f => intense.contains f)
      if filtered.isEmpty then intense else filtered
    else if intensity < 2/5 then
      let subtle := ["light_percussion", "sparse_accent", "cymbal_swell"]
      let filtered := available.filter (fun f => subtle.contains f)
      if filtered.isEmpty then subtle else filtered
    else available
  pyChoice available "tom_roll" s

/-- The IDM glitch fill's per-step loop in `_generate_fill`. -/
def glitch_fill_loop : DPat → List ℕ → RS → DPat × RS
  | p, [], s => (p, s)
  | p, i :: rest, s =>
    let d := randU s
    if d.1 < 3/5 then
      let c := pyChoice ["sd", "rim", "high_tom"] "sd" d.2
      glitch_fill_loop (vsetStep p c.1 i 1) rest c.2
    else glitch_fill_loop p rest d.2

/-- `RhythmGenerator._generate_fill(pattern, fill_type, intensity,
measure)`. -/
def generate_fill (pat : DPat) (fill_type : String) (s : RS) : DPat × RS :=
  let p0 := [12, 13, 14, 15].foldl (fun p i => vsetStep (vsetStep p "hh" i 0) "oh" i 0) pat
  let p1 := vset (vset (vset p0 "high_tom" zeros16) "mid_tom" zeros16) "low_tom" zeros16
  if fill_type = "tom_roll" then
    (vsetStep (vsetStep (vsetStep (vsetStep (vsetStep (vsetStep p1
      "high_tom" 12 1) "high_tom" 13 1) "mid_tom" 13 1) "mid_tom" 14 1)
      "low_tom" 14 1) "low_tom" 15 1, s)
  else if fill_type = "tom_cascade" then
    (vset (vset (vset p1 "high_tom" (List.replicate 10 0 ++ [1, 0, 1, 1, 0, 1]))
      "mid_tom" (List.replicate 11 0 ++ [1, 0, 1, 0, 1]))
      "low_tom" (List.replicate 12 0 ++ [0, 1, 1, 1]), s)
  else if fill_type = "snare_roll" then
    (vset p1 "sd" ((getVoice p1 "sd").take 12 ++ [1, 1, 1, 1]), s)
  else if fill_type = "snare_build" then
    let p2 := vset p1 "sd" ((getVoice p1 "sd").take 12 ++ [1, 0, 1, 1])
    (vset p2 "clap" ((getVoice p2 "clap").take 12 ++ [0, 1, 1, 1]), s)
  else if fill_type = "aggressive_roll" then
    let p2 := vset p1 "sd" ((getVoice p1 "sd").take 10 ++ [1, 1, 1, 1, 1, 1])
    (vset (vset p2 "high_tom" (List.replicate 12 0 ++ [1, 0, 1, 0]))
      "low_tom" (List.replicate 13 0 ++ [0, 1, 1]), s)
  else if fill_type = "double_snare" then
    let p2 := vset p1 "sd" ((getVoice p1 "sd").take 12 ++ [1, 1, 0, 1])
    (vset p2 "clap" ((getVoice p2 "clap").take 12 ++ [1, 1, 0, 1]), s)
  else if fill_type = "snare_triplet" then
    (vset p1 "sd" ((getVoice p1 "sd").take 12 ++ [1, 0, 1, 0]), s)
  else if fill_type = "light_percussion" then
    (vset (vset p1 "rim" (List.replicate 12 0 ++ [1, 0, 1, 0]))
      "tambourine" (List.replicate 13 0 ++ [0, 1, 1]), s)
  else if fill_type = "crash_accent" then
    let p2 := vset p1 "crash" (List.replicate 15 0 ++ [1])
    (vset p2 "sd" ((getVoice p2 "sd").take 14 ++ [1, 0]), s)
  else if fill_type = "sparse_accent" then
    (vset p1 "rim" (List.replicate 14 0 ++ [1, 0]), s)
  else if fill_type = "cymbal_swell" then
    (vset (vset p1 "crash" (List.replicate 12 0 ++ [0, 0, 1, 0]))
      "ride" (List.replicate 13 0 ++ [1, 0, 1]), s)
  else if fill_type = "glitch_fill" then
    glitch_fill_loop p1 [12, 13, 14, 15] s
  else if fill_type = "tom_scatter" then
    let p2 := vsetStep p1 "high_tom" 12 1
    let d1 := randU s
    let p3 := vsetStep p2 "mid_tom" 13 (if d1.1 < 7/10 then 1 else 0)
    let p4 := vsetStep p3 "low_tom" 14 1
    let d2 := randU d1.2
    (vsetStep p4 "high_tom" 15 (if d2.1 < 1/2 then 1 else 0), d2.2)
  else (p1, s)

/-- `RhythmGenerator._add_light_fill(pattern, intensity)`. -/
def add_light_fill (pat : DPat) (s : RS) : DPat × RS :=
  let p1 := vset (vset (vset pat "high_tom" zeros16) "mid_tom" zeros16) "low_tom" zeros16
  let d1 := randU s
  let p2 :=
    if d1.1 < 3/5 then vset p1 "rim" ((lookupD p1.voices "rim" zeros16).set 14 1) else p1
  let d2 := randU d1.2
  let p3 := if d2.1 < 2/5 then vsetStep p2 "low_tom" 15 1 else p2
  (p3, d2.2)

/-- Write one hi-hat roll's steps (the `roll_type` branches of
`_add_hihat_rolls`). -/
def write_roll (pat : DPat) (roll_type : String) : DPat :=
  if roll_type = "short" then
    [12, 13, 14, 15].foldl (fun p i => vsetStep p "hh" i 1) pat
  else if roll_type = "medium" then
    [8, 10, 12, 13, 14, 15].foldl (fun p i => vsetStep p "hh" i 1) pat
  else if roll_type = "long" then
    [4, 7, 8, 10, 12, 13, 14, 15].foldl (fun p i => vsetStep p "hh" i 1) pat
  else
    [8, 9, 10, 11, 12, 13, 14, 15].foldl (fun p i => vsetStep p "hh" i 1) pat

/-- `RhythmGenerator._add_hihat_rolls(pattern, measure, intensity,
style_name)`. -/
def add_hihat_rolls (pat : DPat) (measure : ℕ) (intensity : ℚ) (style_name : String)
    (s : RS) : DPat × RS :=
  let r : Bool × String × RS :=
    if style_name = "trap" then
      if measure % 4 = 3 then
        let d1 := randU s
        let c := pyChoice ["short", "medium", "long"] "short" d1.2
        (decide (d1.1 < 4/5), c.1, c.2)
      else
        let d := randU s
        if d.1 < 3/20 then (true, "short", d.2) else (false, "short", d.2)
    else if style_name = "jungle" ∨ style_name = "drum&bass" then
      if measure % 2 = 1 then
        let d1 := randU s
        let c := pyChoice ["medium", "long", "ultra"] "medium" d1.2
        (decide (d1.1 < 3/5), c.1, c.2)
      else if intensity > 7/10 then
        let d := randU s
        if d.1 < 3/10 then (true, "short", d.2) else (false, "short", d.2)
      else (false, "short", s)
    else (false, "short", s)
  if r.1 then
    let p1 := write_roll pat r.2.1
    let start : ℕ := if r.2.1 = "short" then 12 else if r.2.1 = "medium" then 8 else 4
    (⟨p1.voices, some (r.2.1, start)⟩, r.2.2)
  else (pat, r.2.2)

/-- The IDM wood-block list `[random.randint(0, 1) for _ in range(16)]`. -/
def idm_randbits : ℕ → RS → List ℤ × RS
  | 0, s => ([], s)
  | n + 1, s =>
    let d := pyRandint 0 1 s
    let q := idm_randbits n d.2
    (d.1 :: q.1, q.2)

/-- The IDM claves list
`[random.randint(0, 1) if random.random() < 0.3 else 0 for _ in range(16)]`. -/
def idm_claves : ℕ → RS → List ℤ × RS
  | 0, s => ([], s)
  | n + 1, s =>
    let d := randU s
    if d.1 < 3/10 then
      let r := pyRandint 0 1 d.2
      let q := idm_claves n r.2
      (r.1 :: q.1, q.2)
    else
      let q := idm_claves n d.2
      ((0 : ℤ) :: q.1, q.2)

/-- `RhythmGenerator._add_style_percussion(pattern, measure, intensity)`. -/
def add_style_percussion (pat : DPat) (measure : ℕ) (intensity : ℚ)
    (styleO : Option MusicStyle) (s : RS) : DPat × RS :=
  match styleO with
  | none => (pat, s)
  | some st =>
    let style_name := st.name
    if style_name = "house" then
      let q1 : DPat × RS :=
        if measure % 2 = 0 then
          let d := randU s
          if d.1 < 3/5 then
            (vset (vset pat "conga_low" [0, 0, 1, 0, 0, 0, 0, 1, 0, 0, 1, 0, 0, 0, 0, 0])
              "conga_high" [0, 0, 0, 1, 0, 0, 0, 0, 0, 0, 0, 1, 0, 0, 0, 0], d.2)
          else (pat, d.2)
        else (pat, s)
      let d2 := randU q1.2
      let q2 : DPat :=
        if d2.1 < 2/5 then
          vset (vset q1.1 "bongo_hi" [0, 0, 0, 0, 0, 1, 0, 0, 0, 0, 0, 0, 0, 1, 0, 0])
            "bongo_low" [0, 0, 0, 0, 0, 0, 1, 0, 0, 0, 0, 0, 0, 0, 1, 0]
        else q1.1
      let d3 := randU d2.2
      let q3 : DPat :=
        if d3.1 < 1/2 then
          vset q2 "claves" [0, 0, 1, 0, 0, 0, 0, 0, 0, 0, 1, 0, 0, 0, 0, 0]
        else q2
      (q3, d3.2)
    else if style_name = "techno" then
      let d1 := randU s
      let q1 : DPat :=
        if d1.1 < 3/10 then
          vset pat "cowbell" [0, 0, 0, 0, 0, 0, 0, 1, 0, 0, 0, 0, 0, 0, 0, 0]
        else pat
      if measure % 4 = 3 then
        let d2 := randU d1.2
        if d2.1 < 2/5 then
          (vset q1 "wood_block" [0, 0, 0, 1, 0, 0, 0, 0, 0, 0, 0, 1, 0, 0, 0, 0], d2.2)
        else (q1, d2.2)
      else (q1, d1.2)
    else if style_name = "hard-tekno" then
      let q1 := vset pat "cowbell" [0, 1, 0, 0, 0, 1, 0, 0, 0, 1, 0, 0, 0, 1, 0, 0]
      let d1 := randU s
      let q2 : DPat :=
        if d1.1 < 3/5 then
          vset q1 "wood_block" [1, 0, 1, 0, 1, 0, 1, 0, 1, 0, 1, 0, 1, 0, 1, 0]
        else q1
      let q3 : DPat :=
        if intensity > 7/10 then
          vset q2 "claves" [0, 0, 1, 1, 0, 0, 1, 1, 0, 0, 1, 1, 0, 0, 1, 1]
        else q2
      (q3, d1.2)
    else if style_name = "breakbeat" then
      let d1 := randU s
      let q1 : DPat :=
        if d1.1 < 1/2 then
          vset pat "cowbell" [0, 0, 0, 1, 0, 0, 0, 0, 0, 0, 0, 1, 0, 0, 0, 0]
        else pat
      let d2 := randU d1.2
      let q2 : DPat :=
        if d2.1 < 2/5 then
          vset q1 "conga_high" [0, 0, 0, 0, 1, 0, 0, 0, 0, 0, 0, 0, 1, 0, 0, 0]
        else q1
      (q2, d2.2)
    else if style_name = "idm" then
      let d1 := randU s
      if d1.1 < 1/2 then
        let wb := idm_randbits 16 d1.2
        let cl := idm_claves 16 wb.2
        (vset (vset pat "wood_block" wb.1) "claves" cl.1, cl.2)
      else (pat, d1.2)
    else if style_name = "jungle" ∨ style_name = "drum&bass" then
      let d1 := randU s
      let q1 : DPat :=
        if d1.1 < 7/10 then
          vset (vset pat "conga_low" [0, 1, 0, 0, 0, 1, 0, 0, 0, 1, 0, 0, 0, 1, 0, 0])
            "conga_high" [1, 0, 0, 1, 0, 0, 1, 0, 1, 0, 0, 1, 0, 0, 1, 0]
        else pat
      let d2 := randU d1.2
      let q2 : DPat :=
        if d2.1 < 1/2 then
          vset (vset q1 "agogo_hi" [0, 0, 1, 0, 0, 0, 1, 0, 0, 0, 1, 0, 0, 0, 0, 0])
            "agogo_low" [0, 0, 0, 1, 0, 0, 0, 1, 0, 0, 0, 1, 0, 0, 0, 0]
        else q1
      add_hihat_rolls q2 measure intensity style_name d2.2
    else if style_name = "hip-hop" then
      if measure % 4 = 0 then
        let d := randU s
        if d.1 < 3/10 then
          (vset pat "cowbell" [0, 0, 0, 0, 0, 0, 0, 1, 0, 0, 0, 0, 0, 0, 0, 0], d.2)
        else (pat, d.2)
      else (pat, s)
    else if style_name = "trap" then
      let q1 := add_hihat_rolls pat measure intensity style_name s
      let d := randU q1.2
      if d.1 < 3/10 then
        (vset q1.1 "cowbell" [0, 0, 0, 0, 0, 0, 0, 0, 0, 0, 0, 0, 0, 1, 0, 0], d.2)
      else (q1.1, d.2)
    else if style_name = "ambient" then
      let d1 := randU s
      let q1 : DPat :=
        if d1.1 < 3/10 then
          vset pat "triangle" [0, 0, 0, 0, 0, 0, 0, 1, 0, 0, 0, 0, 0, 0, 0, 0]
        else pat
      let d2 := randU d1.2
      let q2 : DPat :=
        if d2.1 < 1/5 then
          vset q1 "chimes" [0, 0, 0, 0, 0, 0, 0, 0, 0, 0, 0, 0, 1, 0, 0, 0]
        else q1
      (q2, d2.2)
    else (pat, s)

/-- `RhythmGenerator._add_tom_patterns(pattern, measure, intensity)`. -/
def add_tom_patterns (pat : DPat) (measure : ℕ) (intensity : ℚ)
    (stO : Option SongS) (styleO : Option MusicStyle) (s : RS) : DPat × RS :=
  let q : DPat × RS :=
    if is_section_transition stO measure then
      let ft := choose_fill_type intensity true styleO s
      generate_fill pat ft.1 ft.2
    else if measure % 8 = 7 then
      let ft := choose_fill_type intensity false styleO s
      generate_fill pat ft.1 ft.2
    else if measure % 4 = 3 then
      let d := randU s
      if d.1 < 2/5 then add_light_fill pat d.2
      else
        let p1 := vset (vset (vset pat "high_tom" zeros16) "mid_tom" zeros16)
          "low_tom" zeros16
        if measure % 2 = 0 then
          let d2 := randU d.2
          if d2.1 < 3/10 then
            (vsetStep (vsetStep (vsetStep p1 "low_tom" 4 1) "mid_tom" 6 1) "high_tom" 7 1,
             d2.2)
          else (p1, d2.2)
        else (p1, d.2)
    else
      let p1 := vset (vset (vset pat "high_tom" zeros16) "mid_tom" zeros16)
        "low_tom" zeros16
      if measure % 2 = 0 then
        let d2 := randU s
        if d2.1 < 3/10 then
          (vsetStep (vsetStep (vsetStep p1 "low_tom" 4 1) "mid_tom" 6 1) "high_tom" 7 1,
           d2.2)
        else (p1, d2.2)
      else (p1, s)
  add_style_percussion q.1 measure intensity styleO q.2

/-- The snare/clap roll loop of the buildup branch of
`_apply_section_modifications`. -/
def buildup_snare_roll (progress : ℚ) : DPat → List ℕ → RS → DPat × RS
  | p, [], s => (p, s)
  | p, i :: rest, s =>
    let d := randU s
    let p' := if d.1 < progress then vsetStep (vsetStep p "sd" i 1) "clap" i 1 else p
    buildup_snare_roll progress p' rest d.2

/-- The hi-hat densification loop of the buildup branch. -/
def buildup_hh_fill (progress : ℚ) : DPat → List ℕ → RS → DPat × RS
  | p, [], s => (p, s)
  | p, i :: rest, s =>
    let d := randU s
    let p' := if d.1 < progress * (3/10) then vsetStep p "hh" i 1 else p
    buildup_hh_fill progress p' rest d.2

/-- The kick/snare thinning loop of the breakdown branch. -/
def breakdown_thin : DPat → List ℕ → RS → DPat × RS
  | p, [], s => (p, s)
  | p, i :: rest, s =>
    let d1 := randU s
    let p1 := if d1.1 < 7/10 then vsetStep p "bd" i 0 else p
    let d2 := randU d1.2
    let p2 := if d2.1 < 1/2 then vsetStep p1 "sd" i 0 else p1
    breakdown_thin p2 rest d2.2

/-- `RhythmGenerator._apply_section_modifications(pattern, section,
measure, intensity)` (including the `_add_tom_patterns` call it ends
with). -/
def apply_section_modifications (pat0 : List (String × List ℤ)) (sectionO : Option MSection)
    (measure : ℕ) (intensity : ℚ) (stO : Option SongS) (styleO : Option MusicStyle)
    (s : RS) : DPat × RS :=
  let pat : DPat := ⟨pat0, none⟩
  let q : DPat × RS :=
    match sectionO with
    | some sec =>
      if strHas sec.name "buildup" then
        let progress := position_in_section sec (measure : ℤ)
        let q1 : DPat × RS :=
          if progress > 3/4 then buildup_snare_roll progress pat [12, 13, 14, 15] s
          else (pat, s)
        if progress > 1/2 then buildup_hh_fill progress q1.1 (List.range 16) q1.2
        else q1
      else if strHas sec.name "drop" then
        (vsetStep (vsetStep (vsetStep (vsetStep pat "bd" 0 1) "bd" 4 1) "bd" 8 1) "bd" 12 1,
         s)
      else if strHas sec.name "breakdown" then
        breakdown_thin pat (List.range 16) s
      else (pat, s)
    | none => (pat, s)
  add_tom_patterns q.1 measure intensity stO styleO q.2

/-- The default progression at the end of
`RhythmGenerator._choose_pattern_for_section` (reached when there is no
section or no name branch matches). -/
def choose_pattern_default (preferred : List String) (measure : ℕ) (s : RS) : String × RS :=
  if measure < 8 then ("minimal", s)
  else if measure < 32 then
    let options := preferred.filter (fun p => p = "driving" ∨ p = "complex")
    if options.isEmpty then pyChoice preferred "minimal" s
    else pyChoice options "minimal" s
  else pyChoice preferred "minimal" s

/-- `RhythmGenerator._choose_pattern_for_section(section, intensity,
measure)`. -/
def choose_pattern_for_section (sectionO : Option MSection) (intensity : ℚ) (measure : ℕ)
    (styleO : Option MusicStyle) (s : RS) : String × RS :=
  let preferred :=
    match styleO with
    | some st => st.rhythm_patterns
    | none => rhythm_patterns.map Prod.fst
  match sectionO with
  | none => choose_pattern_default preferred measure s
  | some sec =>
    if strHas sec.name "intro" ∨ strHas sec.name "outro" then
      let options := preferred.filter (fun p => p = "minimal" ∨ p = "driving")
      let options' := if options.isEmpty then ["minimal"] else options
      pyChoice (options' ++ ["minimal"]) "minimal" s
    else if strHas sec.name "buildup" then
      if intensity < 2/5 then ("minimal", s)
      else if intensity < 3/5 then
        let options := preferred.filter (fun p => p = "driving" ∨ p = "minimal")
        if options.isEmpty then ("driving", s) else pyChoice options "driving" s
      else
        let options :=
          preferred.filter (fun p => p = "complex" ∨ p = "rolling" ∨ p = "breakbeat")
        if options.isEmpty then pyChoice ["complex", "rolling"] "complex" s
        else pyChoice options "complex" s
    else if strHas sec.name "drop" ∨ strHas sec.name "main" ∨ strHas sec.name "verse" then
      pyChoice preferred "minimal" s
    else if strHas sec.name "breakdown" ∨ strHas sec.name "break" then
      let options := preferred.filter (fun p => p = "minimal" ∨ p = "breakbeat")
      if options.isEmpty then pyChoice ["minimal", "breakbeat"] "minimal" s
      else pyChoice options "minimal" s
    else choose_pattern_default preferred measure s

/-- `RhythmGenerator._should_add_crash(measure)`. -/
def should_add_crash (stO : Option SongS) (measure : ℕ) (s : RS) : Bool × RS :=
  let viaSection : Bool :=
    match stO with
    | some st =>
      if 0 < measure then
        decide (get_section st (measure : ℤ) ≠ get_section st ((measure : ℤ) - 1)) &&
          strHas (get_section st (measure : ℤ)).name "drop"
      else false
    | none => false
  if viaSection then (true, s)
  else if measure % 16 = 0 ∧ 0 < measure then
    let d := randU s
    (decide (d.1 < 7/10), d.2)
  else (false, s)

/-- The crash insertion at step 0 of each measure in
`RhythmGenerator.generate` (`events.append((step_time, self.CRASH,
random.randint(90, 127)))`). -/
def crash_events (stO : Option SongS) (measure : ℕ) (step : ℕ) (step_time : ℚ) (s : RS) :
    List Ev × RS :=
  if step = 0 then
    let sc := should_add_crash stO measure s
    if sc.1 then
      let r := pyRandint 90 127 sc.2
      ([⟨step_time, 49, r.1, EvKind.on⟩], r.2)
    else ([], sc.2)
  else ([], s)

/-- Per-step loop of `RhythmGenerator.generate`: optional swing delay on
odd steps, the crash check at step 0, then the drum hits. -/
def rhythm_steps_loop (stO : Option SongS) (styleO : Option MusicStyle) (pat : DPat)
    (intensity : ℚ) (measure : ℕ) (cur stepdur swing : ℚ) :
    List ℕ → RS → List Ev × RS
  | [], s => ([], s)
  | step :: rest, s =>
    let step_time0 := cur + (step : ℚ) * stepdur
    let step_time :=
      if swing > 0 ∧ step % 2 = 1 then step_time0 + stepdur * swing * (1/2)
      else step_time0
    let c := crash_events stO measure step step_time s
    let h := generate_drum_hits stO styleO pat step step_time intensity measure drum_map c.2
    let q := rhythm_steps_loop stO styleO pat intensity measure cur stepdur swing rest h.2
    (c.1 ++ h.1 ++ q.1, q.2)

/-- Per-measure countdown loop of `RhythmGenerator.generate`, carrying
the rolling `pattern_history`. -/
def rhythm_measure_loop (stO : Option SongS) (styleO : Option MusicStyle) (beats : ℕ)
    (stepdur swing : ℚ) (tempo : ℤ) :
    ℕ → ℕ → ℚ → List String → RS → List Ev × RS
  | 0, _, _, _, s => ([], s)
  | k + 1, measure, cur, history, s =>
    let md := (beats : ℚ) * (60 / (tempo : ℚ))
    let ctx : Option MSection × ℚ × (Bool × RS) :=
      match stO with
      | some st =>
        (some (get_section st (measure : ℤ)), get_intensity st (measure : ℤ),
         should_play_instrument st (measure : ℤ) "drums" s)
      | none => (none, 7/10, (true, s))
    if ctx.2.2.1 = false then
      rhythm_measure_loop stO styleO beats stepdur swing tempo k (measure + 1) (cur + md)
        history ctx.2.2.2
    else
      let p1 := choose_pattern_for_section ctx.1 ctx.2.1 measure styleO ctx.2.2.2
      let p2 : String × RS :=
        if 4 ≤ history.length ∧
            (history.drop (history.length - 4)).all (fun p => p == p1.1) then
          pyChoice ((rhythm_patterns.map Prod.fst).filter (fun p => p ≠ p1.1)) "minimal" p1.2
        else p1
      let history1 := history ++ [p2.1]
      let history2 := if 8 < history1.length then history1.drop 1 else history1
      let current_pattern := lookupD rhythm_patterns p2.1 []
      let mods := apply_section_modifications current_pattern ctx.1 measure ctx.2.1 stO
        styleO p2.2
      let evs := rhythm_steps_loop stO styleO mods.1 ctx.2.1 measure cur stepdur swing
        (List.range (beats * 4)) mods.2
      let rest := rhythm_measure_loop stO styleO beats stepdur swing tempo k (measure + 1)
        (cur + md) history2 evs.2
      (evs.1 ++ rest.1, rest.2)

/-- `RhythmGenerator.generate(measures, tempo, swing)`; `inst_swing` is
the constructor's swing, `swingO` the call's optional override. -/
def rhythm_generate (stO : Option SongS) (styleO : Option MusicStyle) (beats : ℕ)
    (inst_swing : ℚ) (measures : ℕ) (tempo : ℤ) (swingO : Option ℚ) (s : RS) :
    List Ev × RS :=
  let swing_amount := swingO.getD inst_swing
  rhythm_measure_loop stO styleO beats (60 / ((tempo : ℚ) * 4)) swing_amount tempo
    measures 0 0 [] s

/-! ## The rhythm generator emits only note-on events -/

theorem drum_hit_event_on (stO : Option SongS) (styleO : Option MusicStyle) (pat : DPat)
    (step : ℕ) (step_time : ℚ) (intensity : ℚ) (measure : ℕ) (drum : String) (midi : ℤ)
    (s : RS) :
    ∀ e ∈ (drum_hit_event stO styleO pat step step_time intensity measure drum midi s).1,
      e.kind = EvKind.on := by
  intro e he
  simp only [drum_hit_event, List.mem_singleton] at he
  subst he
  rfl

theorem generate_drum_hits_on (stO : Option SongS) (styleO : Option MusicStyle) (pat : DPat)
    (step : ℕ) (step_time : ℚ) (intensity : ℚ) (measure : ℕ) :
    ∀ (dm : List (String × ℤ)) (s : RS),
      ∀ e ∈ (generate_drum_hits stO styleO pat step step_time intensity measure dm s).1,
        e.kind = EvKind.on := by
  intro dm
  induction dm with
  | nil =>
    intro s e he
    simp [generate_drum_hits] at he
  | cons d rest ih =>
    obtain ⟨drum, midi⟩ := d
    intro s e he
    simp only [generate_drum_hits] at he
    split_ifs at he
    · rcases List.mem_append.mp he with hl | hr
      · exact drum_hit_event_on stO styleO pat step step_time intensity measure drum midi s
          e hl
      · exact ih _ e hr
    · exact ih _ e he

theorem crash_events_on (stO : Option SongS) (measure step : ℕ) (step_time : ℚ) (s : RS) :
    ∀ e ∈ (crash_events stO measure step step_time s).1, e.kind = EvKind.on := by
  intro e he
  simp only [crash_events] at he
  split_ifs at he
  · simp only [List.mem_singleton] at he
    subst he
    rfl
  · simp at he
  · simp at he

theorem rhythm_steps_loop_on (stO : Option SongS) (styleO : Option MusicStyle) (pat : DPat)
    (intensity : ℚ) (measure : ℕ) (cur stepdur swing : ℚ) :
    ∀ (steps : List ℕ) (s : RS),
      ∀ e ∈ (rhythm_steps_loop stO styleO pat intensity measure cur stepdur swing steps s).1,
        e.kind = EvKind.on := by
  intro steps
  induction steps with
  | nil =>
    intro s e he
    simp [rhythm_steps_loop] at he
  | cons step rest ih =>
    intro s e he
    simp only [rhythm_steps_loop] at he
    rcases List.mem_append.mp he with hch | hq
    · rcases List.mem_append.mp hch with hc | hh
      · exact crash_events_on stO measure step _ s e hc
      · exact generate_drum_hits_on stO styleO pat step _ intensity measure drum_map _ e hh
    · exact ih _ e hq

theorem rhythm_measure_loop_on (stO : Option SongS) (styleO : Option MusicStyle)
    (beats : ℕ) (stepdur swing : ℚ) (tempo : ℤ) :
    ∀ (k measure : ℕ) (cur : ℚ) (history : List String) (s : RS),
      ∀ e ∈ (rhythm_measure_loop stO styleO beats stepdur swing tempo k measure cur
          history s).1, e.kind = EvKind.on := by
  intro k
  induction k with
  | zero =>
    intro measure cur history s e he
    simp [rhythm_measure_loop] at he
  | succ k ih =>
    intro measure cur history s e he
    simp only [rhythm_measure_loop] at he
    split at he
    · exact ih _ _ _ _ e he
    · rcases List.mem_append.mp he with hl | hr
      · exact rhythm_steps_loop_on stO styleO _ _ measure cur stepdur swing _ _ e hl
      · exact ih _ _ _ _ e hr

/-- Every event the rhythm generator returns is a note-on: the generator
emits single hits and never a note-off. -/
theorem rhythm_generate_all_on (stO : Option SongS) (styleO : Option MusicStyle)
    (beats : ℕ) (inst_swing : ℚ) (measures : ℕ) (tempo : ℤ) (swingO : Option ℚ) (s : RS) :
    ∀ e ∈ (rhythm_generate stO styleO beats inst_swing measures tempo swingO s).1,
      e.kind = EvKind.on :=
  rhythm_measure_loop_on stO styleO beats _ _ tempo measures 0 0 [] s

theorem hasKey_of_getVoice_ne {p : DPat} {k : String} (h : getVoice p k ≠ []) :
    hasKey p.voices k = true := by
  rw [getVoice, lookupD] at h
  rw [hasKey]
  cases hf : p.voices.find? fun q => q.1 = k with
  | none =>
    rw [hf] at h
    simp at h
  | some q => simp

theorem generate_drum_hits_cons (stO : Option SongS) (styleO : Option MusicStyle)
    (pat : DPat) (step : ℕ) (step_time intensity : ℚ) (measure : ℕ) (drum : String)
    (midi : ℤ) (rest : List (String × ℤ)) (s : RS) :
    generate_drum_hits stO styleO pat step step_time intensity measure
        ((drum, midi) :: rest) s =
      if hasKey pat.voices drum ∧ step < (getVoice pat drum).length ∧
          (getVoice pat drum).getD step 0 ≠ 0 then
        ((drum_hit_event stO styleO pat step step_time intensity measure drum midi s).1 ++
          (generate_drum_hits stO styleO pat step step_time intensity measure rest
            (drum_hit_event stO styleO pat step step_time intensity measure drum midi
              s).2).1,
         (generate_drum_hits stO styleO pat step step_time intensity measure rest
           (drum_hit_event stO styleO pat step step_time intensity measure drum midi
             s).2).2)
      else generate_drum_hits stO styleO pat step step_time intensity measure rest s := rfl

theorem generate_drum_hits_ne (stO : Option SongS) (styleO : Option MusicStyle) (pat : DPat)
    (step_time : ℚ) (intensity : ℚ) (measure : ℕ) (s : RS)
    (hbd : hasKey pat.voices "bd" = true) (hlen : 0 < (getVoice pat "bd").length)
    (hhit : (getVoice pat "bd").getD 0 0 ≠ 0) :
    (generate_drum_hits stO styleO pat 0 step_time intensity measure drum_map s).1 ≠ [] := by
  have hdm : drum_map = ("bd", (36 : ℤ)) :: drum_map.tail := rfl
  rw [hdm, generate_drum_hits_cons, if_pos ⟨by rw [hbd], hlen, hhit⟩]
  intro hcontra
  obtain ⟨h1, -⟩ := List.append_eq_nil.mp hcontra
  exact List.cons_ne_nil _ _ h1

theorem rhythm_steps_loop_ne (stO : Option SongS) (styleO : Option MusicStyle) (pat : DPat)
    (intensity : ℚ) (measure : ℕ) (cur stepdur swing : ℚ) (rest : List ℕ) (s : RS)
    (hbd : hasKey pat.voices "bd" = true) (hlen : 0 < (getVoice pat "bd").length)
    (hhit : (getVoice pat "bd").getD 0 0 ≠ 0) :
    (rhythm_steps_loop stO styleO pat intensity measure cur stepdur swing (0 :: rest) s).1
      ≠ [] := by
  simp only [rhythm_steps_loop]
  intro hcontra
  obtain ⟨h12, -⟩ := List.append_eq_nil.mp hcontra
  obtain ⟨-, h2⟩ := List.append_eq_nil.mp h12
  exact generate_drum_hits_ne stO styleO pat _ intensity measure _ hbd hlen hhit h2

/-! ## Claim C2 -/

/-- C2 (amended): the note-on/note-off discipline differs between the
two generators.  The sub-bass generator emits paired events: every
note-on is matched by a note-off at the same pitch strictly later.  The
percussion generator emits note-on hits only (the external MIDI sink
synthesises note-offs), so there is no note-off pairing inside its
returned event list. -/
theorem claim_C2_note_pairing :
    (∀ (stO : Option SongS) (styleO : Option MusicStyle) (beats : ℕ) (inst_swing : ℚ)
      (measures : ℕ) (tempo : ℤ) (swingO : Option ℚ) (s : RS),
      ∀ e ∈ (rhythm_generate stO styleO beats inst_swing measures tempo swingO s).1,
        e.kind = EvKind.on) ∧
    (∀ (stO : Option SongS) (beats measures : ℕ) (tempo : ℤ) (s : RS),
      1 ≤ beats → 1 ≤ tempo →
      ∀ e ∈ (sub_bass_generate stO beats measures tempo s).1, e.kind = EvKind.on →
        ∃ e' ∈ (sub_bass_generate stO beats measures tempo s).1,
          e'.kind = EvKind.off ∧ e'.note = e.note ∧ e.t < e'.t) := by
  constructor
  · exact rhythm_generate_all_on
  · intro stO beats measures tempo s hbeats htempo e he hkind
    have hbd : (0 : ℚ) < 60 / (tempo : ℚ) := by
      apply div_pos (by norm_num)
      exact_mod_cast htempo
    obtain ⟨e', he', hk, hn, ht, -⟩ :=
      sub_bass_loop_pairing stO hbeats hbd measures 0 0 s e he hkind
    exact ⟨e', he', hk, hn, ht⟩

theorem claim_C2_note_pairing_witness :
    (∀ e ∈ (rhythm_generate none none 4 0 1 60 none ⟨fun _ => 0, 0⟩).1,
      e.kind = EvKind.on) ∧
    ((⟨0, 21, 65, EvKind.on⟩ : Ev) ∈ (sub_bass_generate none 4 1 60 ⟨fun _ => 0, 0⟩).1 →
      ∃ e' ∈ (sub_bass_generate none 4 1 60 ⟨fun _ => 0, 0⟩).1,
        e'.kind = EvKind.off ∧ e'.note = 21 ∧ (0 : ℚ) < e'.t) := by
  obtain ⟨h1, h2⟩ := claim_C2_note_pairing
  refine ⟨h1 none none 4 0 1 60 none ⟨fun _ => 0, 0⟩, ?_⟩
  intro hmem
  obtain ⟨e', he', hk, hn, ht⟩ :=
    h2 none 4 1 60 ⟨fun _ => 0, 0⟩ (by norm_num) (by norm_num) ⟨0, 21, 65, EvKind.on⟩
      hmem rfl
  exact ⟨e', he', hk, hn, ht⟩

set_option maxHeartbeats 1000000 in
/-- C2 (counterexample): at `measures = 1`, `tempo = 60`, the default
4/4 time signature, no song structure, no style and the all-zeros random
stream, the percussion generator's event list contains a note-on with no
note-off at the same pitch at any strictly later time — indeed it
contains no note-off at all. -/
theorem claim_C2_counterexample :
    ∃ e ∈ (rhythm_generate none none 4 0 1 60 none ⟨fun _ => 0, 0⟩).1,
      e.kind = EvKind.on ∧
      ¬ ∃ e' ∈ (rhythm_generate none none 4 0 1 60 none ⟨fun _ => 0, 0⟩).1,
          e'.kind = EvKind.off ∧ e'.note = e.note ∧ e.t < e'.t := by
  have hall := rhythm_generate_all_on none none 4 0 1 60 none ⟨fun _ => 0, 0⟩
  have hmods_bd : getVoice (apply_section_modifications (lookupD rhythm_patterns "minimal" [])
      none 0 (7/10) none none
      (⟨fun _ => 0, 0⟩ : RS)).1 "bd" = [1, 0, 0, 0, 0, 0, 0, 0, 1, 0, 0, 0, 0, 0, 0, 0] := by
    norm_num +decide [apply_section_modifications, add_tom_patterns, add_style_percussion,
      is_section_transition, vset, vsetStep, updVoice, getVoice, lookupD, hasKey, zeros16,
      rhythm_patterns, randU, u01, List.find?]
  have hL : (rhythm_generate none none 4 0 1 60 none ⟨fun _ => 0, 0⟩).1 =
      (rhythm_steps_loop none none
        (apply_section_modifications (lookupD rhythm_patterns "minimal" []) none 0 (7/10)
          none none (⟨fun _ => 0, 0⟩ : RS)).1
        (7/10) 0 0 (60 / ((60 : ℚ) * 4)) 0 (List.range 16)
        (apply_section_modifications (lookupD rhythm_patterns "minimal" []) none 0 (7/10)
          none none (⟨fun _ => 0, 0⟩ : RS)).2).1 ++ [] := by
    norm_num [rhythm_generate, rhythm_measure_loop, choose_pattern_for_section,
      choose_pattern_default]
  have hne : (rhythm_generate none none 4 0 1 60 none ⟨fun _ => 0, 0⟩).1 ≠ [] := by
    rw [hL, List.append_nil]
    have hrange : List.range 16 = 0 :: [1, 2, 3, 4, 5, 6, 7, 8, 9, 10, 11, 12, 13, 14, 15] :=
      rfl
    rw [hrange]
    apply rhythm_steps_loop_ne
    · apply hasKey_of_getVoice_ne
      rw [hmods_bd]
      simp
    · rw [hmods_bd]
      norm_num
    · rw [hmods_bd]
      norm_num
  obtain ⟨e, tl, hcons⟩ := List.exists_cons_of_ne_nil hne
  have hmem : e ∈ (rhythm_generate none none 4 0 1 60 none ⟨fun _ => 0, 0⟩).1 := by
    rw [hcons]
    exact List.mem_cons_self e tl
  refine ⟨e, hmem, hall e hmem, ?_⟩
  rintro ⟨e', he', hk, -⟩
  have := hall e' he'
  rw [this] at hk
  exact EvKind.noConfusion hk

/-! ## Bassline generator (`generators/bassline.py`) -/

/-- One riff of `BasslineGenerator._create_riff_library`: a 16-step gate
pattern, per-step note offsets and per-step slide flags. -/
structure Riff where
  pattern : List ℤ
  notes : List ℤ
  slides : List ℤ
deriving DecidableEq, Repr

/-- `BasslineGenerator._create_riff_library()`, in source order. -/
def riff_library : List (String × Riff) :=
  [("acid_303",
    ⟨[1, 0, 1, 0, 0, 1, 0, 1, 1, 0, 0, 1, 0, 1, 1, 0],
     [0, 0, 12, 0, 0, 7, 0, 5, 0, 0, 0, 3, 0, 7, 12, 0],
     [0, 0, 1, 0, 0, 0, 0, 1, 0, 0, 0, 0, 0, 1, 0, 0]⟩),
   ("detroit_funk",
    ⟨[1, 0, 0, 1, 0, 1, 0, 0, 1, 1, 0, 1, 0, 0, 1, 0],
     [0, 0, 0, -5, 0, 7, 0, 0, 0, 5, 0, 3, 0, 0, 12, 0],
     [0, 0, 0, 0, 0, 0, 0, 0, 1, 0, 0, 0, 0, 0, 0, 0]⟩),
   ("berlin_minimal",
    ⟨[1, 0, 0, 0, 0, 0, 1, 0, 0, 0, 0, 0, 1, 0, 0, 0],
     [0, 0, 0, 0, 0, 0, -12, 0, 0, 0, 0, 0, 0, 0, 0, 0],
     [0, 0, 0, 0, 0, 0, 0, 0, 0, 0, 0, 0, 0, 0, 0, 0]⟩),
   ("uk_rave",
    ⟨[1, 1, 0, 1, 1, 0, 1, 0, 1, 1, 0, 1, 1, 0, 1, 0],
     [0, 0, 0, 7, 7, 0, 5, 0, 0, 0, 0, 3, 3, 0, 7, 0],
     [0, 1, 0, 0, 1, 0, 0, 0, 0, 1, 0, 0, 1, 0, 0, 0]⟩),
   ("chicago_jack",
    ⟨[1, 0, 1, 0, 1, 0, 1, 0, 1, 0, 1, 0, 1, 0, 1, 0],
     [0, 0, 12, 0, 0, 0, 7, 0, 0, 0, 5, 0, 0, 0, 3, 0],
     [0, 0, 0, 0, 0, 0, 0, 0, 0, 0, 0, 0, 0, 0, 0, 0]⟩),
   ("rolling_thunder",
    ⟨[1, 1, 1, 0, 1, 1, 1, 0, 1, 1, 1, 0, 1, 1, 1, 0],
     [0, 2, 5, 0, 7, 5, 3, 0, 0, 2, 5, 0, 7, 10, 12, 0],
     [0, 0, 1, 0, 0, 0, 1, 0, 0, 0, 1, 0, 0, 0, 1, 0]⟩),
   ("warehouse_stomp",
    ⟨[1, 0, 0, 1, 0, 0, 1, 0, 1, 0, 0, 1, 0, 1, 0, 0],
     [0, 0, 0, 0, 0, 0, 12, 0, -12, 0, 0, 0, 0, 7, 0, 0],
     [0, 0, 0, 0, 0, 0, 1, 0, 1, 0, 0, 0, 0, 0, 0, 0]⟩),
   ("hypnotic_loop",
    ⟨[1, 0, 1, 0, 0, 1, 0, 1, 0, 1, 0, 0, 1, 0, 1, 0],
     [0, 0, 3, 0, 0, 5, 0, 7, 0, 5, 0, 0, 3, 0, 0, 0],
     [0, 0, 0, 0, 0, 0, 0, 1, 0, 1, 0, 0, 0, 0, 0, 0]⟩),
   ("sub_pressure",
    ⟨[1, 0, 0, 0, 1, 0, 0, 0, 1, 0, 0, 0, 1, 0, 0, 0],
     [-12, 0, 0, 0, -12, 0, 0, 0, -7, 0, 0, 0, -5, 0, 0, 0],
     [1, 0, 0, 0, 1, 0, 0, 0, 1, 0, 0, 0, 1, 0, 0, 0]⟩),
   ("techno_gallop",
    ⟨[1, 0, 1, 1, 0, 1, 0, 1, 1, 0, 1, 1, 0, 1, 0, 1],
     [0, 0, 0, 5, 0, 7, 0, 12, 0, 0, 0, 5, 0, 3, 0, 0],
     [0, 0, 0, 0, 0, 0, 0, 1, 0, 0, 0, 0, 0, 0, 0, 0]⟩),
   ("syncopated_groove",
    ⟨[1, 0, 0, 1, 1, 0, 1, 0, 0, 1, 0, 1, 1, 0, 0, 1],
     [0, 0, 0, 7, 5, 0, 3, 0, 0, 12, 0, 7, 5, 0, 0, 0],
     [0, 0, 0, 1, 0, 0, 0, 0, 0, 1, 0, 0, 0, 0, 0, 0]⟩),
   ("stepped_ascent",
    ⟨[1, 0, 0, 0, 1, 0, 0, 0, 1, 0, 0, 0, 1, 0, 0, 0],
     [0, 0, 0, 0, 3, 0, 0, 0, 7, 0, 0, 0, 12, 0, 0, 0],
     [0, 0, 0, 0, 1, 0, 0, 0, 1, 0, 0, 0, 1, 0, 0, 0]⟩),
   ("broken_eighth",
    ⟨[1, 0, 1, 0, 0, 0, 1, 0, 1, 0, 0, 0, 1, 0, 1, 0],
     [0, 0, 5, 0, 0, 0, 7, 0, 12, 0, 0, 0, 7, 0, 5, 0],
     [0, 0, 0, 0, 0, 0, 0, 0, 1, 0, 0, 0, 0, 0, 0, 0]⟩),
   ("tribal_pump",
    ⟨[1, 1, 0, 1, 0, 1, 1, 0, 1, 1, 0, 1, 0, 1, 1, 0],
     [0, -5, 0, 7, 0, 5, 0, 0, 0, -7, 0, 3, 0, 0, 5, 0],
     [0, 0, 0, 1, 0, 0, 0, 0, 0, 0, 0, 0, 0, 0, 1, 0]⟩),
   ("stutter_bass",
    ⟨[1, 1, 1, 1, 0, 0, 1, 0, 1, 1, 1, 0, 0, 1, 0, 1],
     [0, 0, 0, 5, 0, 0, 7, 0, 12, 12, 12, 0, 0, 7, 0, 0],
     [0, 0, 0, 0, 0, 0, 0, 0, 1, 0, 0, 0, 0, 0, 0, 0]⟩),
   ("deep_rumble",
    ⟨[1, 0, 0, 0, 0, 0, 0, 0, 1, 0, 0, 0, 0, 0, 1, 0],
     [-12, 0, 0, 0, 0, 0, 0, 0, -12, 0, 0, 0, 0, 0, -7, 0],
     [1, 0, 0, 0, 0, 0, 0, 0, 1, 0, 0, 0, 0, 0, 1, 0]⟩),
   ("octave_jump",
    ⟨[1, 0, 1, 0, 1, 0, 1, 0, 1, 0, 1, 0, 1, 0, 1, 0],
     [0, 0, 12, 0, 0, 0, 12, 0, 7, 0, 19, 0, 5, 0, 17, 0],
     [0, 0, 1, 0, 0, 0, 1, 0, 0, 0, 1, 0, 0, 0, 1, 0]⟩),
   ("off_grid",
    ⟨[1, 0, 0, 1, 0, 1, 0, 0, 1, 0, 0, 1, 0, 0, 1, 1],
     [0, 0, 0, 5, 0, 3, 0, 0, 7, 0, 0, 12, 0, 0, 7, 5],
     [0, 0, 0, 0, 0, 0, 0, 0, 1, 0, 0, 1, 0, 0, 0, 0]⟩),
   ("ascending_thirds",
    ⟨[1, 0, 1, 0, 1, 0, 1, 0, 1, 0, 1, 0, 1, 0, 1, 0],
     [0, 0, 3, 0, 5, 0, 7, 0, 10, 0, 12, 0, 7, 0, 3, 0],
     [0, 0, 0, 0, 0, 0, 0, 0, 0, 0, 1, 0, 1, 0, 0, 0]⟩),
   ("bouncing_bass",
    ⟨[1, 1, 0, 0, 1, 1, 0, 0, 1, 1, 0, 0, 1, 1, 0, 0],
     [0, 7, 0, 0, 12, 7, 0, 0, 0, 5, 0, 0, 3, 7, 0, 0],
     [0, 0, 0, 0, 1, 0, 0, 0, 0, 0, 0, 0, 0, 1, 0, 0]⟩)]

/-- `BasslineGenerator._choose_riff(context, measure)` (the `measure`
argument is unused by the source). -/
def choose_riff (styleO : Option MusicStyle) (ctx : HarmCtx) (s : RS) : String × RS :=
  let sectionName := ctx.sectionName
  let intensity := ctx.intensity
  let preferred : List String :=
    match styleO with
    | some st => st.bassline_riffs
    | none => riff_library.map Prod.fst
  if strHas sectionName "intro" || decide (intensity < 3/10) then
    let options := preferred.filter
      (fun r => (["berlin_minimal", "sub_pressure", "hypnotic_loop"] : List String).contains r)
    pyChoice (if options.isEmpty then preferred else options) "" s
  else if strHas sectionName "buildup" then
    if intensity < 3/5 then
      let options := preferred.filter
        (fun r => (["hypnotic_loop", "warehouse_stomp", "detroit_funk"] : List String).contains r)
      pyChoice (if options.isEmpty then preferred else options) "" s
    else
      let options := preferred.filter
        (fun r =>
          (["rolling_thunder", "techno_gallop", "uk_rave", "acid_303"] : List String).contains r)
      pyChoice (if options.isEmpty then preferred else options) "" s
  else if strHas sectionName "drop" || strHas sectionName "main" ||
      decide (intensity > 4/5) then
    pyChoice preferred "" s
  else if strHas sectionName "breakdown" || strHas sectionName "break" then
    let options := preferred.filter
      (fun r =>
        (["detroit_funk", "hypnotic_loop", "berlin_minimal", "sub_pressure"] :
          List String).contains r)
    pyChoice (if options.isEmpty then preferred else options) "" s
  else
    pyChoice preferred "" s

/-- The `octave_jump` variation loop of `_apply_riff_variations`. -/
def bl_octave_loop (pattern : List ℤ) : List ℤ → List ℕ → RS → List ℤ × RS
  | notes, [], s => (notes, s)
  | notes, i :: rest, s =>
    if pattern.getD i 0 ≠ 0 then
      let p := randU s
      if p.1 < 1/5 then
        let c := pyChoice [(-12 : ℤ), 12] 0 p.2
        bl_octave_loop pattern (notes.set i (notes.getD i 0 + c.1)) rest c.2
      else bl_octave_loop pattern notes rest p.2
    else bl_octave_loop pattern notes rest s

/-- The note-dropping loops of `_apply_riff_variations` (`note_skip` with
probability 0.1, the low-intensity thinning with probability 0.3). -/
def bl_skip_loop (prob : ℚ) : List ℤ → List ℕ → RS → List ℤ × RS
  | pattern, [], s => (pattern, s)
  | pattern, i :: rest, s =>
    let p := randU s
    if p.1 < prob then bl_skip_loop prob (pattern.set i 0) rest p.2
    else bl_skip_loop prob pattern rest p.2

/-- The `double_time` variation loop (even steps only). -/
def bl_double_loop : List ℤ → List ℤ → List ℕ → RS → (List ℤ × List ℤ) × RS
  | pattern, notes, [], s => ((pattern, notes), s)
  | pattern, notes, i :: rest, s =>
    if pattern.getD i 0 = 0 then
      let p := randU s
      if p.1 < 3/10 then
        if 0 < i then
          let c := pyChoice [(2 : ℤ), 3, 5] 0 p.2
          bl_double_loop (pattern.set i 1) (notes.set i (notes.getD (i - 1) 0 + c.1)) rest c.2
        else bl_double_loop (pattern.set i 1) notes rest p.2
      else bl_double_loop pattern notes rest p.2
    else bl_double_loop pattern notes rest s

/-- The high-intensity note-adding loop of `_apply_riff_variations`. -/
def bl_boost_loop : List ℤ → List ℤ → List ℕ → RS → (List ℤ × List ℤ) × RS
  | pattern, notes, [], s => ((pattern, notes), s)
  | pattern, notes, i :: rest, s =>
    if pattern.getD i 0 = 0 then
      let p := randU s
      if p.1 < 1/5 then
        let c := pyChoice [(0 : ℤ), 3, 5, 7, 12] 0 p.2
        bl_boost_loop (pattern.set i 1) (notes.set i c.1) rest c.2
      else bl_boost_loop pattern notes rest p.2
    else bl_boost_loop pattern notes rest s

/-- `[l[-1]] + l[:-1]`, the `syncopate` right shift. -/
def rot_right (l : List ℤ) : List ℤ :=
  if l.isEmpty then l else l.getLastD 0 :: l.dropLast

/-- `BasslineGenerator._apply_riff_variations(riff, measure, intensity)`
(the `measure` argument is unused by the source). -/
def apply_riff_variations (riff : Riff) (intensity : ℚ) (s : RS) : Riff × RS :=
  let vt := pyChoice ["none", "octave_jump", "note_skip", "double_time", "syncopate"] "none" s
  let afterVar : (List ℤ × List ℤ × List ℤ) × RS :=
    if vt.1 = "octave_jump" then
      let r := bl_octave_loop riff.pattern riff.notes (List.range 16) vt.2
      ((riff.pattern, r.1, riff.slides), r.2)
    else if vt.1 = "note_skip" then
      let r := bl_skip_loop (1/10) riff.pattern (List.range 16) vt.2
      ((r.1, riff.notes, riff.slides), r.2)
    else if vt.1 = "double_time" ∧ intensity > 7/10 then
      let r := bl_double_loop riff.pattern riff.notes ((List.range 8).map (· * 2)) vt.2
      ((r.1.1, r.1.2, riff.slides), r.2)
    else if vt.1 = "syncopate" then
      let p := randU vt.2
      if p.1 < 1/2 then ((rot_right riff.pattern, rot_right riff.notes, riff.slides), p.2)
      else ((riff.pattern, riff.notes, riff.slides), p.2)
    else ((riff.pattern, riff.notes, riff.slides), vt.2)
  let pn := afterVar.1
  if intensity < 2/5 then
    let r := bl_skip_loop (3/10) pn.1 (List.range 16) afterVar.2
    (⟨r.1, pn.2.1, pn.2.2⟩, r.2)
  else if intensity > 9/10 then
    let r := bl_boost_loop pn.1 pn.2.1 (List.range 16) afterVar.2
    (⟨r.1.1, r.1.2, pn.2.2⟩, r.2)
  else (⟨pn.1, pn.2.1, pn.2.2⟩, afterVar.2)

/-- `BasslineGenerator._create_slide(start_note, end_note, start_time,
end_time)`: four intermediate notes with a velocity crescendo 60..90. -/
def create_slide (start_note end_note : ℤ) (start_time end_time : ℚ) : List Ev :=
  (List.range 4).map fun (i : ℕ) =>
    ⟨start_time + ((i : ℚ) + 1) * ((end_time - start_time) / 4),
     pyInt ((start_note : ℚ) + ((i : ℚ) + 1) * (((end_note : ℚ) - (start_note : ℚ)) / 4)),
     60 + (i : ℤ) * 10, EvKind.on⟩

/-- The default harmonic context used by `BasslineGenerator.generate`
when no song structure is given (no `"chord"`/`"section"` entries, so
those `dict.get` calls fall back to `"i"` and `""`). -/
def bassline_default_ctx : HarmCtx := ⟨"A_minor", [33, 35, 36, 38, 40, 41, 43, 45], "i", "", 7/10⟩

/-- The per-step loop of one `BasslineGenerator.generate` measure. -/
def bassline_steps (stO : Option SongS) (measure : ℕ) (root : ℤ) (varied : Riff)
    (cur stepdur intensity : ℚ) : List ℕ → RS → List Ev × RS
  | [], s => ([], s)
  | step :: rest, s =>
    let step_time := cur + (step : ℚ) * stepdur
    if varied.pattern.getD step 0 ≠ 0 then
      let note := root + varied.notes.getD step 0
      if 0 < step ∧ varied.slides.getD step 0 ≠ 0 then
        let sl := create_slide (root + varied.notes.getD (step - 1) 0) note
          (step_time - stepdur) step_time
        let q := bassline_steps stO measure root varied cur stepdur intensity rest s
        (sl ++ q.1, q.2)
      else
        let velocity_mod : ℚ :=
          if step % 4 = 0 then 11/10 else if step % 2 = 0 then 9/10 else 4/5
        let v0 : ℤ × RS :=
          match stO with
          | some st =>
            get_velocity_curve st (measure : ℤ)
              (pyInt (80 * velocity_mod * (7/10 + intensity * (3/10)))) s
          | none => (pyInt (80 * velocity_mod * intensity), s)
        let r := pyRandint (-5) 5 v0.2
        let vel := max 30 (min 127 (v0.1 + r.1))
        let q := bassline_steps stO measure root varied cur stepdur intensity rest r.2
        (⟨step_time, note, vel, EvKind.on⟩ :: q.1, q.2)
    else bassline_steps stO measure root varied cur stepdur intensity rest s

/-- Per-measure countdown loop of `BasslineGenerator.generate`, carrying
`current_riff_name`, `riff_change_counter` and `riff_history`. -/
def bassline_measure_loop (stO : Option SongS) (styleO : Option MusicStyle)
    (stepdur md : ℚ) :
    ℕ → ℕ → ℚ → Option String → ℕ → List String → RS → List Ev × RS
  | 0, _, _, _, _, _, s => ([], s)
  | k + 1, measure, cur, riffName, counter, history, s =>
    let ctxInfo : HarmCtx × (Bool × RS) :=
      match stO with
      | some st =>
        (get_harmonic_context st (measure : ℤ),
         should_play_instrument st (measure : ℤ) "bass" s)
      | none => (bassline_default_ctx, (true, s))
    let ctx := ctxInfo.1
    let intensity := ctx.intensity
    if ctxInfo.2.1 = false then
      bassline_measure_loop stO styleO stepdur md k (measure + 1) (cur + md) riffName counter
        history ctxInfo.2.2
    else
      let pick : String × List String × RS :=
        if counter % 8 = 0 ∨ riffName = none then
          let c1 := choose_riff styleO ctx ctxInfo.2.2
          let c2 : String × RS :=
            if 2 < history.length ∧
                (history.drop (history.length - 3)).all (fun r => r == c1.1) then
              pyChoice ((riff_library.map Prod.fst).filter (fun r => r ≠ c1.1)) "" c1.2
            else c1
          let h1 := history ++ [c2.1]
          (c2.1, if 8 < h1.length then h1.drop 1 else h1, c2.2)
        else (riffName.getD "", history, ctxInfo.2.2)
      let current := lookupD riff_library pick.1 ⟨[], [], []⟩
      let varied := apply_riff_variations current intensity pick.2.2
      let root := bassline_get_root_note ctx
      let evs := bassline_steps stO measure root varied.1 cur stepdur intensity
        (List.range 16) varied.2
      let rest := bassline_measure_loop stO styleO stepdur md k (measure + 1) (cur + md)
        (some pick.1) (counter + 1) pick.2.1 evs.2
      (evs.1 ++ rest.1, rest.2)

/-- `BasslineGenerator.generate(measures, tempo)`. -/
def bassline_generate (stO : Option SongS) (styleO : Option MusicStyle) (measures : ℕ)
    (tempo : ℤ) (s : RS) : List Ev × RS :=
  bassline_measure_loop stO styleO (60 / ((tempo : ℚ) * 4)) (4 * (60 / (tempo : ℚ)))
    measures 0 0 none 0 [] s

/-! ## Synth accompaniment generator (`generators/synth_accompaniment.py`) -/

/-- The base-triad table of `_get_chord_notes` (scale degrees). -/
def chord_patterns : List (String × List ℕ) :=
  [("i", [0, 2, 4]), ("ii", [1, 3, 5]), ("III", [2, 4, 6]), ("iv", [3, 5, 7]),
   ("V", [4, 6, 1]), ("VI", [5, 7, 2]), ("VII", [6, 1, 3]), ("bVII", [5, 7, 2])]

/-- The enrichment arm of `_get_chord_notes` (`n` is `len(scale)`). -/
def apply_enrichment (pattern : List ℕ) (n : ℕ) (e : String) : List ℕ :=
  if e = "7th" then pattern ++ [(pattern.getD 0 0 + 6) % n]
  else if e = "9th" then pattern ++ [(pattern.getD 0 0 + 6) % n, (pattern.getD 0 0 + 8) % n]
  else if e = "sus2" then pattern.set 1 ((pattern.getD 0 0 + 1) % n)
  else if e = "sus4" then pattern.set 1 ((pattern.getD 0 0 + 3) % n)
  else if e = "add9" then pattern ++ [(pattern.getD 0 0 + 8) % n]
  else pattern

/-- The chord-building loop of `_get_chord_notes`: in-range degrees index
the scale, larger ones wrap to the next octave. -/
def build_chord (scale : List ℤ) : List ℕ → List ℤ
  | [] => []
  | d :: r =>
    (if d < scale.length then scale.getD d 0 else scale.getD (d % scale.length) 0 + 12) ::
      build_chord scale r

/-- `SynthAccompanimentGenerator._get_chord_notes(context)` with the
default `enrichment="auto"` (one weighted draw). -/
def get_chord_notes (scale : List ℤ) (chord_name : String) (s : RS) : List ℤ × RS :=
  let pattern := lookupD chord_patterns chord_name [0, 2, 4]
  let e := pyChoices ["triad", "7th", "9th", "sus2", "sus4", "add9"]
    [3/10, 1/4, 3/20, 1/10, 1/10, 1/10] "triad" s
  (build_chord scale (apply_enrichment pattern scale.length e.1), e.2)

/-- `SynthAccompanimentGenerator._choose_pattern_type(measure)`. -/
def choose_pattern_type (styleO : Option MusicStyle) (measure : ℕ) (s : RS) : String × RS :=
  let synth_density : ℚ :=
    match styleO with
    | some st => st.synth_density
    | none => 7/10
  let isTechno : Bool :=
    match styleO with
    | some st => st.name = "techno"
    | none => false
  if isTechno then
    if measure < 16 then
      pyChoices ["arpeggios", "filtered", "sustained", "stabs"] [1/2, 1/5, 1/5, 1/10]
        "arpeggios" s
    else if measure < 64 then
      pyChoices ["arpeggios", "filtered", "stabs", "sustained"] [3/5, 1/5, 3/20, 1/20]
        "arpeggios" s
    else if measure < 128 then
      pyChoices ["arpeggios", "filtered", "stabs"] [7/10, 1/5, 1/10] "arpeggios" s
    else
      pyChoices ["arpeggios", "filtered", "sustained"] [1/2, 3/10, 1/5] "arpeggios" s
  else
    if measure < 16 then
      if synth_density > 4/5 then pyChoice ["sustained", "arpeggios", "stabs"] "" s
      else pyChoice ["stabs", "sustained"] "" s
    else if measure < 64 then
      if synth_density < 3/5 then pyChoice ["stabs", "sustained", "filtered"] "" s
      else pyChoice ["stabs", "arpeggios", "filtered"] "" s
    else if measure < 128 then
      if synth_density > 4/5 then pyChoice ["arpeggios", "filtered", "sustained", "stabs"] "" s
      else pyChoice ["arpeggios", "filtered", "stabs"] "" s
    else pyChoice ["sustained", "filtered"] "" s

/-- `SynthAccompanimentGenerator._get_velocity(measure, base, intensity)`
(the same inline logic is used by the stab/sustained/filtered creators). -/
def sa_get_velocity (stO : Option SongS) (measure : ℕ) (base : ℤ) (intensity : ℚ)
    (s : RS) : ℤ × RS :=
  match stO with
  | some st => get_velocity_curve st (measure : ℤ) base s
  | none => (pyInt ((base : ℚ) * intensity), s)

/-- `for note in chord_notes: ... events.append(...)` with a per-note
velocity-curve draw. -/
def sa_chord_notes_events (stO : Option SongS) (measure : ℕ) (intensity : ℚ) (t : ℚ)
    (bv : ℤ) : List ℤ → RS → List Ev × RS
  | [], s => ([], s)
  | n :: rest, s =>
    let v := sa_get_velocity stO measure bv intensity s
    let q := sa_chord_notes_events stO measure intensity t bv rest v.2
    (⟨t, n, v.1, EvKind.on⟩ :: q.1, q.2)

/-- The stab-timing loop of `_create_stab_pattern`. -/
def sa_stab_loop (stO : Option SongS) (measure : ℕ) (intensity : ℚ) (chord : List ℤ)
    (start bd : ℚ) : List ℚ → RS → List Ev × RS
  | [], s => ([], s)
  | timing :: rest, s =>
    let p := randU s
    if p.1 < 4/5 then
      let bv := pyRandint 40 65 p.2
      let ce := sa_chord_notes_events stO measure intensity (start + timing * bd) bv.1
        chord bv.2
      let q := sa_stab_loop stO measure intensity chord start bd rest ce.2
      (ce.1 ++ q.1, q.2)
    else sa_stab_loop stO measure intensity chord start bd rest p.2

/-- `SynthAccompanimentGenerator._create_stab_pattern`. -/
def create_stab_pattern (stO : Option SongS) (measure : ℕ) (intensity : ℚ)
    (chord : List ℤ) (start bd : ℚ) (s : RS) : List Ev × RS :=
  sa_stab_loop stO measure intensity chord start bd [1/2, 5/2] s

/-- The shared per-step loop of the ten `_arp_*` helpers: each surviving
step draws a base velocity in `[lo, hi]` and runs it through
`_get_velocity`; `boost` is the extra octave jump of `_arp_octave_up` on
steps 8-11. -/
def sa_arp_loop (stO : Option SongS) (measure : ℕ) (intensity : ℚ)
    (arp_pattern : List ℤ) (start dur prob : ℚ) (lo hi : ℤ) (boost : Bool) :
    List ℕ → RS → List Ev × RS
  | [], s => ([], s)
  | i :: rest, s =>
    let p := randU s
    if p.1 < prob then
      let note0 := arp_pattern.getD (i % arp_pattern.length) 0
      let note := if boost ∧ 8 ≤ i ∧ i < 12 then note0 + 12 else note0
      let bv := pyRandint lo hi p.2
      let v := sa_get_velocity stO measure bv.1 intensity bv.2
      let q := sa_arp_loop stO measure intensity arp_pattern start dur prob lo hi boost
        rest v.2
      (⟨start + (i : ℚ) * dur, note, v.1, EvKind.on⟩ :: q.1, q.2)
    else sa_arp_loop stO measure intensity arp_pattern start dur prob lo hi boost rest p.2

/-- `_arp_classic_16th`. -/
def arp_classic_16th (stO : Option SongS) (measure : ℕ) (intensity : ℚ) (chord : List ℤ)
    (start bd : ℚ) (s : RS) : List Ev × RS :=
  sa_arp_loop stO measure intensity (chord ++ [chord.getD 0 0 + 12]) start (bd / 4) (17/20)
    30 55 false (List.range 16) s

/-- `_arp_classic_down`. -/
def arp_classic_down (stO : Option SongS) (measure : ℕ) (intensity : ℚ) (chord : List ℤ)
    (start bd : ℚ) (s : RS) : List Ev × RS :=
  sa_arp_loop stO measure intensity (chord ++ [chord.getD 0 0 + 12]).reverse start (bd / 4)
    (17/20) 30 55 false (List.range 16) s

/-- `_arp_octave_up`. -/
def arp_octave_up (stO : Option SongS) (measure : ℕ) (intensity : ℚ) (chord : List ℤ)
    (start bd : ℚ) (s : RS) : List Ev × RS :=
  sa_arp_loop stO measure intensity (chord ++ [chord.getD 0 0 + 12]) start (bd / 4) (4/5)
    35 60 true (List.range 16) s

/-- `_arp_octave_down`. -/
def arp_octave_down (stO : Option SongS) (measure : ℕ) (intensity : ℚ) (chord : List ℤ)
    (start bd : ℚ) (s : RS) : List Ev × RS :=
  sa_arp_loop stO measure intensity ((chord.getD 0 0 + 12) :: chord.reverse) start (bd / 4)
    (4/5) 35 60 false (List.range 16) s

/-- `_arp_pingpong`. -/
def arp_pingpong (stO : Option SongS) (measure : ℕ) (intensity : ℚ) (chord : List ℤ)
    (start bd : ℚ) (s : RS) : List Ev × RS :=
  sa_arp_loop stO measure intensity ((chord ++ [chord.getD 0 0 + 12]) ++ chord.reverse)
    start (bd / 4) (17/20) 30 55 false (List.range 16) s

/-- `_arp_broken`. -/
def arp_broken (stO : Option SongS) (measure : ℕ) (intensity : ℚ) (chord : List ℤ)
    (start bd : ℚ) (s : RS) : List Ev × RS :=
  let pattern :=
    if 3 ≤ chord.length then
      [chord.getD 0 0, chord.getD 2 0, chord.getD 1 0, chord.getD 2 0]
    else chord ++ [chord.getD 0 0]
  sa_arp_loop stO measure intensity pattern start (bd / 4) (3/4) 30 55 false
    (List.range 16) s

/-- `_arp_triplet`. -/
def arp_triplet (stO : Option SongS) (measure : ℕ) (intensity : ℚ) (chord : List ℤ)
    (start bd : ℚ) (s : RS) : List Ev × RS :=
  sa_arp_loop stO measure intensity (chord ++ [chord.getD 0 0 + 12]) start (bd / 3) (4/5)
    30 55 false (List.range 12) s

/-- `_arp_syncopated`. -/
def arp_syncopated (stO : Option SongS) (measure : ℕ) (intensity : ℚ) (chord : List ℤ)
    (start bd : ℚ) (s : RS) : List Ev × RS :=
  sa_arp_loop stO measure intensity (chord ++ [chord.getD 0 0 + 12]) start (bd / 4) (17/20)
    35 60 false [1, 3, 5, 6, 8, 10, 11, 13, 15] s

/-- `_arp_double_octave`. -/
def arp_double_octave (stO : Option SongS) (measure : ℕ) (intensity : ℚ) (chord : List ℤ)
    (start bd : ℚ) (s : RS) : List Ev × RS :=
  sa_arp_loop stO measure intensity
    (chord ++ chord.map (fun n => n + 12) ++ [chord.getD 0 0 + 24]) start (bd / 4) (4/5)
    30 55 false (List.range 16) s

/-- `_arp_sparse`. -/
def arp_sparse (stO : Option SongS) (measure : ℕ) (intensity : ℚ) (chord : List ℤ)
    (start bd : ℚ) (s : RS) : List Ev × RS :=
  sa_arp_loop stO measure intensity (chord ++ [chord.getD 0 0 + 12]) start (bd / 2) (3/5)
    30 50 false (List.range 8) s

/-- `SynthAccompanimentGenerator._create_arpeggio_pattern`. -/
def create_arpeggio_pattern (stO : Option SongS) (measure : ℕ) (intensity : ℚ)
    (chord : List ℤ) (start bd : ℚ) (s : RS) : List Ev × RS :=
  let at_ := pyChoice
    ["classic_16th", "classic_down", "octave_up", "octave_down", "pingpong", "broken",
     "triplet", "syncopated", "double_octave", "sparse"] "classic_16th" s
  if at_.1 = "classic_16th" then arp_classic_16th stO measure intensity chord start bd at_.2
  else if at_.1 = "classic_down" then arp_classic_down stO measure intensity chord start bd at_.2
  else if at_.1 = "octave_up" then arp_octave_up stO measure intensity chord start bd at_.2
  else if at_.1 = "octave_down" then arp_octave_down stO measure intensity chord start bd at_.2
  else if at_.1 = "pingpong" then arp_pingpong stO measure intensity chord start bd at_.2
  else if at_.1 = "broken" then arp_broken stO measure intensity chord start bd at_.2
  else if at_.1 = "triplet" then arp_triplet stO measure intensity chord start bd at_.2
  else if at_.1 = "syncopated" then arp_syncopated stO measure intensity chord start bd at_.2
  else if at_.1 = "double_octave" then arp_double_octave stO measure intensity chord start bd at_.2
  else if at_.1 = "sparse" then arp_sparse stO measure intensity chord start bd at_.2
  else ([], at_.2)

/-- `SynthAccompanimentGenerator._create_sustained_pattern`. -/
def create_sustained_pattern (stO : Option SongS) (measure : ℕ) (intensity : ℚ)
    (chord : List ℤ) (start : ℚ) (s : RS) : List Ev × RS :=
  let p := randU s
  if p.1 < 3/5 then
    let bv := pyRandint 30 50 p.2
    sa_chord_notes_events stO measure intensity start bv.1 chord bv.2
  else ([], p.2)

/-- The eighth-note loop of `_create_filtered_pattern`. -/
def sa_filtered_loop (stO : Option SongS) (measure : ℕ) (intensity : ℚ) (chord : List ℤ)
    (start bd : ℚ) : List ℕ → RS → List Ev × RS
  | [], s => ([], s)
  | i :: rest, s =>
    let p := randU s
    if p.1 < 4/5 then
      let note_time := start + (i : ℚ) * (bd / 2)
      let velocity_mod := pyInt (30 * |(1 : ℚ)/2 - (i : ℚ) / 8|)
      let base_vel := max 25 (min 65 (45 + velocity_mod))
      let k := pyRandint 1 2 p.2
      let sel := pySample (0 : ℤ) chord k.1.toNat k.2
      let ce := sa_chord_notes_events stO measure intensity note_time base_vel sel.1 sel.2
      let q := sa_filtered_loop stO measure intensity chord start bd rest ce.2
      (ce.1 ++ q.1, q.2)
    else sa_filtered_loop stO measure intensity chord start bd rest p.2

/-- `SynthAccompanimentGenerator._create_filtered_pattern`. -/
def create_filtered_pattern (stO : Option SongS) (measure : ℕ) (intensity : ℚ)
    (chord : List ℤ) (start bd : ℚ) (s : RS) : List Ev × RS :=
  sa_filtered_loop stO measure intensity chord start bd (List.range 8) s

/-- `SynthAccompanimentGenerator._generate_accompaniment_pattern`. -/
def generate_accompaniment_pattern (stO : Option SongS) (styleO : Option MusicStyle)
    (measure : ℕ) (intensity : ℚ) (chord : List ℤ) (start bd : ℚ) (s : RS) :
    List Ev × RS :=
  let pt := choose_pattern_type styleO measure s
  if pt.1 = "stabs" then create_stab_pattern stO measure intensity chord start bd pt.2
  else if pt.1 = "arpeggios" then
    create_arpeggio_pattern stO measure intensity chord start bd pt.2
  else if pt.1 = "sustained" then
    create_sustained_pattern stO measure intensity chord start pt.2
  else if pt.1 = "filtered" then
    create_filtered_pattern stO measure intensity chord start bd pt.2
  else ([], pt.2)

/-- The default context of `SynthAccompanimentGenerator.generate`. -/
def synth_accomp_default_ctx : HarmCtx :=
  ⟨"A_minor", [57, 59, 60, 62, 64, 65, 67, 69, 71, 72], "i", "", 7/10⟩

/-- Per-measure countdown loop of `SynthAccompanimentGenerator.generate`. -/
def synth_accomp_measure_loop (stO : Option SongS) (styleO : Option MusicStyle)
    (bd : ℚ) : ℕ → ℕ → ℚ → RS → List Ev × RS
  | 0, _, _, s => ([], s)
  | k + 1, measure, cur, s =>
    let ctxInfo : HarmCtx × (Bool × RS) :=
      match stO with
      | some st =>
        (get_harmonic_context st (measure : ℤ),
         should_play_instrument st (measure : ℤ) "synth_accomp" s)
      | none => (synth_accomp_default_ctx, (true, s))
    if ctxInfo.2.1 = false then
      synth_accomp_measure_loop stO styleO bd k (measure + 1) (cur + 4 * bd) ctxInfo.2.2
    else
      let ctx := ctxInfo.1
      let chord := get_chord_notes ctx.scale ctx.chord ctxInfo.2.2
      let evs := generate_accompaniment_pattern stO styleO measure ctx.intensity chord.1
        cur bd chord.2
      let rest := synth_accomp_measure_loop stO styleO bd k (measure + 1) (cur + 4 * bd)
        evs.2
      (evs.1 ++ rest.1, rest.2)

/-- `SynthAccompanimentGenerator.generate(measures, tempo)`. -/
def synth_accomp_generate (stO : Option SongS) (styleO : Option MusicStyle)
    (measures : ℕ) (tempo : ℤ) (s : RS) : List Ev × RS :=
  synth_accomp_measure_loop stO styleO (60 / (tempo : ℚ)) measures 0 0 s

/-! ## Synth lead generator (`generators/synth_lead.py`) -/

/-- `SynthLeadGenerator.SCALES`. -/
def SCALES : List (String × List ℤ) :=
  [("A_minor", [57, 59, 60, 62, 64, 65, 67, 69, 71, 72]),
   ("A_minor_pentatonic", [57, 60, 62, 64, 67, 69, 72]),
   ("D_minor", [62, 64, 65, 67, 69, 70, 72, 74, 76, 77])]

/-- `self.current_scale`, set once in the constructor and never changed. -/
def lead_current_scale : String := "A_minor"

/-- `SynthLeadGenerator._should_have_lead(phrase_start, total_measures,
intensity)`: one draw against an intensity-dependent threshold. -/
def should_have_lead (intensity : ℚ) (s : RS) : Bool × RS :=
  let p := randU s
  if intensity < 3/10 then (decide (p.1 < 1/5), p.2)
  else if intensity < 1/2 then (decide (p.1 < 2/5), p.2)
  else if intensity < 7/10 then (decide (p.1 < 3/5), p.2)
  else if intensity < 9/10 then (decide (p.1 < 4/5), p.2)
  else (decide (p.1 < 9/10), p.2)

/-- `SynthLeadGenerator._choose_melody_style(phrase_start)`. -/
def choose_melody_style (phrase_start : ℕ) (s : RS) : String × RS :=
  let styles := ["melodic_line", "staccato_stabs", "sustained_notes", "rapid_sequence"]
  if phrase_start < 32 then pyChoices styles [2/5, 3/10, 3/10, 0] "melodic_line" s
  else if phrase_start < 96 then pyChoices styles [3/10, 3/10, 1/5, 1/5] "melodic_line" s
  else pyChoices styles [1/2, 1/5, 3/10, 0] "melodic_line" s

/-- The note loop of `_create_melodic_line` (index `i`, walking
`current_note_idx`). -/
def lead_melodic_loop (stO : Option SongS) (scale : List ℤ) (start bd : ℚ) :
    ℕ → ℤ → List ℚ → RS → List Ev × RS
  | _, _, [], s => ([], s)
  | i, idx, off :: rest, s =>
    let p := randU s
    if p.1 < 4/5 then
      let note_time := start + off * bd
      let m : ℤ × RS :=
        if 0 < i then
          let mv := pyChoices [(-2 : ℤ), -1, 0, 1, 2] [1/10, 3/10, 1/5, 3/10, 1/10] 0 p.2
          (max 0 (min ((scale.length : ℤ) - 1) (idx + mv.1)), mv.2)
        else (idx, p.2)
      let note := scale.getD m.1.toNat 0
      let bv := pyRandint 95 125 m.2
      let v : ℤ × RS :=
        match stO with
        | some st => get_velocity_curve st ⌊note_time / (4 * bd)⌋ bv.1 bv.2
        | none => (bv.1, bv.2)
      let q := lead_melodic_loop stO scale start bd (i + 1) m.1 rest v.2
      (⟨note_time, note, v.1, EvKind.on⟩ :: q.1, q.2)
    else lead_melodic_loop stO scale start bd (i + 1) idx rest p.2

/-- `SynthLeadGenerator._create_melodic_line`. -/
def create_melodic_line (stO : Option SongS) (scale : List ℤ) (start bd : ℚ) (s : RS) :
    List Ev × RS :=
  let rhythm := pyChoice
    [[(0 : ℚ), 1/2, 3/2, 5/2, 3], [0, 1, 2, 3], [1/2, 1, 5/2, 7/2]] [] s
  let idx0 := pyRandint 2 ((scale.length : ℤ) - 3) rhythm.2
  lead_melodic_loop stO scale start bd 0 idx0.1 rhythm.1 idx0.2

/-- The stab loop of `_create_staccato_stabs`. -/
def lead_stab_loop (scale : List ℤ) (start bd : ℚ) : List ℚ → RS → List Ev × RS
  | [], s => ([], s)
  | pos :: rest, s =>
    let p := randU s
    if p.1 < 7/10 then
      let note := pyChoice ((scale.drop 3).take 4) 0 p.2
      let v := pyRandint 105 127 note.2
      let q := lead_stab_loop scale start bd rest v.2
      (⟨start + pos * bd, note.1, v.1, EvKind.on⟩ :: q.1, q.2)
    else lead_stab_loop scale start bd rest p.2

/-- `SynthLeadGenerator._create_staccato_stabs`. -/
def create_staccato_stabs (scale : List ℤ) (start bd : ℚ) (s : RS) : List Ev × RS :=
  lead_stab_loop scale start bd [3/4, 9/4, 7/2] s

/-- `SynthLeadGenerator._create_sustained_notes`. -/
def create_sustained_notes (scale : List ℤ) (start bd : ℚ) (s : RS) : List Ev × RS :=
  let p1 := randU s
  let first : List Ev × RS :=
    if p1.1 < 3/5 then
      let note := pyChoice ((scale.drop 4).take 4) 0 p1.2
      let v := pyRandint 75 100 note.2
      ([⟨start, note.1, v.1, EvKind.on⟩], v.2)
    else ([], p1.2)
  let p2 := randU first.2
  if p2.1 < 3/10 then
    let harmony := pyChoice (scale.drop 6) 0 p2.2
    let v := pyRandint 55 80 harmony.2
    (first.1 ++ [⟨start + bd, harmony.1, v.1, EvKind.on⟩], v.2)
  else (first.1, p2.2)

/-- The enumerated emission loop of `_create_rapid_sequence`. -/
def lead_seq_loop (start dur : ℚ) : ℕ → List ℤ → RS → List Ev × RS
  | _, [], s => ([], s)
  | i, n :: rest, s =>
    let v := pyRandint 85 110 s
    let q := lead_seq_loop start dur (i + 1) rest v.2
    (⟨start + (i : ℚ) * dur, n, v.1, EvKind.on⟩ :: q.1, q.2)

/-- `SynthLeadGenerator._create_rapid_sequence`. -/
def create_rapid_sequence (scale : List ℤ) (start bd : ℚ) (s : RS) : List Ev × RS :=
  let p := randU s
  let seq : List ℤ × RS :=
    if p.1 < 1/2 then
      let si := pyRandint 0 ((scale.length : ℤ) - 6) p.2
      ((scale.drop si.1.toNat).take 6, si.2)
    else
      let si := pyRandint 5 ((scale.length : ℤ) - 1) p.2
      (((scale.drop (si.1.toNat - 5)).take 6).reverse, si.2)
  let ss := pyChoice [(0 : ℚ), 2] 0 seq.2
  lead_seq_loop (start + ss.1 * bd) (bd / 4) 0 seq.1 ss.2

/-- The per-measure loop of `_generate_lead_phrase`. -/
def lead_measures_loop (stO : Option SongS) (style : String) (scale : List ℤ)
    (start_measure : ℕ) (start_time bd : ℚ) : ℕ → ℕ → RS → List Ev × RS
  | 0, _, s => ([], s)
  | k + 1, measure, s =>
    let mt := start_time + ((measure - start_measure : ℕ) : ℚ) * 4 * bd
    let evs :=
      if style = "melodic_line" then create_melodic_line stO scale mt bd s
      else if style = "staccato_stabs" then create_staccato_stabs scale mt bd s
      else if style = "sustained_notes" then create_sustained_notes scale mt bd s
      else if style = "rapid_sequence" then create_rapid_sequence scale mt bd s
      else ([], s)
    let q := lead_measures_loop stO style scale start_measure start_time bd k
      (measure + 1) evs.2
    (evs.1 ++ q.1, q.2)

/-- `SynthLeadGenerator._generate_lead_phrase`. -/
def generate_lead_phrase (stO : Option SongS) (start_measure end_measure : ℕ)
    (start_time bd : ℚ) (s : RS) : List Ev × RS :=
  let scale := lookupD SCALES lead_current_scale []
  let style := choose_melody_style start_measure s
  lead_measures_loop stO style.1 scale start_measure start_time bd
    (end_measure - start_measure) start_measure style.2

/-- The phrase loop of `SynthLeadGenerator.generate` (`current_time`
stays `0.0` throughout the source, so phrase start times are
`phrase_start * 4 * beat_duration`). -/
def lead_phrases_loop (stO : Option SongS) (bd : ℚ) (measures : ℕ) :
    List ℕ → RS → List Ev × RS
  | [], s => ([], s)
  | ps :: rest, s =>
    let info : ℚ × (Bool × RS) :=
      match stO with
      | some st =>
        ((get_harmonic_context st (ps : ℤ)).intensity,
         should_play_instrument st (ps : ℤ) "synth_lead" s)
      | none => (7/10, (true, s))
    if info.2.1 = false then lead_phrases_loop stO bd measures rest info.2.2
    else
      let hl := should_have_lead info.1 info.2.2
      if hl.1 then
        let evs := generate_lead_phrase stO ps (min (ps + 8) measures)
          ((ps : ℚ) * 4 * bd) bd hl.2
        let q := lead_phrases_loop stO bd measures rest evs.2
        (evs.1 ++ q.1, q.2)
      else lead_phrases_loop stO bd measures rest hl.2

/-- `SynthLeadGenerator.generate(measures, tempo)`: 8-measure phrases. -/
def synth_lead_generate (stO : Option SongS) (measures : ℕ) (tempo : ℤ) (s : RS) :
    List Ev × RS :=
  lead_phrases_loop stO (60 / (tempo : ℚ)) measures
    ((List.range ((measures + 7) / 8)).map (fun i => i * 8)) s

/-! ## Velocity bounds -/

theorem pyRandint_bounds {a b : ℤ} (h : a ≤ b) (s : RS) :
    a ≤ (pyRandint a b s).1 ∧ (pyRandint a b s).1 ≤ b := by
  obtain ⟨h0, h1⟩ := randU_bounds s
  have hq : (a : ℚ) ≤ (b : ℚ) := by exact_mod_cast h
  simp only [pyRandint]
  constructor
  · have hf : (0 : ℤ) ≤ ⌊(randU s).1 * ((b : ℚ) - (a : ℚ) + 1)⌋ := by
      apply Int.floor_nonneg.mpr
      apply mul_nonneg h0
      linarith
    omega
  · have hlt : (randU s).1 * ((b : ℚ) - (a : ℚ) + 1) < (b : ℚ) - (a : ℚ) + 1 := by
      nlinarith
    have hf : ⌊(randU s).1 * ((b : ℚ) - (a : ℚ) + 1)⌋ < b - a + 1 := by
      apply Int.floor_lt.mpr
      push_cast
      exact hlt
    omega

theorem drum_hit_event_vel (stO : Option SongS) (styleO : Option MusicStyle) (pat : DPat)
    (step : ℕ) (step_time : ℚ) (intensity : ℚ) (measure : ℕ) (drum : String) (midi : ℤ)
    (s : RS) :
    ∀ e ∈ (drum_hit_event stO styleO pat step step_time intensity measure drum midi s).1,
      1 ≤ e.vel ∧ e.vel ≤ 127 := by
  intro e he
  simp only [drum_hit_event, List.mem_singleton] at he
  subst he
  exact clamp127_bounds _

theorem generate_drum_hits_vel (stO : Option SongS) (styleO : Option MusicStyle)
    (pat : DPat) (step : ℕ) (step_time : ℚ) (intensity : ℚ) (measure : ℕ) :
    ∀ (dm : List (String × ℤ)) (s : RS),
      ∀ e ∈ (generate_drum_hits stO styleO pat step step_time intensity measure dm s).1,
        1 ≤ e.vel ∧ e.vel ≤ 127 := by
  intro dm
  induction dm with
  | nil =>
    intro s e he
    simp [generate_drum_hits] at he
  | cons d rest ih =>
    obtain ⟨drum, midi⟩ := d
    intro s e he
    simp only [generate_drum_hits] at he
    split_ifs at he
    · rcases List.mem_append.mp he with hl | hr
      · exact drum_hit_event_vel stO styleO pat step step_time intensity measure drum midi s
          e hl
      · exact ih _ e hr
    · exact ih _ e he

theorem crash_events_vel (stO : Option SongS) (measure step : ℕ) (step_time : ℚ) (s : RS) :
    ∀ e ∈ (crash_events stO measure step step_time s).1, 1 ≤ e.vel ∧ e.vel ≤ 127 := by
  intro e he
  simp only [crash_events] at he
  split_ifs at he
  · simp only [List.mem_singleton] at he
    subst he
    have hb := pyRandint_bounds (by norm_num : (90 : ℤ) ≤ 127)
      (should_add_crash stO measure s).2
    exact ⟨le_trans (by norm_num) hb.1, hb.2⟩
  · simp at he
  · simp at he

theorem rhythm_steps_loop_vel (stO : Option SongS) (styleO : Option MusicStyle) (pat : DPat)
    (intensity : ℚ) (measure : ℕ) (cur stepdur swing : ℚ) :
    ∀ (steps : List ℕ) (s : RS),
      ∀ e ∈ (rhythm_steps_loop stO styleO pat intensity measure cur stepdur swing steps s).1,
        1 ≤ e.vel ∧ e.vel ≤ 127 := by
  intro steps
  induction steps with
  | nil =>
    intro s e he
    simp [rhythm_steps_loop] at he
  | cons step rest ih =>
    intro s e he
    simp only [rhythm_steps_loop] at he
    rcases List.mem_append.mp he with hch | hq
    · rcases List.mem_append.mp hch with hc | hh
      · exact crash_events_vel stO measure step _ s e hc
      · exact generate_drum_hits_vel stO styleO pat step _ intensity measure drum_map _ e hh
    · exact ih _ e hq

theorem rhythm_measure_loop_vel (stO : Option SongS) (styleO : Option MusicStyle)
    (beats : ℕ) (stepdur swing : ℚ) (tempo : ℤ) :
    ∀ (k measure : ℕ) (cur : ℚ) (history : List String) (s : RS),
      ∀ e ∈ (rhythm_measure_loop stO styleO beats stepdur swing tempo k measure cur
          history s).1, 1 ≤ e.vel ∧ e.vel ≤ 127 := by
  intro k
  induction k with
  | zero =>
    intro measure cur history s e he
    simp [rhythm_measure_loop] at he
  | succ k ih =>
    intro measure cur history s e he
    simp only [rhythm_measure_loop] at he
    split at he
    · exact ih _ _ _ _ e he
    · rcases List.mem_append.mp he with hl | hr
      · exact rhythm_steps_loop_vel stO styleO _ _ measure cur stepdur swing _ _ e hl
      · exact ih _ _ _ _ e hr

/-- Every rhythm event's velocity lies in `[1, 127]` (the final
`max(1, min(127, ...))` clamp, and `randint(90, 127)` for crashes). -/
theorem rhythm_generate_vel (stO : Option SongS) (styleO : Option MusicStyle)
    (beats : ℕ) (inst_swing : ℚ) (measures : ℕ) (tempo : ℤ) (swingO : Option ℚ) (s : RS) :
    ∀ e ∈ (rhythm_generate stO styleO beats inst_swing measures tempo swingO s).1,
      1 ≤ e.vel ∧ e.vel ≤ 127 :=
  rhythm_measure_loop_vel stO styleO beats _ _ tempo measures 0 0 [] s

theorem create_slide_vel (a b : ℤ) (t0 t1 : ℚ) :
    ∀ e ∈ create_slide a b t0 t1, 1 ≤ e.vel ∧ e.vel ≤ 127 := by
  intro e he
  simp only [create_slide, List.mem_map, List.mem_range] at he
  obtain ⟨i, hi, rfl⟩ := he
  constructor
  · show (1 : ℤ) ≤ 60 + (i : ℤ) * 10
    omega
  · show (60 : ℤ) + (i : ℤ) * 10 ≤ 127
    omega

theorem bassline_steps_vel (stO : Option SongS) (measure : ℕ) (root : ℤ) (varied : Riff)
    (cur stepdur intensity : ℚ) :
    ∀ (steps : List ℕ) (s : RS),
      ∀ e ∈ (bassline_steps stO measure root varied cur stepdur intensity steps s).1,
        1 ≤ e.vel ∧ e.vel ≤ 127 := by
  intro steps
  induction steps with
  | nil =>
    intro s e he
    simp [bassline_steps] at he
  | cons step rest ih =>
    intro s e he
    simp only [bassline_steps] at he
    by_cases h1 : varied.pattern.getD step 0 ≠ 0
    · rw [if_pos h1] at he
      by_cases h2 : 0 < step ∧ varied.slides.getD step 0 ≠ 0
      · rw [if_pos h2] at he
        rcases List.mem_append.mp he with hl | hr
        · exact create_slide_vel _ _ _ _ e hl
        · exact ih _ e hr
      · rw [if_neg h2] at he
        rcases List.mem_cons.mp he with rfl | hr
        · exact ⟨le_trans (by norm_num) (le_max_left _ _),
            max_le (by norm_num) (min_le_left _ _)⟩
        · exact ih _ e hr
    · rw [if_neg h1] at he
      exact ih _ e he

theorem bassline_measure_loop_vel (stO : Option SongS) (styleO : Option MusicStyle)
    (stepdur md : ℚ) :
    ∀ (k measure : ℕ) (cur : ℚ) (riffName : Option String) (counter : ℕ)
      (history : List String) (s : RS),
      ∀ e ∈ (bassline_measure_loop stO styleO stepdur md k measure cur riffName counter
          history s).1, 1 ≤ e.vel ∧ e.vel ≤ 127 := by
  intro k
  induction k with
  | zero =>
    intro measure cur riffName counter history s e he
    simp [bassline_measure_loop] at he
  | succ k ih =>
    intro measure cur riffName counter history s e he
    simp only [bassline_measure_loop] at he
    split at he
    · exact ih _ _ _ _ _ _ e he
    · rcases List.mem_append.mp he with hl | hr
      · exact bassline_steps_vel stO measure _ _ cur stepdur _ _ _ e hl
      · exact ih _ _ _ _ _ _ e hr

/-- Every bassline event's velocity lies in `[1, 127]`: slide notes carry
60..90 and ordinary hits are clamped by `max(30, min(127, ...))`. -/
theorem bassline_generate_vel (stO : Option SongS) (styleO : Option MusicStyle)
    (measures : ℕ) (tempo : ℤ) (s : RS) :
    ∀ e ∈ (bassline_generate stO styleO measures tempo s).1,
      1 ≤ e.vel ∧ e.vel ≤ 127 :=
  bassline_measure_loop_vel stO styleO _ _ measures 0 0 none 0 [] s

theorem sub_bass_entry_events_vel (st : SongS) (measure : ℕ) (bd cur : ℚ) :
    ∀ (entries : List SubEntry) (s : RS),
      ∀ e ∈ (sub_bass_entry_events (some st) measure bd cur entries s).1,
        0 ≤ e.vel ∧ e.vel ≤ 127 ∧ (e.kind = EvKind.on → 1 ≤ e.vel) := by
  intro entries
  induction entries with
  | nil =>
    intro s e he
    simp [sub_bass_entry_events] at he
  | cons entry rest ih =>
    obtain ⟨boff, dur, note, vel⟩ := entry
    intro s e he
    simp only [sub_bass_entry_events] at he
    have hcb := get_velocity_curve_bounds st (measure : ℤ) vel s
    rcases List.mem_cons.mp he with rfl | he1
    · exact ⟨by linarith [hcb.1], hcb.2, fun _ => hcb.1⟩
    rcases List.mem_cons.mp he1 with rfl | he2
    · have hrb := sub_release_bounds hcb.1 hcb.2
      exact ⟨by linarith [hrb.1], by linarith [hrb.2], fun _ => by linarith [hrb.1]⟩
    · exact ih _ e he2

theorem sub_bass_loop_vel (st : SongS) (beats : ℕ) (bd : ℚ) :
    ∀ (k measure : ℕ) (cur : ℚ) (s : RS),
      ∀ e ∈ (sub_bass_loop (some st) beats bd k measure cur s).1,
        0 ≤ e.vel ∧ e.vel ≤ 127 ∧ (e.kind = EvKind.on → 1 ≤ e.vel) := by
  intro k
  induction k with
  | zero =>
    intro measure cur s e he
    simp [sub_bass_loop] at he
  | succ k ih =>
    intro measure cur s e he
    simp only [sub_bass_loop] at he
    split_ifs at he
    · exact ih _ _ _ e he
    · rcases List.mem_append.mp he with hl | hr
      · exact sub_bass_entry_events_vel st measure bd cur _ _ e hl
      · exact ih _ _ _ e hr
    · exact ih _ _ _ e he

/-- With a song structure, every sub-bass note-on velocity comes out of
the `[1, 127]` curve clamp and every note-off release lies in
`[60, 80]`. -/
theorem sub_bass_generate_vel (st : SongS) (beats measures : ℕ) (tempo : ℤ) (s : RS) :
    ∀ e ∈ (sub_bass_generate (some st) beats measures tempo s).1,
      0 ≤ e.vel ∧ e.vel ≤ 127 ∧ (e.kind = EvKind.on → 1 ≤ e.vel) :=
  sub_bass_loop_vel st beats _ measures 0 0 s

theorem sa_chord_notes_events_vel (st : SongS) (measure : ℕ) (intensity : ℚ) (t : ℚ)
    (bv : ℤ) :
    ∀ (notes : List ℤ) (s : RS),
      ∀ e ∈ (sa_chord_notes_events (some st) measure intensity t bv notes s).1,
        1 ≤ e.vel ∧ e.vel ≤ 127 := by
  intro notes
  induction notes with
  | nil =>
    intro s e he
    simp [sa_chord_notes_events] at he
  | cons n rest ih =>
    intro s e he
    simp only [sa_chord_notes_events] at he
    rcases List.mem_cons.mp he with rfl | hr
    · exact get_velocity_curve_bounds st (measure : ℤ) bv s
    · exact ih _ e hr

theorem sa_stab_loop_vel (st : SongS) (measure : ℕ) (intensity : ℚ) (chord : List ℤ)
    (start bd : ℚ) :
    ∀ (timings : List ℚ) (s : RS),
      ∀ e ∈ (sa_stab_loop (some st) measure intensity chord start bd timings s).1,
        1 ≤ e.vel ∧ e.vel ≤ 127 := by
  intro timings
  induction timings with
  | nil =>
    intro s e he
    simp [sa_stab_loop] at he
  | cons timing rest ih =>
    intro s e he
    simp only [sa_stab_loop] at he
    split_ifs at he
    · rcases List.mem_append.mp he with hl | hr
      · exact sa_chord_notes_events_vel st measure intensity _ _ chord _ e hl
      · exact ih _ e hr
    · exact ih _ e he

theorem sa_arp_loop_vel (st : SongS) (measure : ℕ) (intensity : ℚ) (arp_pattern : List ℤ)
    (start dur prob : ℚ) (lo hi : ℤ) (boost : Bool) :
    ∀ (steps : List ℕ) (s : RS),
      ∀ e ∈ (sa_arp_loop (some st) measure intensity arp_pattern start dur prob lo hi boost
          steps s).1, 1 ≤ e.vel ∧ e.vel ≤ 127 := by
  intro steps
  induction steps with
  | nil =>
    intro s e he
    simp [sa_arp_loop] at he
  | cons i rest ih =>
    intro s e he
    simp only [sa_arp_loop] at he
    by_cases hp : (randU s).1 < prob
    · rw [if_pos hp] at he
      rcases List.mem_cons.mp he with rfl | hr
      · exact get_velocity_curve_bounds st (measure : ℤ) _ _
      · exact ih _ e hr
    · rw [if_neg hp] at he
      exact ih _ e he

set_option maxHeartbeats 1000000 in
theorem create_arpeggio_pattern_vel (st : SongS) (measure : ℕ) (intensity : ℚ)
    (chord : List ℤ) (start bd : ℚ) (s : RS) :
    ∀ e ∈ (create_arpeggio_pattern (some st) measure intensity chord start bd s).1,
      1 ≤ e.vel ∧ e.vel ≤ 127 := by
  intro e he
  simp only [create_arpeggio_pattern] at he
  generalize hA : pyChoice
    ["classic_16th", "classic_down", "octave_up", "octave_down", "pingpong", "broken",
     "triplet", "syncopated", "double_octave", "sparse"] "classic_16th" s = A at he
  obtain ⟨aname, as⟩ := A
  split_ifs at he
  · exact sa_arp_loop_vel st measure intensity _ _ _ _ _ _ _ _ _ e he
  · exact sa_arp_loop_vel st measure intensity _ _ _ _ _ _ _ _ _ e he
  · exact sa_arp_loop_vel st measure intensity _ _ _ _ _ _ _ _ _ e he
  · exact sa_arp_loop_vel st measure intensity _ _ _ _ _ _ _ _ _ e he
  · exact sa_arp_loop_vel st measure intensity _ _ _ _ _ _ _ _ _ e he
  · exact sa_arp_loop_vel st measure intensity _ _ _ _ _ _ _ _ _ e he
  · exact sa_arp_loop_vel st measure intensity _ _ _ _ _ _ _ _ _ e he
  · exact sa_arp_loop_vel st measure intensity _ _ _ _ _ _ _ _ _ e he
  · exact sa_arp_loop_vel st measure intensity _ _ _ _ _ _ _ _ _ e he
  · exact sa_arp_loop_vel st measure intensity _ _ _ _ _ _ _ _ _ e he
  · exact absurd he (List.not_mem_nil _)

theorem create_sustained_pattern_vel (st : SongS) (measure : ℕ) (intensity : ℚ)
    (chord : List ℤ) (start : ℚ) (s : RS) :
    ∀ e ∈ (create_sustained_pattern (some st) measure intensity chord start s).1,
      1 ≤ e.vel ∧ e.vel ≤ 127 := by
  intro e he
  simp only [create_sustained_pattern] at he
  split_ifs at he
  · exact sa_chord_notes_events_vel st measure intensity start _ chord _ e he
  · simp at he

theorem sa_filtered_loop_vel (st : SongS) (measure : ℕ) (intensity : ℚ) (chord : List ℤ)
    (start bd : ℚ) :
    ∀ (idxs : List ℕ) (s : RS),
      ∀ e ∈ (sa_filtered_loop (some st) measure intensity chord start bd idxs s).1,
        1 ≤ e.vel ∧ e.vel ≤ 127 := by
  intro idxs
  induction idxs with
  | nil =>
    intro s e he
    simp [sa_filtered_loop] at he
  | cons i rest ih =>
    intro s e he
    simp only [sa_filtered_loop] at he
    split_ifs at he
    · rcases List.mem_append.mp he with hl | hr
      · exact sa_chord_notes_events_vel st measure intensity _ _ _ _ e hl
      · exact ih _ e hr
    · exact ih _ e he

theorem generate_accompaniment_pattern_vel (st : SongS) (styleO : Option MusicStyle)
    (measure : ℕ) (intensity : ℚ) (chord : List ℤ) (start bd : ℚ) (s : RS) :
    ∀ e ∈ (generate_accompaniment_pattern (some st) styleO measure intensity chord start bd
        s).1, 1 ≤ e.vel ∧ e.vel ≤ 127 := by
  intro e he
  simp only [generate_accompaniment_pattern, create_stab_pattern, create_filtered_pattern]
    at he
  split_ifs at he
  · exact sa_stab_loop_vel st measure intensity chord start bd _ _ e he
  · exact create_arpeggio_pattern_vel st measure intensity chord start bd _ e he
  · exact create_sustained_pattern_vel st measure intensity chord start _ e he
  · exact sa_filtered_loop_vel st measure intensity chord start bd _ _ e he
  · simp at he

theorem synth_accomp_measure_loop_vel (st : SongS) (styleO : Option MusicStyle) (bd : ℚ) :
    ∀ (k measure : ℕ) (cur : ℚ) (s : RS),
      ∀ e ∈ (synth_accomp_measure_loop (some st) styleO bd k measure cur s).1,
        1 ≤ e.vel ∧ e.vel ≤ 127 := by
  intro k
  induction k with
  | zero =>
    intro measure cur s e he
    simp [synth_accomp_measure_loop] at he
  | succ k ih =>
    intro measure cur s e he
    simp only [synth_accomp_measure_loop] at he
    split at he
    · exact ih _ _ _ e he
    · rcases List.mem_append.mp he with hl | hr
      · exact generate_accompaniment_pattern_vel st styleO measure _ _ cur bd _ e hl
      · exact ih _ _ _ e hr

/-- With a song structure, every synth-accompaniment velocity goes
through `get_velocity_curve`, hence lies in `[1, 127]`. -/
theorem synth_accomp_generate_vel (st : SongS) (styleO : Option MusicStyle)
    (measures : ℕ) (tempo : ℤ) (s : RS) :
    ∀ e ∈ (synth_accomp_generate (some st) styleO measures tempo s).1,
      1 ≤ e.vel ∧ e.vel ≤ 127 :=
  synth_accomp_measure_loop_vel st styleO _ measures 0 0 s

theorem lead_melodic_loop_vel (st : SongS) (scale : List ℤ) (start bd : ℚ) :
    ∀ (offs : List ℚ) (i : ℕ) (idx : ℤ) (s : RS),
      ∀ e ∈ (lead_melodic_loop (some st) scale start bd i idx offs s).1,
        1 ≤ e.vel ∧ e.vel ≤ 127 := by
  intro offs
  induction offs with
  | nil =>
    intro i idx s e he
    simp [lead_melodic_loop] at he
  | cons off rest ih =>
    intro i idx s e he
    simp only [lead_melodic_loop] at he
    by_cases hp : (randU s).1 < 4/5
    · rw [if_pos hp] at he
      rcases List.mem_cons.mp he with rfl | hr
      · exact get_velocity_curve_bounds st _ _ _
      · exact ih _ _ _ e hr
    · rw [if_neg hp] at he
      exact ih _ _ _ e he

theorem create_melodic_line_vel (st : SongS) (scale : List ℤ) (start bd : ℚ) (s : RS) :
    ∀ e ∈ (create_melodic_line (some st) scale start bd s).1,
      1 ≤ e.vel ∧ e.vel ≤ 127 := by
  intro e he
  simp only [create_melodic_line] at he
  exact lead_melodic_loop_vel st scale start bd _ _ _ _ e he

theorem lead_stab_loop_vel (scale : List ℤ) (start bd : ℚ) :
    ∀ (posl : List ℚ) (s : RS),
      ∀ e ∈ (lead_stab_loop scale start bd posl s).1, 1 ≤ e.vel ∧ e.vel ≤ 127 := by
  intro posl
  induction posl with
  | nil =>
    intro s e he
    simp [lead_stab_loop] at he
  | cons pos rest ih =>
    intro s e he
    simp only [lead_stab_loop] at he
    split_ifs at he
    · rcases List.mem_cons.mp he with rfl | hr
      · exact ⟨le_trans (show (1 : ℤ) ≤ 105 by norm_num)
            (pyRandint_bounds (show (105 : ℤ) ≤ 127 by norm_num) _).1,
          (pyRandint_bounds (show (105 : ℤ) ≤ 127 by norm_num) _).2⟩
      · exact ih _ e hr
    · exact ih _ e he

theorem create_sustained_notes_vel (scale : List ℤ) (start bd : ℚ) (s : RS) :
    ∀ e ∈ (create_sustained_notes scale start bd s).1, 1 ≤ e.vel ∧ e.vel ≤ 127 := by
  intro e he
  simp only [create_sustained_notes] at he
  split_ifs at he
  · rcases List.mem_append.mp he with hl | hr
    · rcases List.mem_singleton.mp hl with rfl
      exact ⟨le_trans (show (1 : ℤ) ≤ 75 by norm_num)
          (pyRandint_bounds (show (75 : ℤ) ≤ 100 by norm_num) _).1,
        le_trans (pyRandint_bounds (show (75 : ℤ) ≤ 100 by norm_num) _).2
          (show (100 : ℤ) ≤ 127 by norm_num)⟩
    · rcases List.mem_singleton.mp hr with rfl
      exact ⟨le_trans (show (1 : ℤ) ≤ 55 by norm_num)
          (pyRandint_bounds (show (55 : ℤ) ≤ 80 by norm_num) _).1,
        le_trans (pyRandint_bounds (show (55 : ℤ) ≤ 80 by norm_num) _).2
          (show (80 : ℤ) ≤ 127 by norm_num)⟩
  · rcases List.mem_singleton.mp he with rfl
    exact ⟨le_trans (show (1 : ℤ) ≤ 75 by norm_num)
        (pyRandint_bounds (show (75 : ℤ) ≤ 100 by norm_num) _).1,
      le_trans (pyRandint_bounds (show (75 : ℤ) ≤ 100 by norm_num) _).2
        (show (100 : ℤ) ≤ 127 by norm_num)⟩
  · rcases List.mem_append.mp he with hl | hr
    · exact absurd hl (List.not_mem_nil _)
    · rcases List.mem_singleton.mp hr with rfl
      exact ⟨le_trans (show (1 : ℤ) ≤ 55 by norm_num)
          (pyRandint_bounds (show (55 : ℤ) ≤ 80 by norm_num) _).1,
        le_trans (pyRandint_bounds (show (55 : ℤ) ≤ 80 by norm_num) _).2
          (show (80 : ℤ) ≤ 127 by norm_num)⟩
  · exact absurd he (List.not_mem_nil _)

theorem lead_seq_loop_vel (start dur : ℚ) :
    ∀ (seq : List ℤ) (i : ℕ) (s : RS),
      ∀ e ∈ (lead_seq_loop start dur i seq s).1, 1 ≤ e.vel ∧ e.vel ≤ 127 := by
  intro seq
  induction seq with
  | nil =>
    intro i s e he
    simp [lead_seq_loop] at he
  | cons n rest ih =>
    intro i s e he
    simp only [lead_seq_loop] at he
    rcases List.mem_cons.mp he with rfl | hr
    · exact ⟨le_trans (show (1 : ℤ) ≤ 85 by norm_num)
          (pyRandint_bounds (show (85 : ℤ) ≤ 110 by norm_num) _).1,
        le_trans (pyRandint_bounds (show (85 : ℤ) ≤ 110 by norm_num) _).2
          (show (110 : ℤ) ≤ 127 by norm_num)⟩
    · exact ih _ _ e hr

theorem create_rapid_sequence_vel (scale : List ℤ) (start bd : ℚ) (s : RS) :
    ∀ e ∈ (create_rapid_sequence scale start bd s).1, 1 ≤ e.vel ∧ e.vel ≤ 127 := by
  intro e he
  simp only [create_rapid_sequence] at he
  exact lead_seq_loop_vel _ _ _ _ _ e he

theorem lead_measures_loop_vel (st : SongS) (style : String) (scale : List ℤ)
    (start_measure : ℕ) (start_time bd : ℚ) :
    ∀ (k measure : ℕ) (s : RS),
      ∀ e ∈ (lead_measures_loop (some st) style scale start_measure start_time bd k
          measure s).1, 1 ≤ e.vel ∧ e.vel ≤ 127 := by
  intro k
  induction k with
  | zero =>
    intro measure s e he
    simp [lead_measures_loop] at he
  | succ k ih =>
    intro measure s e he
    simp only [lead_measures_loop] at he
    rcases List.mem_append.mp he with hl | hr
    · split_ifs at hl
      · exact create_melodic_line_vel st scale _ bd _ e hl
      · exact lead_stab_loop_vel scale _ bd _ _ e hl
      · exact create_sustained_notes_vel scale _ bd _ e hl
      · exact create_rapid_sequence_vel scale _ bd _ e hl
      · simp at hl
    · exact ih _ _ e hr

theorem lead_phrases_loop_vel (st : SongS) (bd : ℚ) (measures : ℕ) :
    ∀ (starts : List ℕ) (s : RS),
      ∀ e ∈ (lead_phrases_loop (some st) bd measures starts s).1,
        1 ≤ e.vel ∧ e.vel ≤ 127 := by
  intro starts
  induction starts with
  | nil =>
    intro s e he
    simp [lead_phrases_loop] at he
  | cons ps rest ih =>
    intro s e he
    simp only [lead_phrases_loop, generate_lead_phrase] at he
    split_ifs at he
    · exact ih _ e he
    · rcases List.mem_append.mp he with hl | hr
      · exact lead_measures_loop_vel st _ _ ps _ bd _ _ _ e hl
      · exact ih _ e hr
    · exact ih _ e he

/-- With a song structure, every synth-lead velocity lies in `[1, 127]`:
melodic lines go through the curve clamp, the other styles draw from
`randint` ranges inside `[55, 127]`. -/
theorem synth_lead_generate_vel (st : SongS) (measures : ℕ) (tempo : ℤ) (s : RS) :
    ∀ e ∈ (synth_lead_generate (some st) measures tempo s).1,
      1 ≤ e.vel ∧ e.vel ≤ 127 :=
  lead_phrases_loop_vel st _ measures _ s

/-! ## Claims C3 and C4 -/

/-- The velocity well-formedness property the specification claims of
every emitted event: velocity in `[0, 127]`, with `0` permitted only on
note-off, and every note-on velocity in `[1, 127]`. -/
def velocity_ok (e : Ev) : Prop :=
  0 ≤ e.vel ∧ e.vel ≤ 127 ∧ (e.kind = EvKind.on → 1 ≤ e.vel)

/-- C3: every event emitted by each of the five generators constructed
with a song structure — percussion, bassline, sub-bass, synth
accompaniment and synth lead — for any measures, tempo, style, swing and
random stream, has velocity in `[0, 127]`, velocity `0` only on
note-off, and note-on velocity in `[1, 127]`.  (In fact all note-ons sit
in `[1, 127]` and the only note-offs, the sub-bass releases, sit in
`[60, 80]`.) -/
theorem claim_C3_velocity_bounds (st : SongS) (styleO : Option MusicStyle)
    (beats : ℕ) (inst_swing : ℚ) (measures : ℕ) (tempo : ℤ) (swingO : Option ℚ)
    (s1 s2 s3 s4 s5 : RS) :
    (∀ e ∈ (rhythm_generate (some st) styleO beats inst_swing measures tempo swingO s1).1,
      velocity_ok e) ∧
    (∀ e ∈ (bassline_generate (some st) styleO measures tempo s2).1, velocity_ok e) ∧
    (∀ e ∈ (sub_bass_generate (some st) beats measures tempo s3).1, velocity_ok e) ∧
    (∀ e ∈ (synth_accomp_generate (some st) styleO measures tempo s4).1, velocity_ok e) ∧
    (∀ e ∈ (synth_lead_generate (some st) measures tempo s5).1, velocity_ok e) := by
  refine ⟨fun e he => ?_, fun e he => ?_, fun e he => ?_, fun e he => ?_, fun e he => ?_⟩
  · obtain ⟨h1, h2⟩ := rhythm_generate_vel (some st) styleO beats inst_swing measures
      tempo swingO s1 e he
    exact ⟨by linarith, h2, fun _ => h1⟩
  · obtain ⟨h1, h2⟩ := bassline_generate_vel (some st) styleO measures tempo s2 e he
    exact ⟨by linarith, h2, fun _ => h1⟩
  · exact sub_bass_generate_vel st beats measures tempo s3 e he
  · obtain ⟨h1, h2⟩ := synth_accomp_generate_vel st styleO measures tempo s4 e he
    exact ⟨by linarith, h2, fun _ => h1⟩
  · obtain ⟨h1, h2⟩ := synth_lead_generate_vel st measures tempo s5 e he
    exact ⟨by linarith, h2, fun _ => h1⟩

/-- The full-track pipeline of `main.py`: one shared random stream
threads the `SongStructure` construction and the five generators in call
order (rhythm, bassline, sub-bass, synth accompaniment, synth lead). -/
def fullTrack (styleO : Option MusicStyle) (beats : ℕ) (swing : ℚ) (measures : ℕ)
    (tempo : ℤ) (s : RS) :
    SongS × List Ev × List Ev × List Ev × List Ev × List Ev × RS :=
  let stp := mkSongStructure measures styleO s
  let r := rhythm_generate (some stp.1) styleO beats swing measures tempo (some swing) stp.2
  let b := bassline_generate (some stp.1) styleO measures tempo r.2
  let sb := sub_bass_generate (some stp.1) beats measures tempo b.2
  let sa := synth_accomp_generate (some stp.1) styleO measures tempo sb.2
  let sl := synth_lead_generate (some stp.1) measures tempo sa.2
  (stp.1, r.1, b.1, sb.1, sa.1, sl.1, sl.2)

/-- C4: two independent full-track generations with identical inputs
(measures, tempo, style, swing, time signature) whose shared random
source starts from the same seed state produce the identical song
structure and identical event lists from all five generators.  All
randomness in the pipeline is drawn from the single stream threaded
through `fullTrack`; no other input influences the output. -/
theorem claim_C4_determinism (styleO : Option MusicStyle) (beats : ℕ) (swing : ℚ)
    (measures : ℕ) (tempo : ℤ) (s1 s2 : RS) (h : s1 = s2) :
    fullTrack styleO beats swing measures tempo s1 =
      fullTrack styleO beats swing measures tempo s2 := by
  rw [h]

/-- C4 witness: the two-run equality at concrete inputs. -/
theorem claim_C4_determinism_witness :
    fullTrack none 4 0 2 120 ⟨fun _ => 0, 0⟩ = fullTrack none 4 0 2 120 ⟨fun _ => 0, 0⟩ :=
  claim_C4_determinism none 4 0 2 120 ⟨fun _ => 0, 0⟩ ⟨fun _ => 0, 0⟩ rfl

end AG

